import Mathlib

/-!
# ZSphere provider: VM instance lifecycle, image Create and list filters

Shallow embedding of `internal/provider/resource_zsphere_instance.go`,
`internal/provider/resource_zsphere_image.go` (Create), `internal/utils/utils.go`,
`internal/utils/filter.go` and `internal/utils/field_mapping.go`.

* Terraform framework values (`types.String`, `types.Bool`, `types.Int64`,
  `types.List`, `types.Object`) are values of `Tf α`: null, unknown or known.
* The Cloud API client is an oracle: every operation receives the list of calls
  made before it (the history) and answers with a result or an error message.
  A lifecycle operation returns the calls it made, in order, the error
  diagnostics it reported and the state it stored.
* Go `int64` is `Int`, multiplication wraps to 64 bits, division truncates.
* What the code takes from outside the repository is a parameter: the boot-mode tag
  constants of the SDK and the standard library functions `strings.ToLower` and
  `strings.Title`. A Go map that is ranged over is given by the orders in which its
  entries are visited. A run that the Go runtime stops (index out of range) is a value
  of `Run`.
* The operations receive a materialised plan or state: `req.Plan.Get` and
  `req.State.Get` succeed, and decoding a known list into a slice of model structs
  (`ElementsAs`) succeeds.
-/

namespace ZSphere

/-! ## Framework values -/

/-- A framework attribute value: `types.StringNull()`, an unknown value, or
`types.StringValue v` (likewise for the other attribute types). -/
inductive Tf (α : Type) where
  | null : Tf α
  | unknown : Tf α
  | known (v : α) : Tf α
  deriving DecidableEq, Repr

namespace Tf

/-- The method `IsNull`. -/
def IsNull {α : Type} : Tf α → Bool
  | null => true
  | _ => false

/-- The method `IsUnknown`. -/
def IsUnknown {α : Type} : Tf α → Bool
  | unknown => true
  | _ => false

/-- The method `ValueString`: the empty string unless the value is known. -/
def ValueString : Tf String → String
  | known v => v
  | _ => ""

/-- The method `ValueBool`: false unless the value is known. -/
def ValueBool : Tf Bool → Bool
  | known v => v
  | _ => false

/-- The method `ValueInt64`: zero unless the value is known. -/
def ValueInt64 : Tf Int → Int
  | known v => v
  | _ => 0

/-- The method `ValueStringPointer`: nil for null, else a pointer to `ValueString`. -/
def ValueStringPointer : Tf String → Option String
  | null => none
  | unknown => some ""
  | known v => some v

/-- The method `ValueInt64Pointer`: nil for null, else a pointer to `ValueInt64`. -/
def ValueInt64Pointer : Tf Int → Option Int
  | null => none
  | unknown => some 0
  | known v => some v

/-- The method `Elements` of a list value: no element unless the list is known. -/
def Elements {α : Type} : Tf (List α) → List α
  | known l => l
  | _ => []

end Tf

/-- The function `types.ListValueFrom` on a slice that was declared nil and grown by
`append`: a nil slice (nothing appended) gives the null list. -/
def listValueFromAppended {α : Type} (xs : List α) : Tf (List α) :=
  match xs with
  | [] => Tf.null
  | _ :: _ => Tf.known xs

/-! ## utils.go -/

/-- Reduction of an integer to the two's complement `int64` range. -/
def wrap64 (x : Int) : Int := (x + 2 ^ 63) % 2 ^ 64 - 2 ^ 63

/-- Go `int64` multiplication. -/
def mul64 (a b : Int) : Int := wrap64 (a * b)

/-- Go integer division (truncation toward zero) by a non-zero constant. -/
def div64 (a b : Int) : Int := Int.tdiv a b

def MBToBytes (mb : Int) : Int := mul64 (mul64 mb 1024) 1024

def BytesToMB (bytes : Int) : Int := div64 bytes (1024 * 1024)

def BytesToGB (bytes : Int) : Int := div64 bytes (1024 * 1024 * 1024)

def GBToBytes (gb : Int) : Int := mul64 (mul64 (mul64 gb 1024) 1024) 1024

/-! ## Models of resource_zsphere_instance.go -/

structure diskModel where
  Size : Tf Int
  VirtioSCSI : Tf Bool
  PrimaryStorageUuid : Tf String
  CephPoolName : Tf String
  deriving DecidableEq, Repr

structure NicsModel where
  Uuid : Tf String
  Ip : Tf String
  Netmask : Tf String
  Gateway : Tf String
  deriving DecidableEq, Repr

structure NetworkInterfaceModel where
  L3NetworkUuid : Tf String
  DefaultL3 : Tf Bool
  StaticIp : Tf String
  deriving DecidableEq, Repr

structure vmInstanceDataSourceModel where
  Uuid : Tf String
  Name : Tf String
  ImageUuid : Tf String
  NetworkInterfaces : Tf (List NetworkInterfaceModel)
  RootDisk : Tf diskModel
  DataDisks : Tf (List diskModel)
  ZoneUuid : Tf String
  ClusterUuid : Tf String
  HostUuid : Tf String
  Description : Tf String
  Strategy : Tf String
  MemorySize : Tf Int
  CPUNum : Tf Int
  NeverStop : Tf Bool
  UserData : Tf String
  VMNics : Tf (List NicsModel)
  Expunge : Tf Bool
  deriving DecidableEq, Repr

/-! ## The Cloud API client (SDK views and parameters read by the provider) -/

/-- The fields of the SDK NIC view that the provider reads. -/
structure VmNicInventoryView where
  UUID : String
  IP : String
  Netmask : String
  Gateway : String
  L3NetworkUUID : String
  deriving DecidableEq, Repr

/-- The fields of the SDK volume view that the provider reads (`Type_` is its field `Type`). -/
structure VolumeView where
  UUID : String
  Type_ : String
  PrimaryStorageUUID : String
  deriving DecidableEq, Repr

/-- The fields of the SDK instance view that the provider reads. -/
structure VmInstanceInventoryView where
  UUID : String
  Name : String
  Description : String
  ImageUUID : String
  MemorySize : Int
  CPUNum : Int
  DefaultL3NetworkUUID : String
  VMNics : List VmNicInventoryView
  AllVolumes : List VolumeView
  deriving DecidableEq, Repr

/-- The fields of the SDK image view that the provider reads. -/
structure ImageView where
  Status : String
  State : String
  deriving DecidableEq, Repr

structure PoolView where
  PoolName : String
  deriving DecidableEq, Repr

/-- The fields of the SDK primary storage view that the provider reads. -/
structure PrimaryStorageInventoryView where
  Pools : List PoolView
  deriving DecidableEq, Repr

/-- The delete mode passed to destroy and delete calls. -/
inductive DeleteMode where
  | Permissive
  | Enforcing
  deriving DecidableEq, Repr

/-- A query built by `param.NewQueryParam`, `AddQ` and `Limit`. -/
structure QueryParam where
  Conditions : List String
  LimitValue : Option Int
  deriving DecidableEq, Repr

structure CreateVmInstanceParam where
  SystemTags : List String
  UserTags : List String
  RequestIp : String
  Name : String
  ImageUUID : String
  L3NetworkUuids : List String
  Type_ : String
  RootDiskSize : Option Int
  PrimaryStorageUuidForRootVolume : Option String
  DataDiskSizes : List Int
  DataDiskOfferingUuids : List String
  ZoneUuid : String
  ClusterUUID : String
  HostUuid : String
  Description : String
  DefaultL3NetworkUuid : String
  TagUuids : List String
  Strategy : String
  MemorySize : Int
  CpuNum : Int
  RootVolumeSystemTags : List String
  DataVolumeSystemTags : List String
  deriving DecidableEq, Repr

/-- A call of the Cloud API client, with its arguments. -/
inductive Call where
  | GetVmInstance (uuid : String)
  | DestroyVmInstance (uuid : String) (mode : DeleteMode)
  | DeleteDataVolume (uuid : String) (mode : DeleteMode)
  | ExpungeVmInstance (uuid : String)
  | ExpungeDataVolume (uuid : String)
  | QueryPrimaryStorage (q : QueryParam)
  | GetImage (uuid : String)
  | CreateVmInstance (p : CreateVmInstanceParam)
  deriving DecidableEq, Repr

/-- The remote side. Each operation sees the calls made before it. An operation that
returns only a Go `error` answers `none` for nil and `some msg` for an error. -/
structure ZSClient where
  GetVmInstance : List Call → String → Except String VmInstanceInventoryView
  DestroyVmInstance : List Call → String → DeleteMode → Option String
  DeleteDataVolume : List Call → String → DeleteMode → Option String
  ExpungeVmInstance : List Call → String → Option String
  ExpungeDataVolume : List Call → String → Option String
  QueryPrimaryStorage : List Call → QueryParam → Except String (List PrimaryStorageInventoryView)
  GetImage : List Call → String → Except String ImageView
  CreateVmInstance : List Call → CreateVmInstanceParam → Except String VmInstanceInventoryView

/-- An error diagnostic added with `resp.Diagnostics.AddError`. -/
structure Diagnostic where
  Summary : String
  Detail : String
  deriving DecidableEq, Repr

/-- What a lifecycle operation leaves behind: the client calls it made, in order, the
error diagnostics it reported, and the state written by `resp.State.Set` (`none` when
the operation returned without writing). -/
structure Response where
  Calls : List Call
  Diagnostics : List Diagnostic
  State : Option vmInstanceDataSourceModel
  deriving DecidableEq, Repr

/-- The method `Diagnostics.HasError`. -/
def Response.HasError (r : Response) : Bool := !r.Diagnostics.isEmpty

/-! ## Delete -/

/-- The loop of `Delete` collecting the identifiers of the volumes of type "Data". -/
def dataVolumeUuids : List VolumeView → List String
  | [] => []
  | volume :: rest =>
    if volume.Type_ != "Data" then dataVolumeUuids rest
    else volume.UUID :: dataVolumeUuids rest

/-- The loop `for _, uuid := range volumeUuids` calling `DeleteDataVolume`: the calls
made so far and the error of the call that failed, if one did. -/
def deleteDataVolumes (c : ZSClient) : List Call → List String → List Call × Option String
  | h, [] => (h, none)
  | h, uuid :: rest =>
    match c.DeleteDataVolume h uuid DeleteMode.Permissive with
    | some err => (h ++ [Call.DeleteDataVolume uuid DeleteMode.Permissive], some err)
    | none => deleteDataVolumes c (h ++ [Call.DeleteDataVolume uuid DeleteMode.Permissive]) rest

/-- The loop `for _, uuid := range volumeUuids` calling `ExpungeDataVolume`. -/
def expungeDataVolumes (c : ZSClient) : List Call → List String → List Call × Option String
  | h, [] => (h, none)
  | h, uuid :: rest =>
    match c.ExpungeDataVolume h uuid with
    | some err => (h ++ [Call.ExpungeDataVolume uuid], some err)
    | none => expungeDataVolumes c (h ++ [Call.ExpungeDataVolume uuid]) rest

/-- The method `vmResource.Delete`. Delete never writes a state. -/
def Delete (c : ZSClient) (state : vmInstanceDataSourceModel) : Response :=
  if state.Uuid = Tf.known "" then
    { Calls := [], Diagnostics := [], State := none }
  else
    let uuid := state.Uuid.ValueString
    match c.GetVmInstance [] uuid with
    | .error err =>
      { Calls := [Call.GetVmInstance uuid],
        Diagnostics := [⟨"Could not read vm instance", "Error: " ++ err⟩], State := none }
    | .ok vm =>
      let h1 := [Call.GetVmInstance uuid]
      let volumeUuids := dataVolumeUuids vm.AllVolumes
      match c.DestroyVmInstance h1 uuid DeleteMode.Permissive with
      | some err =>
        { Calls := h1 ++ [Call.DestroyVmInstance uuid DeleteMode.Permissive],
          Diagnostics := [⟨"Could not destroy vm instance", "Error: " ++ err⟩], State := none }
      | none =>
        let h2 := h1 ++ [Call.DestroyVmInstance uuid DeleteMode.Permissive]
        match deleteDataVolumes c h2 volumeUuids with
        | (h3, some err) =>
          { Calls := h3,
            Diagnostics := [⟨"Could not delete data volume", "Error: " ++ err⟩], State := none }
        | (h3, none) =>
          let expunge :=
            if !state.Expunge.IsNull && !state.Expunge.IsUnknown then state.Expunge.ValueBool
            else false
          if expunge then
            match c.ExpungeVmInstance h3 uuid with
            | some err =>
              { Calls := h3 ++ [Call.ExpungeVmInstance uuid],
                Diagnostics := [⟨"Could not expunge vm instance", "Error: " ++ err⟩],
                State := none }
            | none =>
              match expungeDataVolumes c (h3 ++ [Call.ExpungeVmInstance uuid]) volumeUuids with
              | (h5, some err) =>
                { Calls := h5,
                  Diagnostics := [⟨"Could not expunge data volume", "Error: " ++ err⟩],
                  State := none }
              | (h5, none) => { Calls := h5, Diagnostics := [], State := none }
          else
            { Calls := h3, Diagnostics := [], State := none }

/-! ## Read -/

/-- One iteration of the loop of `Read` over the stored interfaces: an entry with a
non-null, non-empty static IP is written into the Go map `originalNetworkInterfaces`
under its network reference (a later write replaces an earlier one). -/
def rememberStaticIp (m : String → Option String) (oldNic : NetworkInterfaceModel) :
    String → Option String :=
  if !oldNic.StaticIp.IsNull && oldNic.StaticIp.ValueString != "" then
    fun k => if k = oldNic.L3NetworkUuid.ValueString then some oldNic.StaticIp.ValueString else m k
  else m

/-- The Go map `originalNetworkInterfaces` built by `Read` from the stored list. -/
def originalNetworkInterfaces (stored : Tf (List NetworkInterfaceModel)) :
    String → Option String :=
  if !stored.IsNull && stored.Elements.length > 0 then
    stored.Elements.foldl rememberStaticIp (fun _ => none)
  else fun _ => none

/-- The loops of `Create` and `Read` building the `vm_nics` slice from the realized NICs. -/
def vmNicsOf (nics : List VmNicInventoryView) : List NicsModel :=
  nics.map fun nic =>
    { Uuid := Tf.known nic.UUID, Ip := Tf.known nic.IP,
      Netmask := Tf.known nic.Netmask, Gateway := Tf.known nic.Gateway }

/-- The body of the loop of `Read` over the realized NICs: one reconciled entry. -/
def reconcileNic (vm : VmInstanceInventoryView) (original : String → Option String)
    (nic : VmNicInventoryView) : NetworkInterfaceModel :=
  { L3NetworkUuid := Tf.known nic.L3NetworkUUID,
    DefaultL3 := Tf.known
      (vm.DefaultL3NetworkUUID != "" && nic.L3NetworkUUID == vm.DefaultL3NetworkUUID),
    StaticIp :=
      match original nic.L3NetworkUUID with
      | some ip => if ip == nic.IP then Tf.known ip else Tf.null
      | none => Tf.null }

/-- The state written by `Read`, given the stored state and the answer of `GetVmInstance`. -/
def readState (state : vmInstanceDataSourceModel)
    (r : Except String VmInstanceInventoryView) : vmInstanceDataSourceModel :=
  match r with
  | .error _ => { state with Uuid := Tf.known "" }
  | .ok vm =>
    { state with
      Uuid := Tf.known vm.UUID
      Name := Tf.known vm.Name
      Description := Tf.known vm.Description
      ImageUuid := Tf.known vm.ImageUUID
      MemorySize := Tf.known (BytesToMB vm.MemorySize)
      CPUNum := Tf.known vm.CPUNum
      VMNics := listValueFromAppended (vmNicsOf vm.VMNics)
      NetworkInterfaces :=
        listValueFromAppended
          (vm.VMNics.map (reconcileNic vm (originalNetworkInterfaces state.NetworkInterfaces))) }

/-- The method `vmResource.Read`. -/
def Read (c : ZSClient) (state : vmInstanceDataSourceModel) : Response :=
  { Calls := [Call.GetVmInstance state.Uuid.ValueString],
    Diagnostics := [],
    State := some (readState state (c.GetVmInstance [] state.Uuid.ValueString)) }

/-! ## Create -/

/-- The function `isDiskParamValid`: the calls made so far and the error, if any. -/
def isDiskParamValid (c : ZSClient) (h : List Call) (model : diskModel) :
    List Call × Option String :=
  if model.PrimaryStorageUuid.IsNull || model.PrimaryStorageUuid.ValueString == "" then
    (h, none)
  else
    let dataDiskPrimaryStorageUuid := model.PrimaryStorageUuid.ValueString
    let dataDiskCephPoolName := model.CephPoolName.ValueString
    let qparam : QueryParam :=
      { Conditions := ["uuid=" ++ dataDiskPrimaryStorageUuid, "state=Enabled"],
        LimitValue := some 1 }
    let h1 := h ++ [Call.QueryPrimaryStorage qparam]
    match c.QueryPrimaryStorage h qparam with
    | .error err =>
      (h1, some ("failed to get primary storage " ++ dataDiskPrimaryStorageUuid ++
        ", err: " ++ err))
    | .ok [] =>
      (h1, some ("unable to find primary storage " ++ dataDiskPrimaryStorageUuid ++
        ", err: <nil>"))
    | .ok (first :: _) =>
      if dataDiskCephPoolName != "" then
        if first.Pools.any (fun pool => pool.PoolName == dataDiskCephPoolName) then (h1, none)
        else (h1, some ("unable to find pool name " ++ dataDiskCephPoolName))
      else (h1, none)

/-- The zero value of `diskModel` (the declaration `var rootDiskPlan diskModel`). -/
def diskModel.zero : diskModel :=
  { Size := Tf.null, VirtioSCSI := Tf.null, PrimaryStorageUuid := Tf.null,
    CephPoolName := Tf.null }

/-- What the section SET ROOT DISK of `Create` leaves in the local variables. -/
structure RootDiskSetup where
  calls : List Call
  rootDiskPlan : diskModel
  primaryStorageUuidForRootVolume : Option String
  rootDiskSystemTags : List String
  deriving DecidableEq, Repr

/-- The section SET ROOT DISK of `Create`; an error is an early return. -/
def setRootDisk (c : ZSClient) (rootDisk : Tf diskModel) : Except Response RootDiskSetup :=
  match rootDisk with
  | Tf.null =>
    .ok { calls := [], rootDiskPlan := diskModel.zero,
          primaryStorageUuidForRootVolume := none, rootDiskSystemTags := [] }
  | Tf.unknown =>
    .error { Calls := [],
             Diagnostics := [⟨"Value Conversion Error", "unhandled unknown value"⟩],
             State := none }
  | Tf.known rootDiskPlan =>
    match isDiskParamValid c [] rootDiskPlan with
    | (h, some err) =>
      .error { Calls := h,
               Diagnostics := [⟨"Params Error", "invalid rootDiskPlan param, err: " ++ err⟩],
               State := none }
    | (h, none) =>
      .ok { calls := h,
            rootDiskPlan :=
              if !rootDiskPlan.Size.IsNull then
                { rootDiskPlan with Size := Tf.known (GBToBytes rootDiskPlan.Size.ValueInt64) }
              else rootDiskPlan,
            primaryStorageUuidForRootVolume :=
              if !rootDiskPlan.PrimaryStorageUuid.IsNull &&
                  rootDiskPlan.PrimaryStorageUuid.ValueString != "" then
                rootDiskPlan.PrimaryStorageUuid.ValueStringPointer
              else none,
            rootDiskSystemTags :=
              if !rootDiskPlan.CephPoolName.IsNull &&
                  rootDiskPlan.CephPoolName.ValueString != "" then
                ["ceph::rootPoolName::" ++ rootDiskPlan.CephPoolName.ValueString]
              else [] }

/-- The loop of `Create` over the planned data disks, with the slices `dataDiskSizes`
and `dataVolumeSystemTagsOnIndex` as accumulators; `none` is the early return on a
disk without a size. -/
def collectDataDisks : List diskModel → List Int → List String →
    Option (List Int × List String)
  | [], dataDiskSizes, dataVolumeSystemTagsOnIndex =>
    some (dataDiskSizes, dataVolumeSystemTagsOnIndex)
  | disk :: rest, dataDiskSizes, dataVolumeSystemTagsOnIndex =>
    if !disk.Size.IsNull then
      collectDataDisks rest (dataDiskSizes ++ [GBToBytes disk.Size.ValueInt64])
        (if disk.VirtioSCSI.ValueBool then
          dataVolumeSystemTagsOnIndex ++ ["capability::virtio-scsi"]
         else dataVolumeSystemTagsOnIndex)
    else none

/-- What the section SET DATA DISK of `Create` leaves in the local variables. -/
structure DataDiskSetup where
  calls : List Call
  dataDiskSizes : List Int
  dataDiskSystemTags : List String
  deriving DecidableEq, Repr

/-- The section SET DATA DISK of `Create`, started after the calls `h`. Decoding an
unknown list fails, the failure is dropped and the slice stays nil. -/
def setDataDisks (c : ZSClient) (h : List Call) (dataDisks : Tf (List diskModel)) :
    Except Response DataDiskSetup :=
  if !dataDisks.IsNull then
    let dataDisksPlan := dataDisks.Elements
    match collectDataDisks dataDisksPlan [] [] with
    | none =>
      .error { Calls := h,
               Diagnostics :=
                 [⟨"Params Error",
                   "dataDisk offering_uuid and size cannot be null at the same time"⟩],
               State := none }
    | some (dataDiskSizes, dataVolumeSystemTagsOnIndex) =>
      match dataDisksPlan with
      | [] => .ok { calls := h, dataDiskSizes := dataDiskSizes, dataDiskSystemTags := [] }
      | first :: _ =>
        match isDiskParamValid c h first with
        | (h1, some err) =>
          .error { Calls := h1,
                   Diagnostics := [⟨"Params Error", "invalid dataDisk param, err: " ++ err⟩],
                   State := none }
        | (h1, none) =>
          .ok { calls := h1, dataDiskSizes := dataDiskSizes,
                dataDiskSystemTags :=
                  (if !first.CephPoolName.IsNull && first.CephPoolName.ValueString != "" then
                    ["ceph::pool::" ++ first.CephPoolName.ValueString]
                   else []) ++ dataVolumeSystemTagsOnIndex }
  else .ok { calls := h, dataDiskSizes := [], dataDiskSystemTags := [] }

/-- The local variables written by the loop of `Create` over the requested interfaces. -/
structure NetworkSetup where
  l3NetworkUuids : List String
  defaultL3Uuid : String
  systemTags : List String
  createNics : List NetworkInterfaceModel
  deriving DecidableEq, Repr

/-- One iteration of the loop of `Create` over the requested interfaces. -/
def setNetworkStep (acc : NetworkSetup) (nic : NetworkInterfaceModel) : NetworkSetup :=
  let l3uuid := nic.L3NetworkUuid.ValueString
  let noStaticIp := nic.StaticIp.IsNull || nic.StaticIp.ValueString == ""
  { l3NetworkUuids := acc.l3NetworkUuids ++ [l3uuid],
    defaultL3Uuid := if nic.DefaultL3.ValueBool then l3uuid else acc.defaultL3Uuid,
    systemTags :=
      if noStaticIp then acc.systemTags
      else acc.systemTags ++ ["staticIp::" ++ l3uuid ++ "::" ++ nic.StaticIp.ValueString],
    createNics := acc.createNics ++
      [{ L3NetworkUuid := nic.L3NetworkUuid, DefaultL3 := nic.DefaultL3,
         StaticIp := if noStaticIp then Tf.null else nic.StaticIp }] }

/-- The loop of `Create` over the requested interfaces. -/
def setNetwork (inputNics : List NetworkInterfaceModel) : NetworkSetup :=
  inputNics.foldl setNetworkStep
    { l3NetworkUuids := [], defaultL3Uuid := "", systemTags := [], createNics := [] }

/-- The inner loop of the normalisation of `Create`: the IP of the first realized NIC
on the network, the empty string when there is none. -/
def realIP (vmNics : List VmNicInventoryView) (l3 : String) : String :=
  match vmNics with
  | [] => ""
  | vmNic :: rest => if vmNic.L3NetworkUUID == l3 then vmNic.IP else realIP rest l3

/-- The loop of `Create` building `updatedNics` from `createNics` and the response. -/
def updatedNicsOf (createNics : List NetworkInterfaceModel)
    (inst : VmInstanceInventoryView) : List NetworkInterfaceModel :=
  createNics.map fun nic =>
    { L3NetworkUuid := nic.L3NetworkUuid, DefaultL3 := nic.DefaultL3,
      StaticIp :=
        if nic.StaticIp.IsNull || nic.StaticIp.ValueString == "" then
          Tf.known (realIP inst.VMNics nic.L3NetworkUuid.ValueString)
        else nic.StaticIp }

/-- The loop `for i, disk := range inst.AllVolumes` of `Create`, writing the
placement of volume `i` into planned data disk `i` while `i < len(dataDisksPlan)`. -/
def setPlacement : List diskModel → List VolumeView → List diskModel
  | [], _ => []
  | ds, [] => ds
  | d :: ds, disk :: rest =>
    { d with PrimaryStorageUuid := Tf.known disk.PrimaryStorageUUID } :: setPlacement ds rest

/-- The data-disk list stored by `Create`: untouched when null; an unknown list fails
to decode, leaving a nil slice that is stored as the null list. -/
def storedDataDisks (dataDisks : Tf (List diskModel)) (allVolumes : List VolumeView) :
    Tf (List diskModel) :=
  match dataDisks with
  | Tf.null => Tf.null
  | Tf.unknown => Tf.null
  | Tf.known dataDisksPlan => Tf.known (setPlacement dataDisksPlan allVolumes)

/-- The state stored by `Create` from the plan and the response of the create call. -/
def createState (plan : vmInstanceDataSourceModel) (createNics : List NetworkInterfaceModel)
    (inst : VmInstanceInventoryView) : vmInstanceDataSourceModel :=
  { plan with
    Uuid := Tf.known inst.UUID
    Name := Tf.known inst.Name
    Description := Tf.known inst.Description
    MemorySize := Tf.known (BytesToMB inst.MemorySize)
    CPUNum := Tf.known inst.CPUNum
    NetworkInterfaces := listValueFromAppended (updatedNicsOf createNics inst)
    DataDisks := storedDataDisks plan.DataDisks inst.AllVolumes
    VMNics := listValueFromAppended (vmNicsOf inst.VMNics) }

/-- The request built by `Create`. -/
def createVmInstanceParam (plan : vmInstanceDataSourceModel) (root : RootDiskSetup)
    (data : DataDiskSetup) (net : NetworkSetup) : CreateVmInstanceParam :=
  { SystemTags :=
      (net.systemTags ++
        (if !plan.NeverStop.IsNull && plan.NeverStop.ValueBool then ["ha::NeverStop"] else [])) ++
        (if !plan.UserData.IsNull && plan.UserData.ValueString != "" then
          ["userdata::" ++ plan.UserData.ValueString] else []),
    UserTags := [],
    RequestIp := "",
    Name := plan.Name.ValueString,
    ImageUUID := plan.ImageUuid.ValueString,
    L3NetworkUuids := net.l3NetworkUuids,
    Type_ := "UserVm",
    RootDiskSize := root.rootDiskPlan.Size.ValueInt64Pointer,
    PrimaryStorageUuidForRootVolume := root.primaryStorageUuidForRootVolume,
    DataDiskSizes := data.dataDiskSizes,
    DataDiskOfferingUuids := [],
    ZoneUuid :=
      if !plan.ZoneUuid.IsNull && plan.ZoneUuid.ValueString != "" then
        plan.ZoneUuid.ValueString else "",
    ClusterUUID :=
      if !plan.ClusterUuid.IsNull && plan.HostUuid.ValueString != "" then
        plan.ClusterUuid.ValueString else "",
    HostUuid :=
      if !plan.HostUuid.IsNull && plan.HostUuid.ValueString != "" then
        plan.HostUuid.ValueString else "",
    Description := plan.Description.ValueString,
    DefaultL3NetworkUuid := net.defaultL3Uuid,
    TagUuids := [],
    Strategy := plan.Strategy.ValueString,
    MemorySize := MBToBytes plan.MemorySize.ValueInt64,
    CpuNum := plan.CPUNum.ValueInt64,
    RootVolumeSystemTags := root.rootDiskSystemTags,
    DataVolumeSystemTags := data.dataDiskSystemTags }

/-- The method `vmResource.Create`. -/
def Create (c : ZSClient) (plan : vmInstanceDataSourceModel) : Response :=
  match setRootDisk c plan.RootDisk with
  | .error r => r
  | .ok root =>
  match setDataDisks c root.calls plan.DataDisks with
  | .error r => r
  | .ok data =>
  if plan.NetworkInterfaces.IsNull || plan.NetworkInterfaces.Elements.length == 0 then
    { Calls := data.calls,
      Diagnostics :=
        [⟨"Parameter Error",
          "`network_interfaces` cannot be null or empty. At least one L3 network must be specified."⟩],
      State := none }
  else
  let net := setNetwork plan.NetworkInterfaces.Elements
  let h1 := data.calls ++ [Call.GetImage plan.ImageUuid.ValueString]
  match c.GetImage data.calls plan.ImageUuid.ValueString with
  | .error err =>
    { Calls := h1,
      Diagnostics :=
        [⟨"Params Error",
          "failed to find image " ++ plan.ImageUuid.ValueString ++ ", err: " ++ err⟩],
      State := none }
  | .ok image =>
  if image.Status != "Ready" then
    { Calls := h1,
      Diagnostics :=
        [⟨"Params Error",
          "image " ++ plan.ImageUuid.ValueString ++ " Status is " ++ image.State ++
            ", not Ready"⟩],
      State := none }
  else if image.State != "Enabled" then
    { Calls := h1,
      Diagnostics :=
        [⟨"Params Error",
          "image " ++ plan.ImageUuid.ValueString ++ " State is " ++ image.State ++
            ", not Enabled"⟩],
      State := none }
  else if !plan.Strategy.IsNull && (plan.Strategy.ValueString != "InstantStart" &&
      plan.Strategy.ValueString != "CreateStopped") then
    { Calls := h1,
      Diagnostics :=
        [⟨"Params Error",
          "strategy " ++ plan.Strategy.ValueString ++
            " is invalid, valid value is InstantStart or CreateStopped"⟩],
      State := none }
  else
  let p := createVmInstanceParam plan root data net
  let h2 := h1 ++ [Call.CreateVmInstance p]
  match c.CreateVmInstance h1 p with
  | .error err =>
    { Calls := h2,
      Diagnostics :=
        [⟨"Create VmInstance Error", "failed to create vminstance, err: " ++ err⟩],
      State := none }
  | .ok inst =>
    { Calls := h2, Diagnostics := [], State := some (createState plan net.createNics inst) }

/-! ## Words of the specification and sample inputs -/

/-- The call `DeleteDataVolume(uuid, permissive)`. -/
def deleteCall (uuid : String) : Call := Call.DeleteDataVolume uuid DeleteMode.Permissive

/-- The call `ExpungeDataVolume(uuid)`. -/
def expungeCall (uuid : String) : Call := Call.ExpungeDataVolume uuid

/-- The Data volumes of an instance, in `AllVolumes` order, as the spec words it. -/
def dataVolumesOf (vm : VmInstanceInventoryView) : List VolumeView :=
  vm.AllVolumes.filter fun volume => volume.Type_ = "Data"

/-- The identifiers of the Data volumes of an instance, in `AllVolumes` order. -/
def dataUuidsOf (vm : VmInstanceInventoryView) : List String :=
  (dataVolumesOf vm).map VolumeView.UUID

/-- The calls with which `Delete` starts: the lookup and the destroy call. -/
def destroyPrefix (uuid : String) : List Call :=
  [Call.GetVmInstance uuid, Call.DestroyVmInstance uuid DeleteMode.Permissive]

/-- An instance with one NIC and the volumes Root, Data-A, Data-B. -/
def sampleVm : VmInstanceInventoryView :=
  { UUID := "vm-1", Name := "web", Description := "", ImageUUID := "img-1",
    MemorySize := 1073741824, CPUNum := 2, DefaultL3NetworkUUID := "l3-a",
    VMNics := [⟨"nic-1", "10.0.0.5", "255.255.255.0", "10.0.0.1", "l3-a"⟩],
    AllVolumes := [⟨"Root-0", "Root", "ps-1"⟩, ⟨"Data-A", "Data", "ps-1"⟩,
      ⟨"Data-B", "Data", "ps-2"⟩] }

/-- A remote side on which every call succeeds and every instance lookup and create
call answers `vm`. -/
def okClient (vm : VmInstanceInventoryView) : ZSClient :=
  { GetVmInstance := fun _ _ => .ok vm,
    DestroyVmInstance := fun _ _ _ => none,
    DeleteDataVolume := fun _ _ _ => none,
    ExpungeVmInstance := fun _ _ => none,
    ExpungeDataVolume := fun _ _ => none,
    QueryPrimaryStorage := fun _ _ => .ok [⟨[]⟩],
    GetImage := fun _ _ => .ok ⟨"Ready", "Enabled"⟩,
    CreateVmInstance := fun _ _ => .ok vm }

/-- A remote side like `okClient` on which deleting the data volume `bad` fails. -/
def failDeleteClient (vm : VmInstanceInventoryView) (bad : String) : ZSClient :=
  { okClient vm with
    DeleteDataVolume := fun _ uuid _ => if uuid = bad then some "volume is in use" else none }

/-- A remote side like `okClient` on which destroying the instance fails. -/
def failDestroyClient (vm : VmInstanceInventoryView) : ZSClient :=
  { okClient vm with DestroyVmInstance := fun _ _ _ => some "instance is locked" }

/-- A remote side on which the instance lookup fails. -/
def goneClient : ZSClient :=
  { okClient sampleVm with GetVmInstance := fun _ _ => .error "not found" }

/-- A stored state for `sampleVm` with the given expunge flag. -/
def sampleState (expunge : Tf Bool) : vmInstanceDataSourceModel :=
  { Uuid := Tf.known "vm-1", Name := Tf.known "web", ImageUuid := Tf.known "img-1",
    NetworkInterfaces := Tf.known [⟨Tf.known "l3-a", Tf.known true, Tf.known "10.0.0.5"⟩],
    RootDisk := Tf.null, DataDisks := Tf.null, ZoneUuid := Tf.null, ClusterUuid := Tf.null,
    HostUuid := Tf.null, Description := Tf.known "", Strategy := Tf.null,
    MemorySize := Tf.known 1024, CPUNum := Tf.known 2, NeverStop := Tf.null,
    UserData := Tf.null, VMNics := Tf.null, Expunge := expunge }

/-- Whether a stored interface carries a static IP: non-null and non-empty. -/
def hasStaticIp (o : NetworkInterfaceModel) : Bool :=
  !o.StaticIp.IsNull && o.StaticIp.ValueString != ""

/-- The static IP remembered for a network reference, as the spec words it: the stored
entries with a non-empty static IP are remembered keyed by their network reference, so
the last such entry with that reference decides. -/
def rememberedStaticIp (stored : List NetworkInterfaceModel) (l3 : String) : Option String :=
  (stored.reverse.find? fun o => hasStaticIp o && o.L3NetworkUuid.ValueString == l3).map
    fun o => o.StaticIp.ValueString

/-- The static IP of a reconciled entry, as the spec words it: the remembered static IP
when the observed IP equals it, null in every other case. -/
def reconciledStaticIp (stored : List NetworkInterfaceModel) (nic : VmNicInventoryView) :
    Tf String :=
  match rememberedStaticIp stored nic.L3NetworkUUID with
  | some ip => if nic.IP = ip then Tf.known ip else Tf.null
  | none => Tf.null

/-- The instance `sampleVm` after its NIC moved to another IP. -/
def movedVm : VmInstanceInventoryView :=
  { sampleVm with VMNics := [⟨"nic-1", "10.0.0.9", "255.255.255.0", "10.0.0.1", "l3-a"⟩] }

/-- An instance whose only NIC and whose default route both carry the empty network
reference. -/
def unroutedVm : VmInstanceInventoryView :=
  { sampleVm with
    DefaultL3NetworkUUID := "",
    VMNics := [⟨"nic-1", "10.0.0.5", "255.255.255.0", "10.0.0.1", ""⟩] }

/-- The read-only lookups of the client: `QueryPrimaryStorage` and `GetImage`. -/
def Call.isLookup : Call → Bool
  | Call.QueryPrimaryStorage _ => true
  | Call.GetImage _ => true
  | _ => false

/-- A response of a rejected operation: an error diagnostic, no state written, and no
call other than read-only lookups. -/
def Response.Rejected (r : Response) : Prop :=
  r.HasError = true ∧ r.State = none ∧ ∀ call ∈ r.Calls, call.isLookup = true

/-- A plan for one instance with one interface on `l3`, flagged default, without a
static IP, and the given strategy. -/
def samplePlan (l3 : String) (strategy : Tf String) : vmInstanceDataSourceModel :=
  { Uuid := Tf.unknown, Name := Tf.known "web", ImageUuid := Tf.known "img-1",
    NetworkInterfaces := Tf.known [⟨Tf.known l3, Tf.known true, Tf.unknown⟩],
    RootDisk := Tf.null, DataDisks := Tf.null, ZoneUuid := Tf.null, ClusterUuid := Tf.null,
    HostUuid := Tf.null, Description := Tf.unknown, Strategy := strategy,
    MemorySize := Tf.known 1024, CPUNum := Tf.known 2, NeverStop := Tf.null,
    UserData := Tf.null, VMNics := Tf.unknown, Expunge := Tf.null }

/-- The relation between a requested interface and the NIC realized for it: the NIC is
on the requested network, its IP is not empty and equals the requested static IP if
there is one. -/
def nicMatches (n : NetworkInterfaceModel) (v : VmNicInventoryView) : Prop :=
  v.L3NetworkUUID = n.L3NetworkUuid.ValueString ∧ v.IP ≠ "" ∧
    (hasStaticIp n = true → v.IP = n.StaticIp.ValueString)

/-- The hypotheses of the round trip of `Create` and `Read` on a requested interface
list and a create response, as the spec words them: the required attributes of every
interface are known values, the network references are pairwise distinct, exactly one
interface is flagged default and the default route of the response is its network, and
the response has one NIC per requested interface, in the requested order, on the
requested network, with a non-empty IP equal to the requested static IP if there is one. -/
structure CreateResponseMatches (nics : List NetworkInterfaceModel)
    (inst : VmInstanceInventoryView) : Prop where
  required : ∀ n ∈ nics, n.L3NetworkUuid = Tf.known n.L3NetworkUuid.ValueString ∧
    n.DefaultL3 = Tf.known n.DefaultL3.ValueBool
  distinct : (nics.map fun n => n.L3NetworkUuid.ValueString).Nodup
  oneDefault : ∃ d ∈ nics, d.DefaultL3.ValueBool = true ∧
    (∀ n ∈ nics, n.DefaultL3.ValueBool = true → n = d) ∧
    inst.DefaultL3NetworkUUID = d.L3NetworkUuid.ValueString
  nicPerInterface : List.Forall₂ nicMatches nics inst.VMNics

/-- The interface stored by `Create` for a requested interface, given the IP found for
its network in the response. -/
def normalizedNic (ip : String → String) (n : NetworkInterfaceModel) : NetworkInterfaceModel :=
  { L3NetworkUuid := n.L3NetworkUuid, DefaultL3 := n.DefaultL3,
    StaticIp := if hasStaticIp n = true then n.StaticIp
                else Tf.known (ip n.L3NetworkUuid.ValueString) }

/-- The interface entry that both `Create` and `Read` store for a realized NIC when the
response matches the request and the default route `d` is set. -/
def realizedNic (d : String) (v : VmNicInventoryView) : NetworkInterfaceModel :=
  { L3NetworkUuid := Tf.known v.L3NetworkUUID,
    DefaultL3 := Tf.known (decide (v.L3NetworkUUID = d)),
    StaticIp := Tf.known v.IP }

/-- The conditions under which `Create` gets to the create call: both disk sections
pass, there is at least one requested interface, the image lookup answers an image that
is Ready and Enabled, and the strategy is unset or one of the two valid values. -/
structure CreatePath (c : ZSClient) (plan : vmInstanceDataSourceModel)
    (root : RootDiskSetup) (data : DataDiskSetup) (image : ImageView) : Prop where
  rootOk : setRootDisk c plan.RootDisk = .ok root
  dataOk : setDataDisks c root.calls plan.DataDisks = .ok data
  hasNics : (plan.NetworkInterfaces.IsNull ||
    plan.NetworkInterfaces.Elements.length == 0) = false
  imageOk : c.GetImage data.calls plan.ImageUuid.ValueString = .ok image
  ready : image.Status = "Ready"
  enabled : image.State = "Enabled"
  strategyOk : (!plan.Strategy.IsNull && (plan.Strategy.ValueString != "InstantStart" &&
    plan.Strategy.ValueString != "CreateStopped")) = false

/-- The response of `Create` once it got to the create call with the request `p` after
the calls `h1`. -/
def createOutcome (c : ZSClient) (plan : vmInstanceDataSourceModel) (h1 : List Call)
    (p : CreateVmInstanceParam) : Response :=
  match c.CreateVmInstance h1 p with
  | .error err =>
    { Calls := h1 ++ [Call.CreateVmInstance p],
      Diagnostics :=
        [⟨"Create VmInstance Error", "failed to create vminstance, err: " ++ err⟩],
      State := none }
  | .ok inst =>
    { Calls := h1 ++ [Call.CreateVmInstance p], Diagnostics := [],
      State := some (createState plan (setNetwork plan.NetworkInterfaces.Elements).createNics
        inst) }

/-- The calls of the disk validator: `QueryPrimaryStorage`. -/
def Call.isQuery : Call → Bool
  | Call.QueryPrimaryStorage _ => true
  | _ => false

/-- Whether a disk spec names a primary storage: the reference is non-null and non-empty. -/
def namesStorage (model : diskModel) : Bool :=
  !(model.PrimaryStorageUuid.IsNull || model.PrimaryStorageUuid.ValueString == "")

/-- The query of the disk validator for a primary storage: that uuid, state Enabled,
at most one result. -/
def storageQuery (uuid : String) : QueryParam :=
  { Conditions := ["uuid=" ++ uuid, "state=Enabled"], LimitValue := some 1 }

/-- Whether the planned root disk names a primary storage. -/
def rootNamesStorage (rootDisk : Tf diskModel) : Bool :=
  match rootDisk with
  | Tf.known d => namesStorage d
  | _ => false

/-- Whether the first planned data disk names a primary storage. -/
def firstDataNamesStorage (dataDisks : Tf (List diskModel)) : Bool :=
  match dataDisks.Elements with
  | first :: _ => namesStorage first
  | [] => false

/-- A response rejected by a configuration check: an error diagnostic, no state written,
and no call other than the primary-storage queries of the disk validator. -/
def Response.QueryRejected (r : Response) : Prop :=
  r.HasError = true ∧ r.State = none ∧ ∀ call ∈ r.Calls, call.isQuery = true

/-- A plan like `samplePlan` whose root disk names the primary storage ps-1, with the
given interface list and data-disk list. -/
def storagePlan (nics : Tf (List NetworkInterfaceModel)) (dataDisks : Tf (List diskModel)) :
    vmInstanceDataSourceModel :=
  { samplePlan "l3-a" Tf.null with
    NetworkInterfaces := nics,
    RootDisk := Tf.known
      { Size := Tf.known 40, VirtioSCSI := Tf.null, PrimaryStorageUuid := Tf.known "ps-1",
        CephPoolName := Tf.null },
    DataDisks := dataDisks }

/-- A data disk without a size. -/
def sizelessDisk : diskModel :=
  { Size := Tf.null, VirtioSCSI := Tf.null, PrimaryStorageUuid := Tf.unknown,
    CephPoolName := Tf.null }

/-- Whether an answer of the image lookup lets `Create` go on: the lookup succeeded and
the image has Status "Ready" and State "Enabled". -/
def imageUsable (r : Except String ImageView) : Bool :=
  match r with
  | .ok image => image.Status == "Ready" && image.State == "Enabled"
  | .error _ => false

/-- A remote side like `okClient` whose image is still downloading. -/
def notReadyClient : ZSClient :=
  { okClient sampleVm with GetImage := fun _ _ => .ok ⟨"Downloading", "Enabled"⟩ }

/-- A remote side like `okClient` on which the create call fails. -/
def failCreateClient : ZSClient :=
  { okClient sampleVm with CreateVmInstance := fun _ _ => .error "quota exceeded" }

/-- The static-IP tags of a request, as the spec words them: one tag
`staticIp::<network reference>::<ip>` for each requested interface whose static IP is
non-null and non-empty, in interface order. -/
def staticIpTags (nics : List NetworkInterfaceModel) : List String :=
  (nics.filter hasStaticIp).map fun n =>
    "staticIp::" ++ n.L3NetworkUuid.ValueString ++ "::" ++ n.StaticIp.ValueString

/-- The tag `ha::NeverStop`, present exactly when never_stop is set and true. -/
def neverStopTags (neverStop : Tf Bool) : List String :=
  if neverStop = Tf.known true then ["ha::NeverStop"] else []

/-- The tag `userdata::<payload>`, present exactly when user_data is set and non-empty. -/
def userDataTags (userData : Tf String) : List String :=
  match userData with
  | Tf.known payload => if payload = "" then [] else ["userdata::" ++ payload]
  | _ => []

/-- The network reference of the last interface whose default_l3 flag is true, the empty
string when no interface is flagged. -/
def lastDefaultNetwork (nics : List NetworkInterfaceModel) : String :=
  match nics.reverse.find? (fun n => n.DefaultL3 == Tf.known true) with
  | some n => n.L3NetworkUuid.ValueString
  | none => ""

/-- The IP of the first realized NIC of the response on a network, the empty string when
no realized NIC is on it. -/
def firstRealizedIp (inst : VmInstanceInventoryView) (l3 : String) : String :=
  match inst.VMNics.find? (fun v => v.L3NetworkUUID == l3) with
  | some v => v.IP
  | none => ""

/-- A plan with three interfaces: l3-a and l3-b both flagged default, l3-b pinned to
10.0.1.7, l3-c unflagged; never_stop set and a user-data payload. -/
def twoDefaultPlan : vmInstanceDataSourceModel :=
  { samplePlan "l3-a" Tf.null with
    NetworkInterfaces := Tf.known
      [⟨Tf.known "l3-a", Tf.known true, Tf.unknown⟩,
       ⟨Tf.known "l3-b", Tf.known true, Tf.known "10.0.1.7"⟩,
       ⟨Tf.known "l3-c", Tf.known false, Tf.known ""⟩],
    NeverStop := Tf.known true,
    UserData := Tf.known "#cloud-config" }

/-- The request that `Create` builds for a plan without disks. -/
def diskless (plan : vmInstanceDataSourceModel) : CreateVmInstanceParam :=
  createVmInstanceParam plan ⟨[], diskModel.zero, none, []⟩ ⟨[], [], []⟩
    (setNetwork plan.NetworkInterfaces.Elements)

/-- The interface list that `Create` stores, as the spec words it: each requested
interface keeps its network reference and its default flag; its static IP is the requested
one when that is non-null and non-empty, and otherwise the IP of the first realized NIC on
its network (the empty string when there is none). -/
def normalisedInterfaces (nics : List NetworkInterfaceModel) (inst : VmInstanceInventoryView) :
    List NetworkInterfaceModel :=
  nics.map fun n =>
    { L3NetworkUuid := n.L3NetworkUuid, DefaultL3 := n.DefaultL3,
      StaticIp := if hasStaticIp n = true then n.StaticIp
                  else Tf.known (firstRealizedIp inst n.L3NetworkUuid.ValueString) }

/-- An instance with two NICs on l3-a and one on l3-b, none on l3-c. -/
def twoNicVm : VmInstanceInventoryView :=
  { sampleVm with
    VMNics := [⟨"nic-1", "10.0.0.5", "255.255.255.0", "10.0.0.1", "l3-a"⟩,
               ⟨"nic-2", "10.0.1.7", "255.255.255.0", "10.0.1.1", "l3-b"⟩,
               ⟨"nic-3", "10.0.0.99", "255.255.255.0", "10.0.0.1", "l3-a"⟩] }

/-- The root-disk size of the request, as the spec words it: absent when no root-disk
size is given, otherwise the planned size times 1024^3 in `int64` arithmetic. -/
def plannedRootDiskSize (rootDisk : Tf diskModel) : Option Int :=
  match rootDisk with
  | Tf.known d => if d.Size.IsNull then none else some (wrap64 (d.Size.ValueInt64 * 1024 ^ 3))
  | _ => none

/-- The data-volume tags that `Create` sends: the pool tag of the first data disk when its
pool name is non-empty, then one `capability::virtio-scsi` tag for each data disk, at any
position, whose virtio_scsi flag is true. -/
def dataVolumeTags (disks : List diskModel) : List String :=
  match disks with
  | [] => []
  | first :: _ =>
    (if first.CephPoolName.ValueString = "" then []
     else ["ceph::pool::" ++ first.CephPoolName.ValueString]) ++
    (disks.filter fun d => d.VirtioSCSI.ValueBool).map fun _ => "capability::virtio-scsi"

/-- A data disk of the given size, pool name and virtio_scsi flag. -/
def dataDisk (size : Int) (pool : Tf String) (virtio : Tf Bool) : diskModel :=
  { Size := Tf.known size, VirtioSCSI := virtio, PrimaryStorageUuid := Tf.unknown,
    CephPoolName := pool }

/-- A plan like `samplePlan` with a 40 GB root disk and the given data disks, no disk
naming a primary storage. -/
def sizedPlan (dataDisks : List diskModel) : vmInstanceDataSourceModel :=
  { samplePlan "l3-a" Tf.null with
    RootDisk := Tf.known
      { Size := Tf.known 40, VirtioSCSI := Tf.null, PrimaryStorageUuid := Tf.null,
        CephPoolName := Tf.null },
    DataDisks := Tf.known dataDisks }

/-- The request that `Create` builds for `sizedPlan dataDisks` when every disk has a size. -/
def sizedRequest (dataDisks : List diskModel) : CreateVmInstanceParam :=
  createVmInstanceParam (sizedPlan dataDisks)
    ⟨[], { Size := Tf.known (GBToBytes 40), VirtioSCSI := Tf.null,
           PrimaryStorageUuid := Tf.null, CephPoolName := Tf.null }, none, []⟩
    ⟨[], dataDisks.map (fun d => GBToBytes d.Size.ValueInt64), dataVolumeTags dataDisks⟩
    (setNetwork (sizedPlan dataDisks).NetworkInterfaces.Elements)

/-- A remote side like `okClient` whose primary storage has the single pool fast. -/
def poolClient : ZSClient :=
  { okClient sampleVm with QueryPrimaryStorage := fun _ _ => .ok [⟨[⟨"fast"⟩]⟩] }

/-- A disk spec on the primary storage ps-1 with the given pool name. -/
def storageDisk (pool : Tf String) : diskModel :=
  { Size := Tf.known 10, VirtioSCSI := Tf.null, PrimaryStorageUuid := Tf.known "ps-1",
    CephPoolName := pool }

/-- The interface list in which only the last flagged interface keeps its default flag:
the flag of every interface followed by a flagged one is cleared. -/
def keepLastDefault : List NetworkInterfaceModel → List NetworkInterfaceModel
  | [] => []
  | n :: rest =>
    (if rest.any (fun m => m.DefaultL3 == Tf.known true) then
      { n with DefaultL3 := Tf.known false }
     else n) :: keepLastDefault rest

/-- The plan in which only the last flagged interface keeps its default flag. -/
def withLastDefaultOnly (plan : vmInstanceDataSourceModel) : vmInstanceDataSourceModel :=
  match plan.NetworkInterfaces with
  | Tf.known nics => { plan with NetworkInterfaces := Tf.known (keepLastDefault nics) }
  | _ => plan

/-- The number of requested interfaces whose default_l3 flag is true. -/
def defaultCount (plan : vmInstanceDataSourceModel) : Nat :=
  (plan.NetworkInterfaces.Elements.filter fun n => n.DefaultL3 == Tf.known true).length

/-- An instance whose Root volume is on ps-root and whose only Data volume is on ps-data. -/
def splitVm : VmInstanceInventoryView :=
  { sampleVm with
    AllVolumes := [⟨"Root-0", "Root", "ps-root"⟩, ⟨"Data-A", "Data", "ps-data"⟩] }

/-- A plan like `samplePlan` with the given placement fields. -/
def placedPlan (zone cluster host : Tf String) : vmInstanceDataSourceModel :=
  { samplePlan "l3-a" Tf.null with ZoneUuid := zone, ClusterUuid := cluster, HostUuid := host }

/-! ## Models of resource_zsphere_image.go -/

structure imageResourceModel where
  Uuid : Tf String
  Name : Tf String
  Description : Tf String
  Url : Tf String
  MediaType : Tf String
  GuestOsType : Tf String
  System : Tf String
  Platform : Tf String
  Format : Tf String
  BackupStorageUuids : Tf (List String)
  Architecture : Tf String
  Virtio : Tf Bool
  BootMode : Tf String
  Expunge : Tf Bool
  deriving DecidableEq, Repr

/-- The field of the SDK backup storage view that the provider reads. -/
structure BackupStorageInventoryView where
  UUID : String
  deriving DecidableEq, Repr

/-- The fields of the SDK image view that image `Create` reads from the answer of
`AddImage`. -/
structure AddedImageView where
  UUID : String
  Name : String
  Description : String
  Url : String
  GuestOsType : String
  System : String
  Platform : String
  deriving DecidableEq, Repr

/-- The request `param.AddImageParam`: the system tags of its `BaseParam` and the fields
of its `Params`. -/
structure AddImageParam where
  SystemTags : List String
  Name : String
  Description : String
  Url : String
  MediaType : String
  GuestOsType : String
  System : Bool
  Format : String
  Platform : String
  BackupStorageUuids : List String
  ResourceUuid : String
  Architecture : String
  Virtio : Bool
  deriving DecidableEq, Repr

/-- A call of the Cloud API client made by the image resource. -/
inductive ImageCall where
  | QueryBackupStorage (q : QueryParam)
  | AddImage (p : AddImageParam)
  deriving DecidableEq, Repr

/-- The operations of the Cloud API client that image `Create` uses; each sees the calls
made before it. `AddImage` answers the Go pair of an image view and an error (`none` for
nil); the view is read also when the error is set. -/
structure ImageClient where
  QueryBackupStorage : List ImageCall → QueryParam →
    Except String (List BackupStorageInventoryView)
  AddImage : List ImageCall → AddImageParam → AddedImageView × Option String

/-- What image `Create` leaves behind when it returns. -/
structure ImageResponse where
  Calls : List ImageCall
  Diagnostics : List Diagnostic
  State : Option imageResourceModel
  deriving DecidableEq, Repr

/-- The method `Diagnostics.HasError`. -/
def ImageResponse.HasError (r : ImageResponse) : Bool := !r.Diagnostics.isEmpty

/-- What the image resource takes from outside the repository: the two boot-mode tag
constants of the SDK package `param` and the standard library function
`strings.ToLower`. -/
structure Deps where
  SystemTagBootModeUEFI : String
  SystemTagBootModeLegacy : String
  ToLower : String → String

/-- The result of running a method: it returns, or the Go runtime stops it because a
slice of length `length` was indexed at `index`. -/
inductive Run (α : Type) where
  | returned (a : α) : Run α
  | indexOutOfRange (index length : Nat) : Run α
  deriving DecidableEq, Repr

/-- The boot-mode section of image `Create`: the system tags, or the error diagnostic
with which `Create` returns. -/
def bootModeTags (env : Deps) (imagePlan : imageResourceModel) :
    Except Diagnostic (List String) :=
  if imagePlan.BootMode.IsNull || imagePlan.BootMode.ValueString == "" then
    if imagePlan.Architecture.ValueString == "aarch64" then
      .ok [env.SystemTagBootModeUEFI]
    else
      .ok [env.SystemTagBootModeLegacy]
  else
    let bootMode := env.ToLower imagePlan.BootMode.ValueString
    if bootMode == "uefi" then .ok [env.SystemTagBootModeUEFI]
    else if bootMode == "legacy" then .ok [env.SystemTagBootModeLegacy]
    else .error ⟨"invalid boot mode", "invalid boot mode: " ++ bootMode⟩

/-- The defaults that image `Create` writes into the plan before building the request. -/
def withImageDefaults (imagePlan : imageResourceModel) : imageResourceModel :=
  { imagePlan with
    Description := if imagePlan.Description.IsNull then Tf.known "" else imagePlan.Description
    GuestOsType :=
      if imagePlan.GuestOsType.IsNull then Tf.known "Linux" else imagePlan.GuestOsType
    Platform := if imagePlan.Platform.IsNull then Tf.known "Linux" else imagePlan.Platform }

/-- The request built by image `Create`. -/
def addImageParam (imagePlan : imageResourceModel) (systemTags : List String)
    (backupStorageUuids : List String) : AddImageParam :=
  { SystemTags := systemTags,
    Name := imagePlan.Name.ValueString,
    Description := imagePlan.Description.ValueString,
    Url := imagePlan.Url.ValueString,
    MediaType := imagePlan.MediaType.ValueString,
    GuestOsType := imagePlan.GuestOsType.ValueString,
    System := false,
    Format := imagePlan.Format.ValueString,
    Platform := imagePlan.Platform.ValueString,
    BackupStorageUuids := backupStorageUuids,
    ResourceUuid := "",
    Architecture := imagePlan.Architecture.ValueString,
    Virtio := imagePlan.Virtio.ValueBool }

/-- The part of image `Create` that follows the choice of the backup storage: the
boot-mode section, the defaults, the `AddImage` call and the stored state. `h` are the
calls made so far. -/
def imageResource.addImage (env : Deps) (c : ImageClient) (imagePlan : imageResourceModel)
    (h : List ImageCall) (backupStorageUuids : List String) : ImageResponse :=
  match bootModeTags env imagePlan with
  | .error d => { Calls := h, Diagnostics := [d], State := none }
  | .ok systemTags =>
    let imagePlan := withImageDefaults imagePlan
    let imageParam := addImageParam imagePlan systemTags backupStorageUuids
    match c.AddImage h imageParam with
    | (image, some err) =>
      { Calls := h ++ [ImageCall.AddImage imageParam],
        Diagnostics :=
          [⟨"Could not Add image to ZSphere Image storage" ++ image.Name, "Error " ++ err⟩],
        State := none }
    | (image, none) =>
      { Calls := h ++ [ImageCall.AddImage imageParam],
        Diagnostics := [],
        State := some
          { imagePlan with
            Uuid := Tf.known image.UUID
            Name := Tf.known image.Name
            Description := Tf.known image.Description
            Url := Tf.known image.Url
            GuestOsType := Tf.known image.GuestOsType
            System := Tf.known image.System
            Platform := Tf.known image.Platform } }

/-- The method `imageResource.Create`. With image_storage_uuids null it queries the
backup storages and reads element 0 of the answer. -/
def imageResource.Create (env : Deps) (c : ImageClient) (imagePlan : imageResourceModel) :
    Run ImageResponse :=
  if imagePlan.BackupStorageUuids.IsNull then
    match c.QueryBackupStorage [] ⟨[], none⟩ with
    | .error err =>
      Run.returned
        { Calls := [ImageCall.QueryBackupStorage ⟨[], none⟩],
          Diagnostics :=
            [⟨"fail to get Image storage", "fail to get backup storage, err: " ++ err⟩],
          State := none }
    | .ok storage =>
      match storage with
      | [] => Run.indexOutOfRange 0 0
      | first :: _ =>
        Run.returned
          (imageResource.addImage env c imagePlan [ImageCall.QueryBackupStorage ⟨[], none⟩]
            [first.UUID])
  else
    Run.returned
      (imageResource.addImage env c imagePlan [] imagePlan.BackupStorageUuids.Elements)

/-- Whether boot_mode is unset: null or the empty string. -/
def bootModeUnset (imagePlan : imageResourceModel) : Bool :=
  imagePlan.BootMode.IsNull || imagePlan.BootMode.ValueString == ""

/-- The boot tag chosen for an image without boot_mode: UEFI for the architecture
"aarch64", legacy for every other architecture value. -/
def defaultBootTag (env : Deps) (architecture : Tf String) : String :=
  if architecture.ValueString = "aarch64" then env.SystemTagBootModeUEFI
  else env.SystemTagBootModeLegacy

/-- Whether image `Create` gets past the choice of the backup storage: image_storage_uuids
is given, or the query answers at least one storage. -/
def storageChosen (c : ImageClient) (imagePlan : imageResourceModel) : Bool :=
  if imagePlan.BackupStorageUuids.IsNull then
    match c.QueryBackupStorage [] ⟨[], none⟩ with
    | .ok (_ :: _) => true
    | _ => false
  else true

/-- ASCII lower-casing, a sample for `strings.ToLower`. -/
def asciiLower (s : String) : String := String.mk (s.data.map Char.toLower)

/-- Sample values for what the image resource takes from outside the repository. -/
def sampleDeps : Deps :=
  { SystemTagBootModeUEFI := "bootMode::UEFI", SystemTagBootModeLegacy := "bootMode::Legacy",
    ToLower := asciiLower }

/-- The image view that the sample remote side answers to `AddImage`. -/
def sampleImage : AddedImageView :=
  { UUID := "img-9", Name := "ubuntu", Description := "", Url := "http://mirror/ubuntu.qcow2",
    GuestOsType := "Linux", System := "false", Platform := "Linux" }

/-- A remote side with the given backup storages on which `AddImage` succeeds. -/
def imageClient (storages : List BackupStorageInventoryView) : ImageClient :=
  { QueryBackupStorage := fun _ _ => .ok storages,
    AddImage := fun _ _ => (sampleImage, none) }

/-- A remote side on which the backup storage query fails. -/
def noStorageClient : ImageClient :=
  { QueryBackupStorage := fun _ _ => .error "connection refused",
    AddImage := fun _ _ => (sampleImage, none) }

/-- An image plan with the given storage list, architecture and boot mode. -/
def imagePlanOf (storages : Tf (List String)) (architecture bootMode : Tf String) :
    imageResourceModel :=
  { Uuid := Tf.unknown, Name := Tf.known "ubuntu", Description := Tf.null,
    Url := Tf.known "http://mirror/ubuntu.qcow2", MediaType := Tf.known "RootVolumeTemplate",
    GuestOsType := Tf.null, System := Tf.unknown, Platform := Tf.null,
    Format := Tf.known "qcow2", BackupStorageUuids := storages,
    Architecture := architecture, Virtio := Tf.known true, BootMode := bootMode,
    Expunge := Tf.null }

/-! ## Models of utils/field_mapping.go and utils/filter.go -/

/-- The table `FieldMapping`: for each data source name, the API attribute of a schema
key. -/
def FieldMapping : List (String × List (String × String)) :=
  [("backup_storage",
      [("total_capacity", "totalCapacity"), ("available_capacity", "availableCapacity"),
       ("state", "state"), ("status", "status")]),
   ("instance",
      [("cluster_uuid", "clusterUuid"), ("cpu_num", "CPUNum"), ("host_uuid", "hostUuid"),
       ("hypervisor_type", "hypervisorType"), ("image_uuid", "imageUuid"),
       ("memory_size", "memorySize"), ("zone_uuid", "zoneUuid")]),
   ("cluster", [("hypervisor_type", "hypervisorType"), ("zone_uuid", "zoneUuid")]),
   ("host",
      [("cluster_uuid", "clusterUuid"), ("managementip", "managementIp"),
       ("zone_uuid", "zoneUuid")]),
   ("disk_offer", [("disk_size", "diskSize"), ("allocator_strategy", "allocatorStrategy")]),
   ("image",
      [("guest_os_type", "guestOsType"), ("image_format", "imageFormat"),
       ("image_type", "imageType"), ("media_type", "mediaType"), ("boot_mode", "bootMode"),
       ("backup_storage_uuids", "backupStorageUuids")]),
   ("instance_offer",
      [("cpu_num", "cpuNum"), ("cpu_speed", "cpuSpeed"), ("memory_size", "memorySize"),
       ("allocator_strategy", "allocatorStrategy")]),
   ("l2network", [("physical_interface", "physicalInterface"), ("zone_uuid", "zoneUuid")]),
   ("port_group", []),
   ("vip",
      [("l3_network_uuid", "l3NetworkUuid"), ("peer_l3_network_uuids", "peerL3NetworkUuids"),
       ("use_for", "useFor")]),
   ("virtual_router_offer",
      [("allocator_strategy", "allocatorStrategy"), ("cpu_num", "cpuNum"),
       ("image_uuid", "imageUuid"), ("is_default", "isDefault"),
       ("management_network_uuid", "managementNetworkUuid"), ("memory_size", "memorySize"),
       ("public_network_uuid", "publicNetworkUuid"), ("zone_uuid", "zoneUuid")]),
   ("virtual_router_instance",
      [("agent_port", "agentPort"), ("appliance_vm_type", "applianceVmType"),
       ("cluster_uuid", "clusterUuid"), ("cpu_num", "CPUNum"), ("ha_status", "haStatus"),
       ("host_uuid", "hostUuid"), ("hypervisor_type", "hypervisorType"),
       ("image_uuid", "imageUuid"), ("instance_offering_uuid", "instanceOfferingUuid"),
       ("management_network_uuid", "managementNetworkUuid"), ("memory_size", "memorySize")]),
   ("virtual_router_image", [("guest_os_type", "guestOsType")]),
   ("zone", []),
   ("primary_storage",
      [("total_capacity", "totalCapacity"), ("available_capacity", "availableCapacity"),
       ("total_physical_capacity", "totalPhysicalCapacity"),
       ("available_physical_capacity", "availablePhysicalCapacity"),
       ("system_used_capacity", "systemUsedCapacity")]),
   ("disks",
      [("disk_offering_uuid", "diskOfferingUuid"), ("is_shareable", "isShareable"),
       ("primary_storage_uuid", "primaryStorageUuid"), ("vm_instance_uuid", "vmInstanceUuid")]),
   ("qga",
      [("instance_uuid", "instanceUuid"), ("guest_tools_version", "guestToolsVersion"),
       ("guest_tools_status", "guestToolsStatus")]),
   ("script",
      [("script_type", "scriptType"), ("script_content", "scriptContent"),
       ("render_params", "renderParams"), ("script_timeout", "scriptTimeout")]),
   ("user_tags", [("resource_type", "resourceType"), ("resource_uuid", "resourceUuid")]),
   ("system_tags", [("resource_type", "resourceType"), ("resource_uuid", "resourceUuid")]),
   ("tag", []),
   ("security_group",
      [("ip_version", "ipVersion"), ("src_ip_range", "srcIpRange"),
       ("dst_ip_range", "dstIpRange"),
       ("attached_l3_network_uuids", "attachedL3NetworkUuids")]),
   ("security_group_rule",
      [("ip_version", "ipVersion"), ("src_ip_range", "srcIpRange"),
       ("dst_ip_range", "dstIpRange"),
       ("remote_security_group_uuid", "remoteSecurityGroupUuid"),
       ("security_group_uuid", "securityGroupUuid"), ("dst_port_range", "dstPortRange")]),
   ("sdn_controller", [("vendor_type", "vendorType")])]

/-- The function `GetFieldMapping`: the entry of the table, the nil map when the data
source has none. -/
def GetFieldMapping (dataSourceName : String) : List (String × String) :=
  (FieldMapping.lookup dataSourceName).getD []

/-- A struct field as `reflect` shows it to `FilterResource`: a struct of type
`types.String`, a struct of another type, or a value of kind String, of one of the
signed integer kinds, of kind Bool, or of any other kind. The two unsupported cases
carry the printed name of the type or kind. -/
inductive FieldValue where
  | tfString (v : Tf String)
  | otherStruct (typeName : String)
  | string (v : String)
  | int (v : Int)
  | bool (v : Bool)
  | otherKind (kindName : String)
  deriving DecidableEq, Repr

/-- A resource as `reflect.ValueOf` shows it: the fields of the struct with their names. -/
structure ResourceValue where
  fields : List (String × FieldValue)
  deriving DecidableEq, Repr

/-- The method `FieldByName`: `none` is the invalid value. -/
def ResourceValue.FieldByName (resourceValue : ResourceValue) (fieldName : String) :
    Option FieldValue :=
  resourceValue.fields.lookup fieldName

/-- The body of the loop over the filter keys up to the string rendering `fieldValue` of
the field: the rendering, or the error diagnostic with which `FilterResource` returns.
`Title` is the standard library function `strings.Title`. -/
def fieldValueOf (Title : String → String) (fieldMapping : List (String × String))
    (resourceValue : ResourceValue) (key : String) : Except Diagnostic String :=
  let apiFieldName :=
    match fieldMapping.lookup key with
    | some name => name
    | none => key
  let fieldName := Title apiFieldName
  match resourceValue.FieldByName fieldName with
  | none =>
    .error ⟨"Invalid Filter Key", "Field \x27" ++ key ++ "\x27 does not exist in resource"⟩
  | some (FieldValue.tfString strValue) => .ok strValue.ValueString
  | some (FieldValue.otherStruct typeName) =>
    .error ⟨"Unsupported Field Type",
      "Field \x27" ++ key ++ "\x27 has unsupported type: " ++ typeName⟩
  | some (FieldValue.string v) => .ok v
  | some (FieldValue.int v) =>
    if key == "memory_size" then .ok (toString (BytesToMB v))
    else if key == "disk_size" then .ok (toString (BytesToGB v))
    else if key == "volume_size" then .ok (toString (BytesToGB v))
    else .ok (toString v)
  | some (FieldValue.bool v) => .ok (toString v)
  | some (FieldValue.otherKind kindName) =>
    .error ⟨"Unsupported Field Type",
      "Field \x27" ++ key ++ "\x27 has unsupported type: " ++ kindName⟩

/-- The loop `for key, values := range filters` for one resource, over the entries of the
map in the order in which the loop visits them: the flag `match`, or the error diagnostic
with which `FilterResource` returns. -/
def matchFilters (Title : String → String) (fieldMapping : List (String × String))
    (resourceValue : ResourceValue) : List (String × List String) → Except Diagnostic Bool
  | [] => .ok true
  | (key, values) :: rest =>
    match fieldValueOf Title fieldMapping resourceValue key with
    | .error d => .error d
    | .ok fieldValue =>
      if values.any (fun value => fieldValue == value) then
        matchFilters Title fieldMapping resourceValue rest
      else .ok false

/-- The loop `for _, resource := range resources`, from resource number `i` on, with the
resources kept so far. `range i` is the order in which the loop over the filter map
visits its entries for resource number `i`. The result is the pair returned by
`FilterResource`: the kept resources and the diagnostics. -/
def filterLoop {T : Type} (Title : String → String) (fieldMapping : List (String × String))
    (ValueOf : T → ResourceValue) (range : Nat → List (String × List String)) :
    Nat → List T → List T → List T × List Diagnostic
  | _, [], filteredResources => (filteredResources, [])
  | i, resource :: rest, filteredResources =>
    match matchFilters Title fieldMapping (ValueOf resource) (range i) with
    | .error d => ([], [d])
    | .ok true =>
      filterLoop Title fieldMapping ValueOf range (i + 1) rest (filteredResources ++ [resource])
    | .ok false => filterLoop Title fieldMapping ValueOf range (i + 1) rest filteredResources

/-- The function `FilterResource`. The filter map is given by the visiting orders
`range` of its entries, one for each resource, since Go does not fix the order of a
`range` over a map. -/
def FilterResource {T : Type} (Title : String → String) (ValueOf : T → ResourceValue)
    (resources : List T) (range : Nat → List (String × List String))
    (dataSourceName : String) : List T × List Diagnostic :=
  filterLoop Title (GetFieldMapping dataSourceName) ValueOf range 0 resources []

/-- Whether a filter key resolves to a supported field of a resource: the field exists
and has a string rendering. -/
def supportedKey (Title : String → String) (dataSourceName : String)
    (resourceValue : ResourceValue) (key : String) : Bool :=
  match fieldValueOf Title (GetFieldMapping dataSourceName) resourceValue key with
  | .ok _ => true
  | .error _ => false

/-- Whether a resource passes one filter, as the claim words it: the string rendering of
the field of the key equals at least one of the listed values. -/
def passesFilter (Title : String → String) (dataSourceName : String)
    (resourceValue : ResourceValue) (filter : String × List String) : Bool :=
  match fieldValueOf Title (GetFieldMapping dataSourceName) resourceValue filter.1 with
  | .ok rendering => filter.2.contains rendering
  | .error _ => false

/-- Whether a resource passes every filter of the map. -/
def passesAll (Title : String → String) (dataSourceName : String)
    (filters : List (String × List String)) (resourceValue : ResourceValue) : Bool :=
  filters.all (passesFilter Title dataSourceName resourceValue)

/-- Upper-casing of the first character, a sample for `strings.Title` on one-word names. -/
def titleFirst (s : String) : String :=
  match s.data with
  | [] => ""
  | first :: rest => String.mk (first.toUpper :: rest)

/-- A sample instance view with a name, a state, a memory size in bytes and a flag. -/
def instanceValue (name state : String) (memoryBytes : Int) (isDefault : Bool) :
    ResourceValue :=
  { fields := [("Name", FieldValue.string name), ("State", FieldValue.string state),
      ("MemorySize", FieldValue.int memoryBytes), ("IsDefault", FieldValue.bool isDefault)] }

/-- Three sample instances. -/
def sampleInstances : List ResourceValue :=
  [instanceValue "web" "Running" 1073741824 true,
   instanceValue "db" "Stopped" 1073741824 false,
   instanceValue "cache" "Running" 2147483648 false]

/-- A sample filter map: memory_size 1024 MB, and name web or cache. -/
def sampleFilters : List (String × List String) :=
  [("memory_size", ["1024"]), ("name", ["web", "cache"])]

/-- The schema validator `stringvalidator.OneOf(values...)`: a null or unknown value is
not validated, a known value is accepted when it is one of `values`. -/
def OneOf (values : List String) (v : Tf String) : Bool :=
  match v with
  | Tf.known s => values.contains s
  | _ => true

/-- The validators of the attribute boot_mode in the schema of the image resource. -/
def bootModeValidator (bootMode : Tf String) : Bool := OneOf ["Legacy", "UEFI"] bootMode

/-! # Theorems -/

/-! ## Delete: the call trace -/

theorem dataVolumeUuids_eq (vols : List VolumeView) :
    dataVolumeUuids vols =
      (vols.filter fun volume => volume.Type_ = "Data").map VolumeView.UUID := by
  induction vols with
  | nil => rfl
  | cons v rest ih =>
    by_cases hv : v.Type_ = "Data"
    · simp [dataVolumeUuids, hv, ih]
    · simp [dataVolumeUuids, hv, ih]

theorem deleteDataVolumes_all_ok (c : ZSClient) :
    ∀ (us : List String) (h : List Call),
      (∀ i u, us[i]? = some u →
        c.DeleteDataVolume (h ++ (us.take i).map deleteCall) u DeleteMode.Permissive = none) →
      deleteDataVolumes c h us = (h ++ us.map deleteCall, none) := by
  intro us
  induction us with
  | nil => intro h _; simp [deleteDataVolumes]
  | cons u rest ih =>
    intro h hok
    have h0 := hok 0 u (by simp)
    simp at h0
    have hrest := ih (h ++ [Call.DeleteDataVolume u DeleteMode.Permissive]) (by
      intro i v hv
      have := hok (i + 1) v (by simpa using hv)
      simpa [deleteCall, List.append_assoc] using this)
    simp [deleteDataVolumes, h0, hrest, deleteCall, List.append_assoc]

theorem deleteDataVolumes_fail_at (c : ZSClient) :
    ∀ (us : List String) (h : List Call) (k : Nat) (uk err : String),
      (∀ i u, i < k → us[i]? = some u →
        c.DeleteDataVolume (h ++ (us.take i).map deleteCall) u DeleteMode.Permissive = none) →
      us[k]? = some uk →
      c.DeleteDataVolume (h ++ (us.take k).map deleteCall) uk DeleteMode.Permissive = some err →
      deleteDataVolumes c h us = (h ++ (us.take (k + 1)).map deleteCall, some err) := by
  intro us
  induction us with
  | nil => intro h k uk err _ hk; simp at hk
  | cons u rest ih =>
    intro h k uk err hok hk hfail
    cases k with
    | zero =>
      simp at hk
      subst hk
      simp at hfail
      simp [deleteDataVolumes, hfail, deleteCall]
    | succ k =>
      have h0 := hok 0 u (Nat.succ_pos k) (by simp)
      simp at h0
      have hrest := ih (h ++ [Call.DeleteDataVolume u DeleteMode.Permissive]) k uk err (by
        intro i v hi hv
        have := hok (i + 1) v (Nat.succ_lt_succ hi) (by simpa using hv)
        simpa [deleteCall, List.append_assoc] using this)
        (by simpa using hk)
        (by simpa [deleteCall, List.append_assoc] using hfail)
      simp [deleteDataVolumes, h0, hrest, deleteCall, List.append_assoc]

theorem expungeDataVolumes_all_ok (c : ZSClient) :
    ∀ (us : List String) (h : List Call),
      (∀ i u, us[i]? = some u →
        c.ExpungeDataVolume (h ++ (us.take i).map expungeCall) u = none) →
      expungeDataVolumes c h us = (h ++ us.map expungeCall, none) := by
  intro us
  induction us with
  | nil => intro h _; simp [expungeDataVolumes]
  | cons u rest ih =>
    intro h hok
    have h0 := hok 0 u (by simp)
    simp at h0
    have hrest := ih (h ++ [Call.ExpungeDataVolume u]) (by
      intro i v hv
      have := hok (i + 1) v (by simpa using hv)
      simpa [expungeCall, List.append_assoc] using this)
    simp [expungeDataVolumes, h0, hrest, expungeCall, List.append_assoc]

theorem dataVolumeUuids_eq_dataUuidsOf (vm : VmInstanceInventoryView) :
    dataVolumeUuids vm.AllVolumes = dataUuidsOf vm := by
  simp [dataUuidsOf, dataVolumesOf, dataVolumeUuids_eq]

/-- C1. Delete without expunge: when the stored uuid is not the empty string, the expunge
flag is not true and every call made succeeds, the calls are exactly GetVmInstance,
DestroyVmInstance(permissive), then DeleteDataVolume(permissive) for each volume of type
"Data" in AllVolumes order; nothing else is called and no error is reported. -/
theorem Delete_trace_without_expunge (c : ZSClient) (state : vmInstanceDataSourceModel)
    (vm : VmInstanceInventoryView)
    (huuid : state.Uuid ≠ Tf.known "")
    (hexp : state.Expunge ≠ Tf.known true)
    (hget : c.GetVmInstance [] state.Uuid.ValueString = .ok vm)
    (hdestroy : c.DestroyVmInstance [Call.GetVmInstance state.Uuid.ValueString]
      state.Uuid.ValueString DeleteMode.Permissive = none)
    (hdelete : ∀ i u, (dataUuidsOf vm)[i]? = some u →
      c.DeleteDataVolume (destroyPrefix state.Uuid.ValueString ++
        ((dataUuidsOf vm).take i).map deleteCall) u DeleteMode.Permissive = none) :
    Delete c state =
      { Calls := [Call.GetVmInstance state.Uuid.ValueString,
                  Call.DestroyVmInstance state.Uuid.ValueString DeleteMode.Permissive] ++
          (dataVolumesOf vm).map
            (fun volume => Call.DeleteDataVolume volume.UUID DeleteMode.Permissive),
        Diagnostics := [], State := none } := by
  have hloop := deleteDataVolumes_all_ok c (dataUuidsOf vm)
    (destroyPrefix state.Uuid.ValueString) hdelete
  have hflag : (if (!state.Expunge.IsNull && !state.Expunge.IsUnknown) = true
      then state.Expunge.ValueBool else false) = false := by
    cases hE : state.Expunge with
    | null => rfl
    | unknown => rfl
    | known b =>
      cases b with
      | false => rfl
      | true => exact absurd hE hexp
  simp only [destroyPrefix] at hloop
  simp only [Delete, if_neg huuid, hget, hdestroy, dataVolumeUuids_eq_dataUuidsOf,
    List.singleton_append, hloop, hflag]
  simp [dataUuidsOf, deleteCall]

/-- Witness of C1 on the volumes Root, Data-A, Data-B: one destroy call, two delete calls. -/
theorem Delete_trace_without_expunge_witness :
    Delete (okClient sampleVm) (sampleState Tf.null) =
      { Calls := [Call.GetVmInstance "vm-1",
                  Call.DestroyVmInstance "vm-1" DeleteMode.Permissive,
                  Call.DeleteDataVolume "Data-A" DeleteMode.Permissive,
                  Call.DeleteDataVolume "Data-B" DeleteMode.Permissive],
        Diagnostics := [], State := none } :=
  Delete_trace_without_expunge (okClient sampleVm) (sampleState Tf.null) sampleVm
    (by decide) (by decide) rfl rfl (fun _ _ _ => rfl)

/-- C2. Delete with expunge set: when the stored uuid is not the empty string, expunge is
true and every call made succeeds, the calls are GetVmInstance, DestroyVmInstance, one
DeleteDataVolume per Data volume, then ExpungeVmInstance, then one ExpungeDataVolume per
Data volume, both volume runs in AllVolumes order. -/
theorem Delete_trace_with_expunge (c : ZSClient) (state : vmInstanceDataSourceModel)
    (vm : VmInstanceInventoryView)
    (huuid : state.Uuid ≠ Tf.known "")
    (hexp : state.Expunge = Tf.known true)
    (hget : c.GetVmInstance [] state.Uuid.ValueString = .ok vm)
    (hdestroy : c.DestroyVmInstance [Call.GetVmInstance state.Uuid.ValueString]
      state.Uuid.ValueString DeleteMode.Permissive = none)
    (hdelete : ∀ i u, (dataUuidsOf vm)[i]? = some u →
      c.DeleteDataVolume (destroyPrefix state.Uuid.ValueString ++
        ((dataUuidsOf vm).take i).map deleteCall) u DeleteMode.Permissive = none)
    (hexpunge : c.ExpungeVmInstance (destroyPrefix state.Uuid.ValueString ++
        (dataUuidsOf vm).map deleteCall) state.Uuid.ValueString = none)
    (hexpungeVol : ∀ i u, (dataUuidsOf vm)[i]? = some u →
      c.ExpungeDataVolume ((destroyPrefix state.Uuid.ValueString ++
        (dataUuidsOf vm).map deleteCall ++ [Call.ExpungeVmInstance state.Uuid.ValueString]) ++
        ((dataUuidsOf vm).take i).map expungeCall) u = none) :
    Delete c state =
      { Calls := [Call.GetVmInstance state.Uuid.ValueString,
                  Call.DestroyVmInstance state.Uuid.ValueString DeleteMode.Permissive] ++
          (dataVolumesOf vm).map
            (fun volume => Call.DeleteDataVolume volume.UUID DeleteMode.Permissive) ++
          [Call.ExpungeVmInstance state.Uuid.ValueString] ++
          (dataVolumesOf vm).map (fun volume => Call.ExpungeDataVolume volume.UUID),
        Diagnostics := [], State := none } := by
  have hloop := deleteDataVolumes_all_ok c (dataUuidsOf vm)
    (destroyPrefix state.Uuid.ValueString) hdelete
  have hloop2 := expungeDataVolumes_all_ok c (dataUuidsOf vm)
    (destroyPrefix state.Uuid.ValueString ++ (dataUuidsOf vm).map deleteCall ++
      [Call.ExpungeVmInstance state.Uuid.ValueString]) hexpungeVol
  have hflag : (if (!state.Expunge.IsNull && !state.Expunge.IsUnknown) = true
      then state.Expunge.ValueBool else false) = true := by
    rw [hexp]; rfl
  simp only [destroyPrefix] at hloop hloop2 hexpunge
  simp only [Delete, if_neg huuid, hget, hdestroy, dataVolumeUuids_eq_dataUuidsOf,
    List.singleton_append, hloop, hflag, if_true, hexpunge, hloop2]
  simp [dataUuidsOf, deleteCall, expungeCall, Function.comp_def]

/-- Witness of C2 on the volumes Root, Data-A, Data-B. -/
theorem Delete_trace_with_expunge_witness :
    Delete (okClient sampleVm) (sampleState (Tf.known true)) =
      { Calls := [Call.GetVmInstance "vm-1",
                  Call.DestroyVmInstance "vm-1" DeleteMode.Permissive,
                  Call.DeleteDataVolume "Data-A" DeleteMode.Permissive,
                  Call.DeleteDataVolume "Data-B" DeleteMode.Permissive,
                  Call.ExpungeVmInstance "vm-1",
                  Call.ExpungeDataVolume "Data-A",
                  Call.ExpungeDataVolume "Data-B"],
        Diagnostics := [], State := none } :=
  Delete_trace_with_expunge (okClient sampleVm) (sampleState (Tf.known true)) sampleVm
    (by decide) rfl rfl rfl (fun _ _ _ => rfl) rfl (fun _ _ _ => rfl)

/-- C3. Delete aborts on the first remote failure, whatever the expunge flag. When the
destroy call fails, the calls are the lookup and the destroy call only. When the destroy
call succeeds, the delete calls of the first k Data volumes succeed and the delete call
of the next one fails, the calls are the lookup, the destroy call and the delete calls of
those k + 1 volumes in order: no later volume is deleted and nothing is expunged. In both
cases an error diagnostic is reported. -/
theorem Delete_aborts_on_first_failure (c : ZSClient) (state : vmInstanceDataSourceModel)
    (vm : VmInstanceInventoryView)
    (huuid : state.Uuid ≠ Tf.known "")
    (hget : c.GetVmInstance [] state.Uuid.ValueString = .ok vm) :
    (∀ err, c.DestroyVmInstance [Call.GetVmInstance state.Uuid.ValueString]
        state.Uuid.ValueString DeleteMode.Permissive = some err →
      (Delete c state).Calls = destroyPrefix state.Uuid.ValueString ∧
      (Delete c state).HasError = true) ∧
    (c.DestroyVmInstance [Call.GetVmInstance state.Uuid.ValueString]
        state.Uuid.ValueString DeleteMode.Permissive = none →
      ∀ k uk err,
        (∀ i u, i < k → (dataUuidsOf vm)[i]? = some u →
          c.DeleteDataVolume (destroyPrefix state.Uuid.ValueString ++
            ((dataUuidsOf vm).take i).map deleteCall) u DeleteMode.Permissive = none) →
        (dataUuidsOf vm)[k]? = some uk →
        c.DeleteDataVolume (destroyPrefix state.Uuid.ValueString ++
            ((dataUuidsOf vm).take k).map deleteCall) uk DeleteMode.Permissive = some err →
        (Delete c state).Calls = destroyPrefix state.Uuid.ValueString ++
            ((dataVolumesOf vm).take (k + 1)).map
              (fun volume => Call.DeleteDataVolume volume.UUID DeleteMode.Permissive) ∧
        (Delete c state).HasError = true) := by
  refine ⟨?_, ?_⟩
  · intro err hdestroy
    simp [Delete, if_neg huuid, hget, hdestroy, destroyPrefix, Response.HasError]
  · intro hdestroy k uk err hok hk hfail
    have hloop := deleteDataVolumes_fail_at c (dataUuidsOf vm)
      (destroyPrefix state.Uuid.ValueString) k uk err hok hk hfail
    simp only [destroyPrefix] at hloop
    simp only [Delete, if_neg huuid, hget, hdestroy, dataVolumeUuids_eq_dataUuidsOf,
      List.singleton_append, hloop]
    simp [dataUuidsOf, deleteCall, destroyPrefix, Response.HasError, List.map_take,
      Function.comp_def]

/-- Witness of C3: with expunge set, a locked instance stops Delete after the destroy
call, and a failure on Data-A (the first Data volume) stops it before Data-B. -/
theorem Delete_aborts_on_first_failure_witness :
    ((Delete (failDestroyClient sampleVm) (sampleState (Tf.known true))).Calls =
        [Call.GetVmInstance "vm-1", Call.DestroyVmInstance "vm-1" DeleteMode.Permissive] ∧
      (Delete (failDestroyClient sampleVm) (sampleState (Tf.known true))).HasError = true) ∧
    ((Delete (failDeleteClient sampleVm "Data-A") (sampleState (Tf.known true))).Calls =
        [Call.GetVmInstance "vm-1", Call.DestroyVmInstance "vm-1" DeleteMode.Permissive,
         Call.DeleteDataVolume "Data-A" DeleteMode.Permissive] ∧
      (Delete (failDeleteClient sampleVm "Data-A") (sampleState (Tf.known true))).HasError
        = true) :=
  ⟨(Delete_aborts_on_first_failure (failDestroyClient sampleVm) (sampleState (Tf.known true))
      sampleVm (by decide) rfl).1 "instance is locked" rfl,
   (Delete_aborts_on_first_failure (failDeleteClient sampleVm "Data-A")
      (sampleState (Tf.known true)) sampleVm (by decide) rfl).2 rfl 0 "Data-A"
      "volume is in use" (fun _ _ hi => absurd hi (Nat.not_lt_zero _)) rfl rfl⟩

/-- C4. Delete with an empty stored identifier is a no-op: no client call, no error
diagnostic and no state write, whatever the remote side and the other stored fields. -/
theorem Delete_empty_uuid_noop (c : ZSClient) (state : vmInstanceDataSourceModel) :
    Delete c { state with Uuid := Tf.known "" } =
      { Calls := [], Diagnostics := [], State := none } := by
  simp [Delete]

/-! ## Read -/

theorem foldl_rememberStaticIp (stored : List NetworkInterfaceModel) :
    ∀ (m : String → Option String) (k : String),
      stored.foldl rememberStaticIp m k = (rememberedStaticIp stored k).or (m k) := by
  induction stored with
  | nil => intro m k; simp [rememberedStaticIp]
  | cons o rest ih =>
    intro m k
    rw [List.foldl_cons, ih]
    simp only [rememberedStaticIp, List.reverse_cons, List.find?_append, List.find?_cons,
      List.find?_nil]
    cases hfind : List.find?
        (fun o => hasStaticIp o && o.L3NetworkUuid.ValueString == k) rest.reverse with
    | some v => simp
    | none =>
      by_cases hp : hasStaticIp o = true
      · by_cases hk : k = o.L3NetworkUuid.ValueString
        · have hp2 := hp
          simp only [hasStaticIp] at hp2
          simp [rememberStaticIp, hp, hp2, hk]
        · have hk2 : ¬ o.L3NetworkUuid.ValueString = k := fun h => hk h.symm
          have hbeq : (o.L3NetworkUuid.ValueString == k) = false := by simpa using hk2
          have hp2 := hp
          simp only [hasStaticIp] at hp2
          simp [rememberStaticIp, hp, hp2, hk, hbeq]
      · have hp2 := hp
        simp only [hasStaticIp] at hp2
        simp [rememberStaticIp, hp, hp2]

theorem originalNetworkInterfaces_eq (stored : Tf (List NetworkInterfaceModel)) (k : String) :
    originalNetworkInterfaces stored k = rememberedStaticIp stored.Elements k := by
  unfold originalNetworkInterfaces
  split
  · rw [foldl_rememberStaticIp]; simp
  · rename_i h
    cases stored with
    | null => simp [Tf.Elements, rememberedStaticIp]
    | unknown => simp [Tf.Elements, rememberedStaticIp]
    | known l =>
      cases l with
      | nil => simp [Tf.Elements, rememberedStaticIp]
      | cons a b => simp [Tf.Elements, Tf.IsNull] at h

theorem reconcileNic_staticIp (vm : VmInstanceInventoryView)
    (stored : Tf (List NetworkInterfaceModel)) (nic : VmNicInventoryView) :
    (reconcileNic vm (originalNetworkInterfaces stored) nic).StaticIp =
      reconciledStaticIp stored.Elements nic := by
  simp only [reconcileNic, reconciledStaticIp, originalNetworkInterfaces_eq]
  cases rememberedStaticIp stored.Elements nic.L3NetworkUUID with
  | none => rfl
  | some ip =>
    by_cases h : nic.IP = ip
    · simp [h]
    · have h2 : ¬ ip = nic.IP := fun e => h e.symm
      simp [h, h2]

theorem Elements_listValueFromAppended {α : Type} (xs : List α) :
    (listValueFromAppended xs).Elements = xs := by
  cases xs <;> rfl

theorem hasStaticIp_iff (o : NetworkInterfaceModel) :
    hasStaticIp o = true ↔ ∃ v, v ≠ "" ∧ o.StaticIp = Tf.known v := by
  cases h : o.StaticIp with
  | null => simp [hasStaticIp, h, Tf.IsNull]
  | unknown => simp [hasStaticIp, h, Tf.IsNull, Tf.ValueString]
  | known v => simp [hasStaticIp, h, Tf.IsNull, Tf.ValueString]

theorem rememberedStaticIp_some {stored : List NetworkInterfaceModel} {k v : String}
    (h : rememberedStaticIp stored k = some v) :
    ∃ o ∈ stored, hasStaticIp o = true ∧ o.L3NetworkUuid.ValueString = k ∧
      o.StaticIp.ValueString = v := by
  simp only [rememberedStaticIp, Option.map_eq_some'] at h
  obtain ⟨o, hfind, hv⟩ := h
  have hmem := List.mem_of_find?_eq_some hfind
  have hp := List.find?_some hfind
  simp only [Bool.and_eq_true, beq_iff_eq] at hp
  exact ⟨o, by simpa using hmem, hp.1, hp.2, hv⟩

theorem rememberedStaticIp_isSome {stored : List NetworkInterfaceModel} {k : String}
    {o : NetworkInterfaceModel} (hmem : o ∈ stored) (hp : hasStaticIp o = true)
    (hk : o.L3NetworkUuid.ValueString = k) :
    ∃ v, rememberedStaticIp stored k = some v := by
  have hsome : (stored.reverse.find?
      fun o => hasStaticIp o && o.L3NetworkUuid.ValueString == k).isSome = true := by
    rw [List.find?_isSome]
    exact ⟨o, by simpa using hmem, by simp [hp, hk]⟩
  obtain ⟨e, he⟩ := Option.isSome_iff_exists.mp hsome
  exact ⟨e.StaticIp.ValueString, by simp [rememberedStaticIp, he]⟩

theorem reconciledStaticIp_known {stored : List NetworkInterfaceModel}
    {nic : VmNicInventoryView} {v : String}
    (h : reconciledStaticIp stored nic = Tf.known v) :
    rememberedStaticIp stored nic.L3NetworkUUID = some v ∧ nic.IP = v := by
  unfold reconciledStaticIp at h
  cases hr : rememberedStaticIp stored nic.L3NetworkUUID with
  | none => simp [hr] at h
  | some ip =>
    by_cases hip : nic.IP = ip
    · simp [hr, hip] at h
      subst h
      exact ⟨rfl, hip⟩
    · simp [hr, hip] at h

/-- Reconciling against the reconciled list gives the same static IPs again. -/
theorem reconciledStaticIp_again (vm : VmInstanceInventoryView)
    (stored : Tf (List NetworkInterfaceModel)) (nics : List VmNicInventoryView)
    (nic : VmNicInventoryView) (hnic : nic ∈ nics) :
    reconciledStaticIp
        (nics.map (reconcileNic vm (originalNetworkInterfaces stored))) nic =
      reconciledStaticIp stored.Elements nic := by
  cases hR : rememberedStaticIp
      (nics.map (reconcileNic vm (originalNetworkInterfaces stored))) nic.L3NetworkUUID with
  | some w =>
    obtain ⟨e, hmem, hp, hk, hv⟩ := rememberedStaticIp_some hR
    obtain ⟨nic2, _, rfl⟩ := List.mem_map.mp hmem
    obtain ⟨v, _, hknown⟩ := (hasStaticIp_iff _).mp hp
    have hvw : v = w := by rw [hknown] at hv; simpa [Tf.ValueString] using hv
    subst hvw
    rw [reconcileNic_staticIp] at hknown
    obtain ⟨hrem, _⟩ := reconciledStaticIp_known hknown
    have hk2 : nic2.L3NetworkUUID = nic.L3NetworkUUID := by
      simpa [reconcileNic, Tf.ValueString] using hk
    rw [hk2] at hrem
    simp [reconciledStaticIp, hR, hrem]
  | none =>
    cases hS : rememberedStaticIp stored.Elements nic.L3NetworkUUID with
    | none => simp [reconciledStaticIp, hR, hS]
    | some v =>
      by_cases hip : nic.IP = v
      · exfalso
        obtain ⟨o, _, hpo, _, hvo⟩ := rememberedStaticIp_some hS
        obtain ⟨u, hu, hknown⟩ := (hasStaticIp_iff o).mp hpo
        have huv : u = v := by rw [hknown] at hvo; simpa [Tf.ValueString] using hvo
        subst huv
        have hentry : (reconcileNic vm (originalNetworkInterfaces stored) nic).StaticIp =
            Tf.known u := by
          rw [reconcileNic_staticIp]; simp [reconciledStaticIp, hS, hip]
        have hpe : hasStaticIp (reconcileNic vm (originalNetworkInterfaces stored) nic)
            = true := (hasStaticIp_iff _).mpr ⟨u, hu, hentry⟩
        obtain ⟨w, hw⟩ := rememberedStaticIp_isSome
          (List.mem_map.mpr ⟨nic, hnic, rfl⟩) hpe
          (show (reconcileNic vm (originalNetworkInterfaces stored) nic).L3NetworkUuid.ValueString
            = nic.L3NetworkUUID from rfl)
        rw [hR] at hw
        exact Option.noConfusion hw
      · simp [reconciledStaticIp, hR, hS, hip]

theorem reconcileNic_again (vm : VmInstanceInventoryView)
    (stored : Tf (List NetworkInterfaceModel)) :
    vm.VMNics.map (reconcileNic vm (originalNetworkInterfaces
        (listValueFromAppended
          (vm.VMNics.map (reconcileNic vm (originalNetworkInterfaces stored)))))) =
      vm.VMNics.map (reconcileNic vm (originalNetworkInterfaces stored)) := by
  apply List.map_congr_left
  intro nic hnic
  have h1 := reconcileNic_staticIp vm (listValueFromAppended
    (vm.VMNics.map (reconcileNic vm (originalNetworkInterfaces stored)))) nic
  have h2 := reconcileNic_staticIp vm stored nic
  rw [Elements_listValueFromAppended, reconciledStaticIp_again vm stored vm.VMNics nic hnic,
    ← h2] at h1
  cases hA : reconcileNic vm (originalNetworkInterfaces (listValueFromAppended
    (vm.VMNics.map (reconcileNic vm (originalNetworkInterfaces stored))))) nic with
  | mk a1 a2 a3 =>
    cases hB : reconcileNic vm (originalNetworkInterfaces stored) nic with
    | mk b1 b2 b3 =>
      rw [hA, hB] at h1
      have e1 : a1 = b1 := by
        have := congrArg NetworkInterfaceModel.L3NetworkUuid hA
        have := congrArg NetworkInterfaceModel.L3NetworkUuid hB
        simp_all [reconcileNic]
      have e2 : a2 = b2 := by
        have := congrArg NetworkInterfaceModel.DefaultL3 hA
        have := congrArg NetworkInterfaceModel.DefaultL3 hB
        simp_all [reconcileNic]
      simp only [] at h1
      rw [e1, e2, h1]

/-- C5. Static IPs reconciled by Read: when GetVmInstance answers an instance, Read
reports no error and stores one network interface per observed NIC, in the observed
order, carrying the network reference of that NIC; its static IP is the static IP
remembered for that network reference when the observed IP equals it, and null in every
other case. -/
theorem Read_reconciles_static_ip (c : ZSClient) (state : vmInstanceDataSourceModel)
    (vm : VmInstanceInventoryView)
    (hget : c.GetVmInstance [] state.Uuid.ValueString = .ok vm) :
    ∃ st, (Read c state).State = some st ∧ (Read c state).Diagnostics = [] ∧
      st.NetworkInterfaces.Elements.length = vm.VMNics.length ∧
      st.NetworkInterfaces.Elements.map NetworkInterfaceModel.L3NetworkUuid =
        vm.VMNics.map (fun nic => Tf.known nic.L3NetworkUUID) ∧
      st.NetworkInterfaces.Elements.map NetworkInterfaceModel.StaticIp =
        vm.VMNics.map (reconciledStaticIp state.NetworkInterfaces.Elements) := by
  refine ⟨readState state (.ok vm), by simp [Read, hget], rfl, ?_, ?_, ?_⟩
  · simp [readState, Elements_listValueFromAppended]
  · simp [readState, Elements_listValueFromAppended, Function.comp_def, reconcileNic]
  · simp only [readState, Elements_listValueFromAppended, List.map_map]
    apply List.map_congr_left
    intro nic _
    exact reconcileNic_staticIp vm state.NetworkInterfaces nic

/-- Witness of C5: one stored interface pinned to 10.0.0.5. Read keeps the static IP when
the NIC on that network reports 10.0.0.5 and stores null when it reports 10.0.0.9. -/
theorem Read_reconciles_static_ip_witness :
    (∃ st, (Read (okClient sampleVm) (sampleState Tf.null)).State = some st ∧
      (Read (okClient sampleVm) (sampleState Tf.null)).Diagnostics = [] ∧
      st.NetworkInterfaces.Elements.length = 1 ∧
      st.NetworkInterfaces.Elements.map NetworkInterfaceModel.L3NetworkUuid =
        [Tf.known "l3-a"] ∧
      st.NetworkInterfaces.Elements.map NetworkInterfaceModel.StaticIp =
        [Tf.known "10.0.0.5"]) ∧
    (∃ st, (Read (okClient movedVm) (sampleState Tf.null)).State = some st ∧
      (Read (okClient movedVm) (sampleState Tf.null)).Diagnostics = [] ∧
      st.NetworkInterfaces.Elements.length = 1 ∧
      st.NetworkInterfaces.Elements.map NetworkInterfaceModel.L3NetworkUuid =
        [Tf.known "l3-a"] ∧
      st.NetworkInterfaces.Elements.map NetworkInterfaceModel.StaticIp = [Tf.null]) :=
  ⟨Read_reconciles_static_ip (okClient sampleVm) (sampleState Tf.null) sampleVm rfl,
   Read_reconciles_static_ip (okClient movedVm) (sampleState Tf.null) movedVm rfl⟩

/-- C6 as stated fails on the empty reference: the default route and the only NIC of
`unroutedVm` carry the same (empty) network reference, and Read stores the flag false. -/
theorem Read_default_flag_counterexample :
    unroutedVm.DefaultL3NetworkUUID = "" ∧
    unroutedVm.VMNics.map VmNicInventoryView.L3NetworkUUID = [""] ∧
    (readState (sampleState Tf.null) (.ok unroutedVm)).NetworkInterfaces =
      Tf.known [⟨Tf.known "", Tf.known false, Tf.null⟩] := by
  decide

/-- C6, amended. Default flag reconciled by Read: for every observed NIC the stored
default_l3 flag is a known boolean, true if and only if the default-route network
reference of the instance is not the empty string and equals the network reference of
that NIC. -/
theorem Read_default_flag (state : vmInstanceDataSourceModel) (vm : VmInstanceInventoryView) :
    (readState state (.ok vm)).NetworkInterfaces.Elements.map NetworkInterfaceModel.DefaultL3 =
      vm.VMNics.map (fun nic => Tf.known (decide
        (vm.DefaultL3NetworkUUID ≠ "" ∧ vm.DefaultL3NetworkUUID = nic.L3NetworkUUID))) := by
  simp only [readState, Elements_listValueFromAppended, List.map_map]
  apply List.map_congr_left
  intro nic _
  by_cases h1 : vm.DefaultL3NetworkUUID = ""
  · simp [reconcileNic, h1]
  · by_cases h2 : vm.DefaultL3NetworkUUID = nic.L3NetworkUUID
    · simp [reconcileNic, h1, h2.symm]
    · have h3 : ¬ nic.L3NetworkUUID = vm.DefaultL3NetworkUUID := fun e => h2 e.symm
      simp [reconcileNic, h1, h2, h3]

/-- C7. Read when the instance cannot be fetched: no error diagnostic is reported and the
state written is the old state with uuid set to the empty string, every other field
unchanged. -/
theorem Read_missing_instance (c : ZSClient) (state : vmInstanceDataSourceModel)
    (err : String) (hget : c.GetVmInstance [] state.Uuid.ValueString = .error err) :
    Read c state =
      { Calls := [Call.GetVmInstance state.Uuid.ValueString],
        Diagnostics := [],
        State := some { state with Uuid := Tf.known "" } } := by
  simp [Read, hget, readState]

/-- Witness of C7 on a remote side that no longer knows the instance. -/
theorem Read_missing_instance_witness :
    Read goneClient (sampleState Tf.null) =
      { Calls := [Call.GetVmInstance "vm-1"],
        Diagnostics := [],
        State := some { sampleState Tf.null with Uuid := Tf.known "" } } :=
  Read_missing_instance goneClient (sampleState Tf.null) "not found" rfl

/-- C8. Read is idempotent: for every stored state and every answer of the instance
lookup, reading the state produced by Read against the same answer gives that state
again, in every field. -/
theorem Read_idempotent (state : vmInstanceDataSourceModel)
    (r : Except String VmInstanceInventoryView) :
    readState (readState state r) r = readState state r := by
  cases r with
  | error e => rfl
  | ok vm =>
    simp only [readState]
    rw [reconcileNic_again]

/-! ## Create: what is called before a rejection -/

theorem isDiskParamValid_fst (c : ZSClient) (h : List Call) (model : diskModel) :
    (isDiskParamValid c h model).1 = h ∨
      ∃ q, (isDiskParamValid c h model).1 = h ++ [Call.QueryPrimaryStorage q] := by
  unfold isDiskParamValid
  split
  · exact Or.inl rfl
  · refine Or.inr ⟨{ Conditions := ["uuid=" ++ model.PrimaryStorageUuid.ValueString,
      "state=Enabled"], LimitValue := some 1 }, ?_⟩
    simp only []
    split
    · rfl
    · rfl
    · split
      · split <;> rfl
      · rfl

theorem isDiskParamValid_calls (c : ZSClient) (h : List Call) (model : diskModel)
    (hh : ∀ call ∈ h, call.isLookup = true) :
    ∀ call ∈ (isDiskParamValid c h model).1, call.isLookup = true := by
  intro call hc
  rcases isDiskParamValid_fst c h model with hfst | ⟨q, hfst⟩
  · rw [hfst] at hc; exact hh call hc
  · rw [hfst] at hc
    simp only [List.mem_append, List.mem_singleton] at hc
    rcases hc with hc | hc
    · exact hh call hc
    · subst hc; rfl

theorem setRootDisk_error (c : ZSClient) (rootDisk : Tf diskModel) (r : Response)
    (h : setRootDisk c rootDisk = .error r) : r.Rejected := by
  unfold setRootDisk at h
  cases rootDisk with
  | null => simp at h
  | unknown =>
    simp at h
    subst h
    exact ⟨rfl, rfl, by simp⟩
  | known d =>
    simp only at h
    have hcalls := isDiskParamValid_calls c [] d (by simp)
    cases hv : isDiskParamValid c [] d with
    | mk hist e =>
      rw [hv] at h hcalls
      cases e with
      | none => simp at h
      | some err =>
        simp at h
        subst h
        exact ⟨rfl, rfl, hcalls⟩

theorem setRootDisk_ok (c : ZSClient) (rootDisk : Tf diskModel) (root : RootDiskSetup)
    (h : setRootDisk c rootDisk = .ok root) : ∀ call ∈ root.calls, call.isLookup = true := by
  unfold setRootDisk at h
  cases rootDisk with
  | null =>
    simp at h
    subst h
    simp
  | unknown => simp at h
  | known d =>
    simp only at h
    have hcalls := isDiskParamValid_calls c [] d (by simp)
    cases hv : isDiskParamValid c [] d with
    | mk hist e =>
      rw [hv] at h hcalls
      cases e with
      | none =>
        simp at h
        subst h
        exact hcalls
      | some err => simp at h

theorem setDataDisks_error (c : ZSClient) (h0 : List Call) (dataDisks : Tf (List diskModel))
    (r : Response) (hh : ∀ call ∈ h0, call.isLookup = true)
    (h : setDataDisks c h0 dataDisks = .error r) : r.Rejected := by
  unfold setDataDisks at h
  split at h
  · simp only at h
    split at h
    · simp at h
      subst h
      exact ⟨rfl, rfl, hh⟩
    · split at h
      · simp at h
      · rename_i first rest heq
        have hcalls := isDiskParamValid_calls c h0 first hh
        cases hv : isDiskParamValid c h0 first with
        | mk hist e =>
          rw [hv] at h hcalls
          cases e with
          | none => simp at h
          | some err =>
            simp at h
            subst h
            exact ⟨rfl, rfl, hcalls⟩
  · simp at h

theorem setDataDisks_ok (c : ZSClient) (h0 : List Call) (dataDisks : Tf (List diskModel))
    (data : DataDiskSetup) (hh : ∀ call ∈ h0, call.isLookup = true)
    (h : setDataDisks c h0 dataDisks = .ok data) :
    ∀ call ∈ data.calls, call.isLookup = true := by
  unfold setDataDisks at h
  split at h
  · simp only at h
    split at h
    · simp at h
    · split at h
      · simp at h
        subst h
        exact hh
      · rename_i first rest heq
        have hcalls := isDiskParamValid_calls c h0 first hh
        cases hv : isDiskParamValid c h0 first with
        | mk hist e =>
          rw [hv] at h hcalls
          cases e with
          | none =>
            simp at h
            subst h
            exact hcalls
          | some err => simp at h
  · simp at h
    subst h
    exact hh

theorem isLookup_append_getImage (h : List Call) (uuid : String)
    (hh : ∀ call ∈ h, call.isLookup = true) :
    ∀ call ∈ h ++ [Call.GetImage uuid], call.isLookup = true := by
  intro call hc
  simp only [List.mem_append, List.mem_singleton] at hc
  rcases hc with hc | hc
  · exact hh call hc
  · subst hc; rfl

/-- C10 as stated fails: with the strategy "InvalidStrategy" on an otherwise valid plan,
Create reports an error after one client call, the image lookup. -/
theorem Create_invalid_strategy_counterexample :
    (Create (okClient sampleVm) (samplePlan "l3-a" (Tf.known "InvalidStrategy"))).Calls =
        [Call.GetImage "img-1"] ∧
    (Create (okClient sampleVm) (samplePlan "l3-a" (Tf.known "InvalidStrategy"))).Calls.length
        ≠ 0 ∧
    (Create (okClient sampleVm) (samplePlan "l3-a" (Tf.known "InvalidStrategy"))).HasError
        = true := by
  decide

/-- C10, amended. A strategy set to a value other than "InstantStart" and "CreateStopped"
is rejected before the create call: Create reports an error, writes no state, and every
client call it made is a read-only lookup (QueryPrimaryStorage or GetImage), so that
CreateVmInstance is never called. -/
theorem Create_invalid_strategy_rejected (c : ZSClient) (plan : vmInstanceDataSourceModel)
    (s : String) (hs : plan.Strategy = Tf.known s)
    (h1 : s ≠ "InstantStart") (h2 : s ≠ "CreateStopped") :
    (Create c plan).Rejected ∧ ∀ p, Call.CreateVmInstance p ∉ (Create c plan).Calls := by
  have hrej : (Create c plan).Rejected := by
    unfold Create
    cases hroot : setRootDisk c plan.RootDisk with
    | error r => exact setRootDisk_error c _ r hroot
    | ok root =>
      have hrootCalls := setRootDisk_ok c _ root hroot
      simp only []
      cases hdata : setDataDisks c root.calls plan.DataDisks with
      | error r => exact setDataDisks_error c _ _ r hrootCalls hdata
      | ok data =>
        have hdataCalls := setDataDisks_ok c _ _ data hrootCalls hdata
        have himg := isLookup_append_getImage data.calls plan.ImageUuid.ValueString hdataCalls
        simp only []
        split
        · exact ⟨rfl, rfl, hdataCalls⟩
        · split
          · exact ⟨rfl, rfl, himg⟩
          · split
            · exact ⟨rfl, rfl, himg⟩
            · split
              · exact ⟨rfl, rfl, himg⟩
              · split
                · exact ⟨rfl, rfl, himg⟩
                · rename_i hstrategy
                  exfalso
                  apply hstrategy
                  simp [hs, Tf.IsNull, Tf.ValueString, h1, h2]
  refine ⟨hrej, ?_⟩
  intro p hp
  have := hrej.2.2 _ hp
  simp [Call.isLookup] at this

/-- Witness of the amended C10 on the plan of the counterexample. -/
theorem Create_invalid_strategy_rejected_witness :
    (Create (okClient sampleVm) (samplePlan "l3-a" (Tf.known "InvalidStrategy"))).Rejected ∧
    ∀ p, Call.CreateVmInstance p ∉
      (Create (okClient sampleVm) (samplePlan "l3-a" (Tf.known "InvalidStrategy"))).Calls :=
  Create_invalid_strategy_rejected (okClient sampleVm)
    (samplePlan "l3-a" (Tf.known "InvalidStrategy")) "InvalidStrategy" rfl
    (by decide) (by decide)

/-! ## Create followed by Read -/

theorem foldl_setNetworkStep_createNics (nics : List NetworkInterfaceModel) :
    ∀ acc : NetworkSetup,
      (nics.foldl setNetworkStep acc).createNics =
        acc.createNics ++ nics.map fun n =>
          { L3NetworkUuid := n.L3NetworkUuid, DefaultL3 := n.DefaultL3,
            StaticIp := if (n.StaticIp.IsNull || n.StaticIp.ValueString == "") = true
              then Tf.null else n.StaticIp } := by
  induction nics with
  | nil => intro acc; simp
  | cons n rest ih =>
    intro acc
    rw [List.foldl_cons, ih]
    simp [setNetworkStep, List.append_assoc]

theorem updatedNicsOf_setNetwork (nics : List NetworkInterfaceModel)
    (inst : VmInstanceInventoryView) :
    updatedNicsOf (setNetwork nics).createNics inst =
      nics.map (normalizedNic (realIP inst.VMNics)) := by
  simp only [setNetwork, foldl_setNetworkStep_createNics, List.nil_append, updatedNicsOf,
    List.map_map]
  apply List.map_congr_left
  intro n _
  cases hst : n.StaticIp with
  | null => simp [normalizedNic, hasStaticIp, hst, Tf.IsNull, Tf.ValueString]
  | unknown => simp [normalizedNic, hasStaticIp, hst, Tf.IsNull, Tf.ValueString]
  | known v =>
    by_cases hv : v = ""
    · simp [normalizedNic, hasStaticIp, hst, Tf.IsNull, Tf.ValueString, hv]
    · simp [normalizedNic, hasStaticIp, hst, Tf.IsNull, Tf.ValueString, hv]

theorem Create_state_some (c : ZSClient) (plan st : vmInstanceDataSourceModel)
    (h : (Create c plan).State = some st) :
    ∃ hist p inst, (Create c plan).Calls = hist ++ [Call.CreateVmInstance p] ∧
      c.CreateVmInstance hist p = .ok inst ∧
      st = createState plan (setNetwork plan.NetworkInterfaces.Elements).createNics inst := by
  unfold Create at h ⊢
  cases hroot : setRootDisk c plan.RootDisk with
  | error r =>
    rw [hroot] at h
    have := (setRootDisk_error c _ r hroot).2.1
    simp only [] at h
    rw [this] at h
    exact Option.noConfusion h
  | ok root =>
    rw [hroot] at h
    simp only [] at h ⊢
    cases hdata : setDataDisks c root.calls plan.DataDisks with
    | error r =>
      rw [hdata] at h
      have := (setDataDisks_error c _ _ r (setRootDisk_ok c _ root hroot) hdata).2.1
      simp only [] at h
      rw [this] at h
      exact Option.noConfusion h
    | ok data =>
      rw [hdata] at h
      simp only [] at h ⊢
      split at h
      · exact Option.noConfusion h
      · rename_i hnet
        rw [if_neg hnet]
        cases himg : c.GetImage data.calls plan.ImageUuid.ValueString with
        | error e =>
          rw [himg] at h
          exact Option.noConfusion h
        | ok image =>
          rw [himg] at h
          simp only [] at h ⊢
          split at h
          · exact Option.noConfusion h
          · rename_i hstatus
            rw [if_neg hstatus]
            split at h
            · exact Option.noConfusion h
            · rename_i hstate
              rw [if_neg hstate]
              split at h
              · exact Option.noConfusion h
              · rename_i hstrategy
                rw [if_neg hstrategy]
                cases hcreate : c.CreateVmInstance
                    (data.calls ++ [Call.GetImage plan.ImageUuid.ValueString])
                    (createVmInstanceParam plan root data
                      (setNetwork plan.NetworkInterfaces.Elements)) with
                | error e =>
                  rw [hcreate] at h
                  exact Option.noConfusion h
                | ok inst =>
                  rw [hcreate] at h
                  simp only [Option.some.injEq] at h
                  exact ⟨_, _, inst, rfl, hcreate, h.symm⟩

theorem realIP_of_mem (vs : List VmNicInventoryView) (v : VmNicInventoryView)
    (hnodup : (vs.map VmNicInventoryView.L3NetworkUUID).Nodup) (hv : v ∈ vs) :
    realIP vs v.L3NetworkUUID = v.IP := by
  induction vs with
  | nil => simp at hv
  | cons w rest ih =>
    rw [List.map_cons, List.nodup_cons] at hnodup
    rcases List.mem_cons.mp hv with rfl | hmem
    · simp [realIP]
    · have hne : ¬ w.L3NetworkUUID = v.L3NetworkUUID := by
        intro e
        exact hnodup.1 (e ▸ List.mem_map_of_mem _ hmem)
      simp [realIP, hne, ih hnodup.2 hmem]

theorem forall₂_nicMatches_refs {ns : List NetworkInterfaceModel}
    {vs : List VmNicInventoryView} (h : List.Forall₂ nicMatches ns vs) :
    vs.map VmNicInventoryView.L3NetworkUUID =
      ns.map fun n => n.L3NetworkUuid.ValueString := by
  induction h with
  | nil => rfl
  | cons hnv _ ih => simp [hnv.1, ih]

theorem forall₂_nicMatches_ip {ns : List NetworkInterfaceModel}
    {vs : List VmNicInventoryView} (h : List.Forall₂ nicMatches ns vs) :
    ∀ v ∈ vs, v.IP ≠ "" := by
  induction h with
  | nil => intro v hv; simp at hv
  | cons hnv _ ih =>
    intro v hv
    rcases List.mem_cons.mp hv with rfl | hmem
    · exact hnv.2.1
    · exact ih v hmem

theorem normalizedNic_eq_realizedNic (ip : String → String) (d : String)
    {ns : List NetworkInterfaceModel} {vs : List VmNicInventoryView}
    (h : List.Forall₂ nicMatches ns vs)
    (hip : ∀ v ∈ vs, ip v.L3NetworkUUID = v.IP)
    (hreq : ∀ n ∈ ns, n.L3NetworkUuid = Tf.known n.L3NetworkUuid.ValueString ∧
      n.DefaultL3 = Tf.known (decide (n.L3NetworkUuid.ValueString = d))) :
    ns.map (normalizedNic ip) = vs.map (realizedNic d) := by
  induction h with
  | nil => rfl
  | @cons n v ns vs hnv _ ih =>
    have hn := hreq n (List.mem_cons_self _ _)
    have hvip := hip v (List.mem_cons_self _ _)
    have htail := ih (fun w hw => hip w (List.mem_cons_of_mem _ hw))
      (fun m hm => hreq m (List.mem_cons_of_mem _ hm))
    have hhead : normalizedNic ip n = realizedNic d v := by
      obtain ⟨hl3, _, hstatic⟩ := hnv
      have hstaticIp : (if hasStaticIp n = true then n.StaticIp
          else Tf.known (ip n.L3NetworkUuid.ValueString)) = Tf.known v.IP := by
        by_cases hp : hasStaticIp n = true
        · obtain ⟨u, _, hknown⟩ := (hasStaticIp_iff n).mp hp
          have := hstatic hp
          rw [hknown] at this
          simp only [Tf.ValueString] at this
          rw [if_pos hp, hknown, this]
        · rw [if_neg hp, ← hl3, hvip]
      simp only [normalizedNic, realizedNic, hstaticIp]
      rw [hn.1, hn.2, hl3]
    rw [List.map_cons, List.map_cons, hhead, htail]

theorem rememberedStaticIp_realized (d : String) (vs : List VmNicInventoryView)
    (hnodup : (vs.map VmNicInventoryView.L3NetworkUUID).Nodup)
    (hip : ∀ v ∈ vs, v.IP ≠ "") (v : VmNicInventoryView) (hv : v ∈ vs) :
    rememberedStaticIp (vs.map (realizedNic d)) v.L3NetworkUUID = some v.IP := by
  have hp : hasStaticIp (realizedNic d v) = true :=
    (hasStaticIp_iff _).mpr ⟨v.IP, hip v hv, rfl⟩
  obtain ⟨w, hw⟩ := rememberedStaticIp_isSome (List.mem_map_of_mem (realizedNic d) hv) hp
    (show (realizedNic d v).L3NetworkUuid.ValueString = v.L3NetworkUUID from rfl)
  obtain ⟨o, hmem, _, hk, hval⟩ := rememberedStaticIp_some hw
  obtain ⟨v2, hv2, rfl⟩ := List.mem_map.mp hmem
  have hkey : v2.L3NetworkUUID = v.L3NetworkUUID := hk
  have heq : v2 = v := List.inj_on_of_nodup_map hnodup hv2 hv hkey
  subst heq
  have hwv : v2.IP = w := hval
  rw [hw, hwv]

theorem reconcileNic_realized (inst : VmInstanceInventoryView)
    (hdef : inst.DefaultL3NetworkUUID ≠ "")
    (hnodup : (inst.VMNics.map VmNicInventoryView.L3NetworkUUID).Nodup)
    (hip : ∀ v ∈ inst.VMNics, v.IP ≠ "") :
    inst.VMNics.map (reconcileNic inst (originalNetworkInterfaces
        (listValueFromAppended (inst.VMNics.map (realizedNic inst.DefaultL3NetworkUUID))))) =
      inst.VMNics.map (realizedNic inst.DefaultL3NetworkUUID) := by
  apply List.map_congr_left
  intro v hv
  have hstatic := reconcileNic_staticIp inst (listValueFromAppended
    (inst.VMNics.map (realizedNic inst.DefaultL3NetworkUUID))) v
  rw [Elements_listValueFromAppended] at hstatic
  simp only [reconciledStaticIp,
    rememberedStaticIp_realized inst.DefaultL3NetworkUUID inst.VMNics hnodup hip v hv,
    if_true] at hstatic
  cases hA : reconcileNic inst (originalNetworkInterfaces (listValueFromAppended
    (inst.VMNics.map (realizedNic inst.DefaultL3NetworkUUID)))) v with
  | mk a1 a2 a3 =>
    rw [hA] at hstatic
    have e1 : a1 = Tf.known v.L3NetworkUUID := by
      have := congrArg NetworkInterfaceModel.L3NetworkUuid hA
      simpa [reconcileNic] using this.symm
    have e2 : a2 = Tf.known (decide (v.L3NetworkUUID = inst.DefaultL3NetworkUUID)) := by
      have := congrArg NetworkInterfaceModel.DefaultL3 hA
      simp only [reconcileNic] at this
      rw [← this]
      by_cases hd : v.L3NetworkUUID = inst.DefaultL3NetworkUUID
      · simp [hd, hdef]
      · simp [hd]
    simp only [] at hstatic
    rw [e1, e2, hstatic]
    rfl

theorem samplePlan_matches (l3 : String) (strategy : Tf String)
    (inst : VmInstanceInventoryView) (v : VmNicInventoryView)
    (hnics : inst.VMNics = [v]) (hl3 : v.L3NetworkUUID = l3) (hip : v.IP ≠ "")
    (hdef : inst.DefaultL3NetworkUUID = l3) :
    CreateResponseMatches (samplePlan l3 strategy).NetworkInterfaces.Elements inst where
  required := by
    intro n hn
    simp only [samplePlan, Tf.Elements, List.mem_singleton] at hn
    subst hn
    exact ⟨rfl, rfl⟩
  distinct := by simp [samplePlan, Tf.Elements]
  oneDefault := by
    refine ⟨⟨Tf.known l3, Tf.known true, Tf.unknown⟩, by simp [samplePlan, Tf.Elements],
      rfl, ?_, hdef⟩
    intro n hn _
    simpa [samplePlan, Tf.Elements] using hn
  nicPerInterface := by
    rw [hnics]
    exact List.Forall₂.cons ⟨hl3, hip, fun h => absurd h (by simp [hasStaticIp, Tf.ValueString])⟩
      List.Forall₂.nil

/-- C9 as stated fails on the empty network reference: the request and the response of
`unroutedVm` satisfy every hypothesis of the claim, Create stores the interface flagged
default, and Read against the same instance stores it unflagged. -/
theorem Create_then_Read_counterexample :
    CreateResponseMatches (samplePlan "" Tf.null).NetworkInterfaces.Elements unroutedVm ∧
    ∃ st, (Create (okClient unroutedVm) (samplePlan "" Tf.null)).State = some st ∧
      st.NetworkInterfaces = Tf.known [⟨Tf.known "", Tf.known true, Tf.known "10.0.0.5"⟩] ∧
      (readState st (.ok unroutedVm)).NetworkInterfaces =
        Tf.known [⟨Tf.known "", Tf.known false, Tf.known "10.0.0.5"⟩] ∧
      (readState st (.ok unroutedVm)).NetworkInterfaces ≠ st.NetworkInterfaces :=
  ⟨samplePlan_matches "" Tf.null unroutedVm
      ⟨"nic-1", "10.0.0.5", "255.255.255.0", "10.0.0.1", ""⟩ rfl rfl (by decide) rfl,
    createState (samplePlan "" Tf.null) [⟨Tf.known "", Tf.known true, Tf.null⟩] unroutedVm,
    by decide, by decide, by decide, by decide⟩

/-- C9, amended. Create followed by Read keeps the stored interface list: when Create
stored a state, the create call answered `inst`, the request and `inst` satisfy the
hypotheses of the claim (`CreateResponseMatches`) and the default-route network reference
of `inst` is not the empty string, Read against `inst` stores the same network_interfaces
list as Create did, entry by entry. -/
theorem Create_then_Read_keeps_interfaces (c : ZSClient)
    (plan st : vmInstanceDataSourceModel) (inst : VmInstanceInventoryView)
    (hcreate : (Create c plan).State = some st)
    (hresp : ∀ hist p, (Create c plan).Calls = hist ++ [Call.CreateVmInstance p] →
      c.CreateVmInstance hist p = .ok inst)
    (hmatch : CreateResponseMatches plan.NetworkInterfaces.Elements inst)
    (hdef : inst.DefaultL3NetworkUUID ≠ "") :
    (readState st (.ok inst)).NetworkInterfaces = st.NetworkInterfaces := by
  obtain ⟨hist, p, inst2, hcalls, hanswer, hst⟩ := Create_state_some c plan st hcreate
  have hinst : inst2 = inst := by
    have := hresp hist p hcalls
    rw [hanswer] at this
    exact Except.ok.inj this
  subst hinst
  obtain ⟨hrequired, hdistinct, ⟨d, hd, hdflag, hdonly, hdroute⟩, hnics⟩ := hmatch
  have hrefs := forall₂_nicMatches_refs hnics
  have hnodup : (inst2.VMNics.map VmNicInventoryView.L3NetworkUUID).Nodup := by
    rw [hrefs]; exact hdistinct
  have hip := forall₂_nicMatches_ip hnics
  have hflags : ∀ n ∈ plan.NetworkInterfaces.Elements,
      n.L3NetworkUuid = Tf.known n.L3NetworkUuid.ValueString ∧
      n.DefaultL3 = Tf.known
        (decide (n.L3NetworkUuid.ValueString = inst2.DefaultL3NetworkUUID)) := by
    intro n hn
    refine ⟨(hrequired n hn).1, ?_⟩
    rw [(hrequired n hn).2]
    cases hb : n.DefaultL3.ValueBool with
    | true =>
      have := hdonly n hn hb
      subst this
      simp [hdroute]
    | false =>
      have hne : ¬ n.L3NetworkUuid.ValueString = inst2.DefaultL3NetworkUUID := by
        intro e
        rw [hdroute] at e
        have := List.inj_on_of_nodup_map hdistinct hn hd e
        subst this
        rw [hb] at hdflag
        exact Bool.noConfusion hdflag
      simp [hne]
  have hstored : st.NetworkInterfaces = listValueFromAppended
      (inst2.VMNics.map (realizedNic inst2.DefaultL3NetworkUUID)) := by
    rw [hst]
    simp only [createState]
    rw [updatedNicsOf_setNetwork,
      normalizedNic_eq_realizedNic (realIP inst2.VMNics) inst2.DefaultL3NetworkUUID hnics
        (fun v hv => realIP_of_mem inst2.VMNics v hnodup hv) hflags]
  simp only [readState]
  rw [hstored, reconcileNic_realized inst2 hdef hnodup hip]

/-- Witness of the amended C9: one interface on l3-a, realized with the IP 10.0.0.5. -/
theorem Create_then_Read_keeps_interfaces_witness :
    (readState (createState (samplePlan "l3-a" Tf.null)
        [⟨Tf.known "l3-a", Tf.known true, Tf.null⟩] sampleVm) (.ok sampleVm)).NetworkInterfaces =
      Tf.known [⟨Tf.known "l3-a", Tf.known true, Tf.known "10.0.0.5"⟩] :=
  Create_then_Read_keeps_interfaces (okClient sampleVm) (samplePlan "l3-a" Tf.null)
    (createState (samplePlan "l3-a" Tf.null) [⟨Tf.known "l3-a", Tf.known true, Tf.null⟩] sampleVm)
    sampleVm rfl (fun _ _ _ => rfl)
    (samplePlan_matches "l3-a" Tf.null sampleVm
      ⟨"nic-1", "10.0.0.5", "255.255.255.0", "10.0.0.1", "l3-a"⟩ rfl rfl (by decide) rfl)
    (by decide)

/-! ## Create: the path to the create call -/

theorem Create_cases (c : ZSClient) (plan : vmInstanceDataSourceModel) :
    (Create c plan).Rejected ∨ ∃ root data image, CreatePath c plan root data image := by
  cases hroot : setRootDisk c plan.RootDisk with
  | error r =>
    left
    unfold Create
    rw [hroot]
    exact setRootDisk_error c _ r hroot
  | ok root =>
    have hrootCalls := setRootDisk_ok c _ root hroot
    cases hdata : setDataDisks c root.calls plan.DataDisks with
    | error r =>
      left
      unfold Create
      rw [hroot]
      simp only []
      rw [hdata]
      exact setDataDisks_error c _ _ r hrootCalls hdata
    | ok data =>
      have hdataCalls := setDataDisks_ok c _ _ data hrootCalls hdata
      have himgCalls :=
        isLookup_append_getImage data.calls plan.ImageUuid.ValueString hdataCalls
      cases hnics : (plan.NetworkInterfaces.IsNull ||
          plan.NetworkInterfaces.Elements.length == 0) with
      | true =>
        left
        unfold Create
        rw [hroot]
        simp only []
        rw [hdata]
        simp only [hnics, if_true]
        exact ⟨rfl, rfl, hdataCalls⟩
      | false =>
        cases himg : c.GetImage data.calls plan.ImageUuid.ValueString with
        | error e =>
          left
          unfold Create
          rw [hroot]
          simp only []
          rw [hdata]
          simp only [hnics, himg, Bool.false_eq_true, if_false]
          exact ⟨rfl, rfl, himgCalls⟩
        | ok image =>
          cases hready : (image.Status != "Ready") with
          | true =>
            left
            unfold Create
            rw [hroot]
            simp only []
            rw [hdata]
            simp only [hnics, himg, hready, Bool.false_eq_true, if_false, if_true]
            exact ⟨rfl, rfl, himgCalls⟩
          | false =>
            cases henabled : (image.State != "Enabled") with
            | true =>
              left
              unfold Create
              rw [hroot]
              simp only []
              rw [hdata]
              simp only [hnics, himg, hready, henabled, Bool.false_eq_true, if_false, if_true]
              exact ⟨rfl, rfl, himgCalls⟩
            | false =>
              cases hstrategy : (!plan.Strategy.IsNull &&
                  (plan.Strategy.ValueString != "InstantStart" &&
                    plan.Strategy.ValueString != "CreateStopped")) with
              | true =>
                left
                unfold Create
                rw [hroot]
                simp only []
                rw [hdata]
                simp only [hnics, himg, hready, henabled, hstrategy, Bool.false_eq_true,
                  if_false, if_true]
                exact ⟨rfl, rfl, himgCalls⟩
              | false =>
                right
                exact ⟨root, data, image, hroot, hdata, hnics, himg, by simpa using hready,
                  by simpa using henabled, hstrategy⟩

theorem Create_eq_of_path {c : ZSClient} {plan : vmInstanceDataSourceModel}
    {root : RootDiskSetup} {data : DataDiskSetup} {image : ImageView}
    (hp : CreatePath c plan root data image) :
    Create c plan =
      createOutcome c plan (data.calls ++ [Call.GetImage plan.ImageUuid.ValueString])
        (createVmInstanceParam plan root data (setNetwork plan.NetworkInterfaces.Elements)) := by
  unfold Create createOutcome
  rw [hp.rootOk]
  simp only []
  rw [hp.dataOk]
  have hready : (image.Status != "Ready") = false := by simp [hp.ready]
  have henabled : (image.State != "Enabled") = false := by simp [hp.enabled]
  simp only [hp.hasNics, hp.imageOk, hready, henabled, hp.strategyOk, Bool.false_eq_true,
    if_false]

theorem isDiskParamValid_noRef (c : ZSClient) (h : List Call) (model : diskModel)
    (hn : namesStorage model = false) : isDiskParamValid c h model = (h, none) := by
  unfold isDiskParamValid
  simp only [namesStorage, Bool.not_eq_false'] at hn
  rw [if_pos hn]

theorem isDiskParamValid_ref (c : ZSClient) (h : List Call) (model : diskModel)
    (hn : namesStorage model = true) :
    (isDiskParamValid c h model).1 =
      h ++ [Call.QueryPrimaryStorage (storageQuery model.PrimaryStorageUuid.ValueString)] := by
  unfold isDiskParamValid
  simp only [namesStorage, Bool.not_eq_true', ] at hn
  rw [if_neg (by rw [hn]; exact Bool.false_ne_true)]
  simp only [storageQuery]
  split
  · rfl
  · rfl
  · split
    · split <;> rfl
    · rfl

theorem isDiskParamValid_queries (c : ZSClient) (h : List Call) (model : diskModel)
    (hh : ∀ call ∈ h, call.isQuery = true) :
    ∀ call ∈ (isDiskParamValid c h model).1, call.isQuery = true := by
  intro call hc
  rcases isDiskParamValid_fst c h model with hfst | ⟨q, hfst⟩
  · rw [hfst] at hc; exact hh call hc
  · rw [hfst] at hc
    simp only [List.mem_append, List.mem_singleton] at hc
    rcases hc with hc | hc
    · exact hh call hc
    · subst hc; rfl

theorem setRootDisk_error_queries (c : ZSClient) (rootDisk : Tf diskModel) (r : Response)
    (h : setRootDisk c rootDisk = .error r) :
    r.QueryRejected ∧ (rootNamesStorage rootDisk = false → r.Calls = []) := by
  unfold setRootDisk at h
  cases rootDisk with
  | null => simp at h
  | unknown =>
    simp at h
    subst h
    exact ⟨⟨rfl, rfl, by simp⟩, fun _ => rfl⟩
  | known d =>
    simp only at h
    have hcalls := isDiskParamValid_queries c [] d (by simp)
    have hnoref := isDiskParamValid_noRef c [] d
    cases hv : isDiskParamValid c [] d with
    | mk hist e =>
      rw [hv] at h hcalls hnoref
      cases e with
      | none => simp at h
      | some err =>
        simp at h
        subst h
        refine ⟨⟨rfl, rfl, hcalls⟩, ?_⟩
        intro hn
        have := hnoref hn
        simp at this

theorem setRootDisk_ok_queries (c : ZSClient) (rootDisk : Tf diskModel)
    (root : RootDiskSetup) (h : setRootDisk c rootDisk = .ok root) :
    (∀ call ∈ root.calls, call.isQuery = true) ∧
      (rootNamesStorage rootDisk = false → root.calls = []) := by
  unfold setRootDisk at h
  cases rootDisk with
  | null =>
    simp at h
    subst h
    exact ⟨by simp, fun _ => rfl⟩
  | unknown => simp at h
  | known d =>
    simp only at h
    have hcalls := isDiskParamValid_queries c [] d (by simp)
    have hnoref := isDiskParamValid_noRef c [] d
    cases hv : isDiskParamValid c [] d with
    | mk hist e =>
      rw [hv] at h hcalls hnoref
      cases e with
      | none =>
        simp at h
        subst h
        refine ⟨hcalls, ?_⟩
        intro hn
        have := hnoref hn
        simp only [Prod.mk.injEq] at this
        exact this.1
      | some err => simp at h

theorem setDataDisks_error_queries (c : ZSClient) (h0 : List Call)
    (dataDisks : Tf (List diskModel)) (r : Response)
    (hh : ∀ call ∈ h0, call.isQuery = true)
    (h : setDataDisks c h0 dataDisks = .error r) :
    r.QueryRejected ∧ (firstDataNamesStorage dataDisks = false → r.Calls = h0) := by
  unfold setDataDisks at h
  split at h
  · simp only at h
    split at h
    · simp at h
      subst h
      exact ⟨⟨rfl, rfl, hh⟩, fun _ => rfl⟩
    · split at h
      · simp at h
      · rename_i first rest heq
        have hcalls := isDiskParamValid_queries c h0 first hh
        have hnoref := isDiskParamValid_noRef c h0 first
        cases hv : isDiskParamValid c h0 first with
        | mk hist e =>
          rw [hv] at h hcalls hnoref
          cases e with
          | none => simp at h
          | some err =>
            simp at h
            subst h
            refine ⟨⟨rfl, rfl, hcalls⟩, ?_⟩
            intro hn
            simp only [firstDataNamesStorage, heq] at hn
            have := hnoref hn
            simp at this
  · simp at h

theorem setDataDisks_ok_queries (c : ZSClient) (h0 : List Call)
    (dataDisks : Tf (List diskModel)) (data : DataDiskSetup)
    (hh : ∀ call ∈ h0, call.isQuery = true)
    (h : setDataDisks c h0 dataDisks = .ok data) :
    (∀ call ∈ data.calls, call.isQuery = true) ∧
      (firstDataNamesStorage dataDisks = false → data.calls = h0) := by
  unfold setDataDisks at h
  split at h
  · simp only at h
    split at h
    · simp at h
    · split at h
      · simp at h
        subst h
        exact ⟨hh, fun _ => rfl⟩
      · rename_i first rest heq
        have hcalls := isDiskParamValid_queries c h0 first hh
        have hnoref := isDiskParamValid_noRef c h0 first
        cases hv : isDiskParamValid c h0 first with
        | mk hist e =>
          rw [hv] at h hcalls hnoref
          cases e with
          | none =>
            simp at h
            subst h
            refine ⟨hcalls, ?_⟩
            intro hn
            simp only [firstDataNamesStorage, heq] at hn
            have := hnoref hn
            simp only [Prod.mk.injEq] at this
            exact this.1
          | some err => simp at h
  · simp at h
    subst h
    exact ⟨hh, fun _ => rfl⟩

/-! ## Create: configuration checks -/

theorem collectDataDisks_missing_size :
    ∀ (l : List diskModel) (a : List Int) (b : List String),
      (∃ d ∈ l, d.Size.IsNull = true) → collectDataDisks l a b = none := by
  intro l
  induction l with
  | nil => intro a b h; simp at h
  | cons d rest ih =>
    intro a b h
    by_cases hd : d.Size.IsNull = true
    · simp [collectDataDisks, hd]
    · obtain ⟨x, hx, hnull⟩ := h
      rcases List.mem_cons.mp hx with rfl | hmem
      · exact absurd hnull hd
      · simp only [Bool.not_eq_true] at hd
        simp only [collectDataDisks, hd, Bool.not_false, if_true]
        exact ih _ _ ⟨x, hmem, hnull⟩

theorem setDataDisks_missing_size (c : ZSClient) (h0 : List Call)
    (dataDisks : Tf (List diskModel))
    (h : ∃ d ∈ dataDisks.Elements, d.Size.IsNull = true) :
    ∃ r, setDataDisks c h0 dataDisks = .error r ∧ r.Calls = h0 ∧ r.HasError = true ∧
      r.State = none := by
  have hnotnull : dataDisks.IsNull = false := by
    cases dataDisks with
    | null => simp [Tf.Elements] at h
    | unknown => rfl
    | known l => rfl
  unfold setDataDisks
  simp only [hnotnull, Bool.not_false, if_true,
    collectDataDisks_missing_size dataDisks.Elements [] [] h]
  exact ⟨_, rfl, rfl, rfl, rfl⟩

/-- C11 as stated fails when a disk names a primary storage: with the root disk on ps-1,
Create queries that storage before it rejects the missing interfaces, and before it
rejects the data disk without a size. -/
theorem Create_missing_input_counterexample :
    ((Create (okClient sampleVm) (storagePlan Tf.null Tf.null)).Calls =
        [Call.QueryPrimaryStorage (storageQuery "ps-1")] ∧
      (Create (okClient sampleVm) (storagePlan Tf.null Tf.null)).HasError = true) ∧
    ((Create (okClient sampleVm)
        (storagePlan (Tf.known [⟨Tf.known "l3-a", Tf.known true, Tf.unknown⟩])
          (Tf.known [sizelessDisk]))).Calls =
        [Call.QueryPrimaryStorage (storageQuery "ps-1")] ∧
      (Create (okClient sampleVm)
        (storagePlan (Tf.known [⟨Tf.known "l3-a", Tf.known true, Tf.unknown⟩])
          (Tf.known [sizelessDisk]))).HasError = true) := by
  decide

/-- C11, amended. Missing network interfaces and a missing data-disk size are rejected
before the image lookup and the create call: for every spec without a requested interface
(null or empty list) and for every spec that has a data disk with no size, Create reports an
error, writes no state, and the only client calls it made are the primary-storage queries
of the disk validator. It makes no call at all when the root disk names no primary
storage and either a data-disk size is missing or the first data disk names no primary
storage. -/
theorem Create_missing_input_rejected (c : ZSClient) (plan : vmInstanceDataSourceModel)
    (h : plan.NetworkInterfaces.Elements = [] ∨
      ∃ d ∈ plan.DataDisks.Elements, d.Size.IsNull = true) :
    (Create c plan).QueryRejected ∧
    (rootNamesStorage plan.RootDisk = false →
      ((∃ d ∈ plan.DataDisks.Elements, d.Size.IsNull = true) ∨
        firstDataNamesStorage plan.DataDisks = false) →
      (Create c plan).Calls = []) := by
  unfold Create
  cases hroot : setRootDisk c plan.RootDisk with
  | error r =>
    obtain ⟨hrej, hcalls⟩ := setRootDisk_error_queries c _ r hroot
    exact ⟨hrej, fun hn _ => hcalls hn⟩
  | ok root =>
    obtain ⟨hrootQ, hrootCalls⟩ := setRootDisk_ok_queries c _ root hroot
    simp only []
    by_cases hsize : ∃ d ∈ plan.DataDisks.Elements, d.Size.IsNull = true
    · obtain ⟨r, hr, hrcalls, hrerr, hrstate⟩ :=
        setDataDisks_missing_size c root.calls plan.DataDisks hsize
      rw [hr]
      simp only []
      refine ⟨⟨hrerr, hrstate, by rw [hrcalls]; exact hrootQ⟩, ?_⟩
      intro hn _
      rw [hrcalls]
      exact hrootCalls hn
    · have hnics : plan.NetworkInterfaces.Elements = [] := by
        rcases h with h | h
        · exact h
        · exact absurd h hsize
      cases hdata : setDataDisks c root.calls plan.DataDisks with
      | error r =>
        obtain ⟨hrej, hcalls⟩ := setDataDisks_error_queries c _ _ r hrootQ hdata
        refine ⟨hrej, ?_⟩
        intro hn hfirst
        rcases hfirst with hfirst | hfirst
        · exact absurd hfirst hsize
        · simp only []
          rw [hcalls hfirst]
          exact hrootCalls hn
      | ok data =>
        obtain ⟨hdataQ, hcalls⟩ := setDataDisks_ok_queries c _ _ data hrootQ hdata
        have hcond : (plan.NetworkInterfaces.IsNull ||
            plan.NetworkInterfaces.Elements.length == 0) = true := by
          simp [hnics]
        simp only [hcond, if_true]
        refine ⟨⟨rfl, rfl, hdataQ⟩, ?_⟩
        intro hn hfirst
        rcases hfirst with hfirst | hfirst
        · exact absurd hfirst hsize
        · show data.calls = []
          rw [hcalls hfirst]
          exact hrootCalls hn

/-- Witness of the amended C11: without any disk naming a storage, the plan without
interfaces is rejected with no call at all; with the root disk on ps-1 the sizeless data
disk is rejected after storage queries only. -/
theorem Create_missing_input_rejected_witness :
    ((Create (okClient sampleVm)
        { samplePlan "l3-a" Tf.null with NetworkInterfaces := Tf.null }).QueryRejected ∧
      (Create (okClient sampleVm)
        { samplePlan "l3-a" Tf.null with NetworkInterfaces := Tf.null }).Calls = []) ∧
    (Create (okClient sampleVm)
      (storagePlan (Tf.known [⟨Tf.known "l3-a", Tf.known true, Tf.unknown⟩])
        (Tf.known [sizelessDisk]))).QueryRejected :=
  ⟨⟨(Create_missing_input_rejected (okClient sampleVm)
        { samplePlan "l3-a" Tf.null with NetworkInterfaces := Tf.null } (Or.inl rfl)).1,
     (Create_missing_input_rejected (okClient sampleVm)
        { samplePlan "l3-a" Tf.null with NetworkInterfaces := Tf.null } (Or.inl rfl)).2
        rfl (Or.inr rfl)⟩,
   (Create_missing_input_rejected (okClient sampleVm)
      (storagePlan (Tf.known [⟨Tf.known "l3-a", Tf.known true, Tf.unknown⟩])
        (Tf.known [sizelessDisk]))
      (Or.inr ⟨sizelessDisk, by simp [storagePlan, Tf.Elements], rfl⟩)).1⟩

/-! ## Create: the create call -/

theorem createOutcome_calls (c : ZSClient) (plan : vmInstanceDataSourceModel)
    (h1 : List Call) (p : CreateVmInstanceParam) :
    (createOutcome c plan h1 p).Calls = h1 ++ [Call.CreateVmInstance p] := by
  unfold createOutcome
  split <;> rfl

theorem CreatePath.queries {c : ZSClient} {plan : vmInstanceDataSourceModel}
    {root : RootDiskSetup} {data : DataDiskSetup} {image : ImageView}
    (hp : CreatePath c plan root data image) : ∀ call ∈ data.calls, call.isQuery = true :=
  (setDataDisks_ok_queries c _ _ data
    (setRootDisk_ok_queries c _ root hp.rootOk).1 hp.dataOk).1

theorem Create_calls_of_path {c : ZSClient} {plan : vmInstanceDataSourceModel}
    {root : RootDiskSetup} {data : DataDiskSetup} {image : ImageView}
    (hp : CreatePath c plan root data image) :
    (Create c plan).Calls =
      data.calls ++ [Call.GetImage plan.ImageUuid.ValueString] ++
        [Call.CreateVmInstance
          (createVmInstanceParam plan root data (setNetwork plan.NetworkInterfaces.Elements))] := by
  rw [Create_eq_of_path hp, createOutcome_calls]

theorem Create_path_of_call (c : ZSClient) (plan : vmInstanceDataSourceModel)
    (p : CreateVmInstanceParam) (h : Call.CreateVmInstance p ∈ (Create c plan).Calls) :
    ∃ root data image, CreatePath c plan root data image ∧
      p = createVmInstanceParam plan root data (setNetwork plan.NetworkInterfaces.Elements) := by
  rcases Create_cases c plan with hrej | ⟨root, data, image, hp⟩
  · have := hrej.2.2 _ h
    simp [Call.isLookup] at this
  · refine ⟨root, data, image, hp, ?_⟩
    rw [Create_calls_of_path hp] at h
    simp only [List.mem_append, List.mem_singleton] at h
    rcases h with (h | h) | h
    · have := hp.queries _ h
      simp [Call.isQuery] at this
    · exact Call.noConfusion h
    · exact Call.CreateVmInstance.inj h

/-- C12. Image precondition of Create. Whenever Create calls CreateVmInstance, it has
looked the image up before, the lookup succeeded and the image has Status "Ready" and
State "Enabled". When the image lookup that Create makes fails or answers an image with
another Status or State, Create reports an error, writes no state and never calls
CreateVmInstance. -/
theorem Create_image_precondition (c : ZSClient) (plan : vmInstanceDataSourceModel) :
    (∀ p, Call.CreateVmInstance p ∈ (Create c plan).Calls →
      ∃ hist image,
        (Create c plan).Calls =
          hist ++ [Call.GetImage plan.ImageUuid.ValueString, Call.CreateVmInstance p] ∧
        c.GetImage hist plan.ImageUuid.ValueString = .ok image ∧
        image.Status = "Ready" ∧ image.State = "Enabled") ∧
    ((∀ hist rest,
        (Create c plan).Calls = hist ++ Call.GetImage plan.ImageUuid.ValueString :: rest →
        imageUsable (c.GetImage hist plan.ImageUuid.ValueString) = false) →
      (Create c plan).HasError = true ∧ (Create c plan).State = none ∧
        ∀ p, Call.CreateVmInstance p ∉ (Create c plan).Calls) := by
  constructor
  · intro p hp
    obtain ⟨root, data, image, hpath, rfl⟩ := Create_path_of_call c plan p hp
    refine ⟨data.calls, image, ?_, hpath.imageOk, hpath.ready, hpath.enabled⟩
    rw [Create_calls_of_path hpath]
    simp
  · intro hbad
    rcases Create_cases c plan with hrej | ⟨root, data, image, hpath⟩
    · refine ⟨hrej.1, hrej.2.1, ?_⟩
      intro p hp
      have := hrej.2.2 _ hp
      simp [Call.isLookup] at this
    · exfalso
      have := hbad data.calls
        [Call.CreateVmInstance
          (createVmInstanceParam plan root data (setNetwork plan.NetworkInterfaces.Elements))]
        (by rw [Create_calls_of_path hpath]; simp)
      rw [hpath.imageOk] at this
      simp [imageUsable, hpath.ready, hpath.enabled] at this

/-- Witness of C12: on `okClient` the create call is preceded by the lookup of a Ready
and Enabled image; on `notReadyClient` Create fails without state and without create call. -/
theorem Create_image_precondition_witness :
    (∃ hist image,
      (Create (okClient sampleVm) (samplePlan "l3-a" Tf.null)).Calls =
        hist ++ [Call.GetImage "img-1", Call.CreateVmInstance
          (createVmInstanceParam (samplePlan "l3-a" Tf.null)
            ⟨[], diskModel.zero, none, []⟩ ⟨[], [], []⟩
            (setNetwork [⟨Tf.known "l3-a", Tf.known true, Tf.unknown⟩]))] ∧
      (okClient sampleVm).GetImage hist "img-1" = .ok image ∧
      image.Status = "Ready" ∧ image.State = "Enabled") ∧
    ((Create notReadyClient (samplePlan "l3-a" Tf.null)).HasError = true ∧
      (Create notReadyClient (samplePlan "l3-a" Tf.null)).State = none ∧
      ∀ p, Call.CreateVmInstance p ∉ (Create notReadyClient (samplePlan "l3-a" Tf.null)).Calls) :=
  ⟨(Create_image_precondition (okClient sampleVm) (samplePlan "l3-a" Tf.null)).1 _
      (by decide),
   (Create_image_precondition notReadyClient (samplePlan "l3-a" Tf.null)).2
      (fun _ _ _ => rfl)⟩

/-- C13. A failed create call records nothing: when Create got to the create call (the
call is the last of its trace) and that call answered an error, Create reports the error
diagnostic of the create call and writes no state. -/
theorem Create_failed_call_records_nothing (c : ZSClient)
    (plan : vmInstanceDataSourceModel) (hist : List Call) (p : CreateVmInstanceParam)
    (err : String)
    (hcalls : (Create c plan).Calls = hist ++ [Call.CreateVmInstance p])
    (hfail : c.CreateVmInstance hist p = .error err) :
    (Create c plan).HasError = true ∧ (Create c plan).State = none ∧
      (Create c plan).Diagnostics =
        [⟨"Create VmInstance Error", "failed to create vminstance, err: " ++ err⟩] := by
  have hmem : Call.CreateVmInstance p ∈ (Create c plan).Calls := by
    rw [hcalls]; simp
  obtain ⟨root, data, image, hpath, rfl⟩ := Create_path_of_call c plan p hmem
  have hhist : data.calls ++ [Call.GetImage plan.ImageUuid.ValueString] = hist := by
    have := Create_calls_of_path hpath
    rw [hcalls] at this
    exact (List.append_cancel_right this).symm
  rw [Create_eq_of_path hpath, hhist]
  simp [createOutcome, hfail, Response.HasError]

/-- Witness of C13 on a remote side whose create call fails. -/
theorem Create_failed_call_records_nothing_witness :
    (Create failCreateClient (samplePlan "l3-a" Tf.null)).HasError = true ∧
    (Create failCreateClient (samplePlan "l3-a" Tf.null)).State = none ∧
    (Create failCreateClient (samplePlan "l3-a" Tf.null)).Diagnostics =
      [⟨"Create VmInstance Error", "failed to create vminstance, err: " ++ "quota exceeded"⟩] :=
  Create_failed_call_records_nothing failCreateClient (samplePlan "l3-a" Tf.null)
    [Call.GetImage "img-1"]
    (createVmInstanceParam (samplePlan "l3-a" Tf.null) ⟨[], diskModel.zero, none, []⟩
      ⟨[], [], []⟩ (setNetwork [⟨Tf.known "l3-a", Tf.known true, Tf.unknown⟩]))
    "quota exceeded" rfl rfl

/-! ## Create: the request -/

theorem foldl_setNetworkStep_l3NetworkUuids (nics : List NetworkInterfaceModel) :
    ∀ acc : NetworkSetup,
      (nics.foldl setNetworkStep acc).l3NetworkUuids =
        acc.l3NetworkUuids ++ nics.map fun n => n.L3NetworkUuid.ValueString := by
  induction nics with
  | nil => intro acc; simp
  | cons n rest ih =>
    intro acc
    rw [List.foldl_cons, ih]
    simp [setNetworkStep, List.append_assoc]

theorem foldl_setNetworkStep_systemTags (nics : List NetworkInterfaceModel) :
    ∀ acc : NetworkSetup,
      (nics.foldl setNetworkStep acc).systemTags = acc.systemTags ++ staticIpTags nics := by
  induction nics with
  | nil => intro acc; simp [staticIpTags]
  | cons n rest ih =>
    intro acc
    rw [List.foldl_cons, ih]
    by_cases hp : hasStaticIp n = true
    · have hno : (n.StaticIp.IsNull || n.StaticIp.ValueString == "") = false := by
        simp only [hasStaticIp] at hp
        cases hst : n.StaticIp <;> simp_all [Tf.IsNull, Tf.ValueString]
      simp [setNetworkStep, staticIpTags, hp, hno, List.append_assoc]
    · have hno : (n.StaticIp.IsNull || n.StaticIp.ValueString == "") = true := by
        simp only [hasStaticIp] at hp
        cases hst : n.StaticIp <;> simp_all [Tf.IsNull, Tf.ValueString]
      simp [setNetworkStep, staticIpTags, hp, hno]

theorem foldl_setNetworkStep_defaultL3Uuid (nics : List NetworkInterfaceModel) :
    ∀ acc : NetworkSetup,
      (nics.foldl setNetworkStep acc).defaultL3Uuid =
        match nics.reverse.find? (fun n => n.DefaultL3 == Tf.known true) with
        | some n => n.L3NetworkUuid.ValueString
        | none => acc.defaultL3Uuid := by
  induction nics with
  | nil => intro acc; simp
  | cons n rest ih =>
    intro acc
    rw [List.foldl_cons, ih, List.reverse_cons, List.find?_append]
    cases hfind : List.find? (fun n => n.DefaultL3 == Tf.known true) rest.reverse with
    | some m => simp
    | none =>
      cases hflag : n.DefaultL3 with
      | null => simp [setNetworkStep, hflag, Tf.ValueBool]
      | unknown => simp [setNetworkStep, hflag, Tf.ValueBool]
      | known b => cases b <;> simp [setNetworkStep, hflag, Tf.ValueBool]

theorem realIP_eq_firstRealizedIp (inst : VmInstanceInventoryView) (l3 : String) :
    realIP inst.VMNics l3 = firstRealizedIp inst l3 := by
  unfold firstRealizedIp
  induction inst.VMNics with
  | nil => rfl
  | cons v rest ih =>
    by_cases hv : v.L3NetworkUUID = l3
    · simp [realIP, hv]
    · simp [realIP, hv, ih]

/-- C14. System tags of the create request: whenever Create calls CreateVmInstance, the
SystemTags of the request are, in this order, one tag staticIp::<network>::<ip> per
requested interface with a non-null, non-empty static IP (in interface order), then
ha::NeverStop exactly when never_stop is set and true, then userdata::<payload> exactly
when user_data is set and non-empty. -/
theorem Create_request_system_tags (c : ZSClient) (plan : vmInstanceDataSourceModel)
    (p : CreateVmInstanceParam) (h : Call.CreateVmInstance p ∈ (Create c plan).Calls) :
    p.SystemTags =
      staticIpTags plan.NetworkInterfaces.Elements ++ neverStopTags plan.NeverStop ++
        userDataTags plan.UserData := by
  obtain ⟨root, data, image, _, rfl⟩ := Create_path_of_call c plan p h
  have hnever : (if (!plan.NeverStop.IsNull && plan.NeverStop.ValueBool) = true
      then ["ha::NeverStop"] else []) = neverStopTags plan.NeverStop := by
    cases hn : plan.NeverStop with
    | null => rfl
    | unknown => rfl
    | known b => cases b <;> rfl
  have huser : (if (!plan.UserData.IsNull && plan.UserData.ValueString != "") = true
      then ["userdata::" ++ plan.UserData.ValueString] else []) =
      userDataTags plan.UserData := by
    cases hu : plan.UserData with
    | null => rfl
    | unknown => rfl
    | known s =>
      by_cases hs : s = ""
      · simp [userDataTags, hs, Tf.IsNull, Tf.ValueString]
      · simp [userDataTags, hs, Tf.IsNull, Tf.ValueString]
  simp only [createVmInstanceParam, setNetwork, foldl_setNetworkStep_systemTags,
    List.nil_append, hnever, huser]

/-- Witness of C14 on `twoDefaultPlan`: one static-IP tag (l3-b), then never-stop, then
the user data. -/
theorem Create_request_system_tags_witness :
    (diskless twoDefaultPlan).SystemTags =
      ["staticIp::l3-b::10.0.1.7", "ha::NeverStop", "userdata::#cloud-config"] :=
  Create_request_system_tags (okClient sampleVm) twoDefaultPlan (diskless twoDefaultPlan)
    (by decide)

/-- C15. Default network of the create request is last-wins: whenever Create calls
CreateVmInstance, the DefaultL3NetworkUuid of the request is the network reference of
the last requested interface whose default_l3 flag is true, the empty string when none is
flagged, and L3NetworkUuids lists the network references in the requested order. -/
theorem Create_request_default_network (c : ZSClient) (plan : vmInstanceDataSourceModel)
    (p : CreateVmInstanceParam) (h : Call.CreateVmInstance p ∈ (Create c plan).Calls) :
    plan.NetworkInterfaces.Elements ≠ [] ∧
    p.DefaultL3NetworkUuid = lastDefaultNetwork plan.NetworkInterfaces.Elements ∧
    p.L3NetworkUuids =
      plan.NetworkInterfaces.Elements.map fun n => n.L3NetworkUuid.ValueString := by
  obtain ⟨root, data, image, hpath, rfl⟩ := Create_path_of_call c plan p h
  refine ⟨?_, ?_, ?_⟩
  · intro hnil
    have := hpath.hasNics
    simp [hnil] at this
  · simp only [createVmInstanceParam, setNetwork, foldl_setNetworkStep_defaultL3Uuid,
      lastDefaultNetwork]
  · simp only [createVmInstanceParam, setNetwork, foldl_setNetworkStep_l3NetworkUuids,
      List.nil_append]

/-- Witness of C15 on `twoDefaultPlan`: l3-a and l3-b are flagged, l3-b wins. -/
theorem Create_request_default_network_witness :
    twoDefaultPlan.NetworkInterfaces.Elements ≠ [] ∧
    (diskless twoDefaultPlan).DefaultL3NetworkUuid = "l3-b" ∧
    (diskless twoDefaultPlan).L3NetworkUuids = ["l3-a", "l3-b", "l3-c"] :=
  Create_request_default_network (okClient sampleVm) twoDefaultPlan (diskless twoDefaultPlan)
    (by decide)

/-- C20. Normalisation of the interface list by Create: when Create stored a state and
the create call answered `inst`, the stored network_interfaces list is a known list with
one entry per requested interface, in the requested order; each entry keeps the requested
network reference and default_l3 flag, and its static_ip is the requested static IP when
that is non-null and non-empty, and otherwise the IP of the first realized NIC of `inst` on
that network (the empty string when no realized NIC is on it). -/
theorem Create_normalises_interfaces (c : ZSClient) (plan st : vmInstanceDataSourceModel)
    (inst : VmInstanceInventoryView)
    (hcreate : (Create c plan).State = some st)
    (hresp : ∀ hist p, (Create c plan).Calls = hist ++ [Call.CreateVmInstance p] →
      c.CreateVmInstance hist p = .ok inst) :
    st.NetworkInterfaces =
      Tf.known (normalisedInterfaces plan.NetworkInterfaces.Elements inst) ∧
    st.NetworkInterfaces.Elements.length = plan.NetworkInterfaces.Elements.length := by
  rcases Create_cases c plan with hrej | ⟨root, data, image, hpath⟩
  · rw [hrej.2.1] at hcreate
    exact Option.noConfusion hcreate
  · have hanswer := hresp _ _ (Create_calls_of_path hpath)
    rw [Create_eq_of_path hpath] at hcreate
    simp only [createOutcome, hanswer, Option.some.injEq] at hcreate
    subst hcreate
    have hnics : plan.NetworkInterfaces.Elements ≠ [] := by
      intro hnil
      have := hpath.hasNics
      simp [hnil] at this
    have hlist : updatedNicsOf (setNetwork plan.NetworkInterfaces.Elements).createNics inst =
        normalisedInterfaces plan.NetworkInterfaces.Elements inst := by
      rw [updatedNicsOf_setNetwork]
      apply List.map_congr_left
      intro n _
      simp only [normalizedNic, realIP_eq_firstRealizedIp]
    have hknown : ∀ l : List NetworkInterfaceModel, l ≠ [] →
        listValueFromAppended l = Tf.known l := by
      intro l hl
      cases l with
      | nil => exact absurd rfl hl
      | cons a b => rfl
    have hne : normalisedInterfaces plan.NetworkInterfaces.Elements inst ≠ [] := by
      simpa [normalisedInterfaces] using hnics
    have hstored : (createState plan (setNetwork plan.NetworkInterfaces.Elements).createNics
        inst).NetworkInterfaces =
        Tf.known (normalisedInterfaces plan.NetworkInterfaces.Elements inst) := by
      simp only [createState, hlist, hknown _ hne]
    refine ⟨hstored, ?_⟩
    rw [hstored]
    simp [Tf.Elements, normalisedInterfaces]

/-- Witness of C20 on `twoDefaultPlan` and `twoNicVm`: l3-a takes the IP of its first
NIC, l3-b keeps the requested static IP, l3-c has no NIC and gets the empty string. -/
theorem Create_normalises_interfaces_witness :
    (createState twoDefaultPlan (setNetwork twoDefaultPlan.NetworkInterfaces.Elements).createNics
        twoNicVm).NetworkInterfaces =
      Tf.known [⟨Tf.known "l3-a", Tf.known true, Tf.known "10.0.0.5"⟩,
                ⟨Tf.known "l3-b", Tf.known true, Tf.known "10.0.1.7"⟩,
                ⟨Tf.known "l3-c", Tf.known false, Tf.known ""⟩] ∧
    (createState twoDefaultPlan (setNetwork twoDefaultPlan.NetworkInterfaces.Elements).createNics
        twoNicVm).NetworkInterfaces.Elements.length = 3 :=
  Create_normalises_interfaces (okClient twoNicVm) twoDefaultPlan
    (createState twoDefaultPlan (setNetwork twoDefaultPlan.NetworkInterfaces.Elements).createNics
      twoNicVm)
    twoNicVm rfl (fun _ _ _ => rfl)

/-! ## Create: disk sizes and data-volume tags of the request -/

theorem GBToBytes_eq (gb : Int) : GBToBytes gb = wrap64 (gb * 1024 ^ 3) := by
  unfold GBToBytes mul64 wrap64
  omega

theorem MBToBytes_eq (mb : Int) : MBToBytes mb = wrap64 (mb * 1024 ^ 2) := by
  unfold MBToBytes mul64 wrap64
  omega

theorem setRootDisk_size (c : ZSClient) (rootDisk : Tf diskModel) (root : RootDiskSetup)
    (h : setRootDisk c rootDisk = .ok root) :
    root.rootDiskPlan.Size.ValueInt64Pointer = plannedRootDiskSize rootDisk := by
  unfold setRootDisk at h
  cases rootDisk with
  | null =>
    simp at h
    subst h
    rfl
  | unknown => simp at h
  | known d =>
    simp only at h
    cases hv : isDiskParamValid c [] d with
    | mk hist e =>
      rw [hv] at h
      cases e with
      | some err => simp at h
      | none =>
        simp at h
        subst h
        cases hsize : d.Size with
        | null => simp [plannedRootDiskSize, hsize, Tf.IsNull, Tf.ValueInt64Pointer]
        | unknown =>
          simp [plannedRootDiskSize, hsize, Tf.IsNull, Tf.ValueInt64Pointer, GBToBytes_eq]
        | known v =>
          simp [plannedRootDiskSize, hsize, Tf.IsNull, Tf.ValueInt64Pointer, GBToBytes_eq]

theorem collectDataDisks_some :
    ∀ (l : List diskModel) (a : List Int) (b : List String) (sizes : List Int)
      (tags : List String),
      collectDataDisks l a b = some (sizes, tags) →
      sizes = a ++ l.map (fun d => GBToBytes d.Size.ValueInt64) ∧
      tags = b ++ (l.filter fun d => d.VirtioSCSI.ValueBool).map
        (fun _ => "capability::virtio-scsi") ∧
      ∀ d ∈ l, d.Size.IsNull = false := by
  intro l
  induction l with
  | nil =>
    intro a b sizes tags h
    simp only [collectDataDisks, Option.some.injEq, Prod.mk.injEq] at h
    simp [h.1, h.2]
  | cons d rest ih =>
    intro a b sizes tags h
    cases hnull : d.Size.IsNull with
    | true => simp [collectDataDisks, hnull] at h
    | false =>
      simp only [collectDataDisks, hnull, Bool.not_false, if_true] at h
      obtain ⟨hs, ht, hall⟩ := ih _ _ _ _ h
      refine ⟨by simp [hs, List.append_assoc], ?_, ?_⟩
      · cases hv : d.VirtioSCSI.ValueBool with
        | true => simp [ht, hv, List.append_assoc]
        | false => simp [ht, hv]
      · intro x hx
        rcases List.mem_cons.mp hx with rfl | hmem
        · exact hnull
        · exact hall x hmem

theorem setDataDisks_ok_fields (c : ZSClient) (h0 : List Call)
    (dataDisks : Tf (List diskModel)) (data : DataDiskSetup)
    (h : setDataDisks c h0 dataDisks = .ok data) :
    data.dataDiskSizes = dataDisks.Elements.map (fun d => GBToBytes d.Size.ValueInt64) ∧
    data.dataDiskSystemTags = dataVolumeTags dataDisks.Elements ∧
    ∀ d ∈ dataDisks.Elements, d.Size.IsNull = false := by
  unfold setDataDisks at h
  split at h
  · simp only at h
    split at h
    · simp at h
    · rename_i sizes tags hcollect
      obtain ⟨hs, ht, hall⟩ := collectDataDisks_some _ _ _ _ _ hcollect
      split at h
      · rename_i hnil
        simp at h
        subst h
        simp [hs, hnil, dataVolumeTags]
      · rename_i first rest heq
        cases hv : isDiskParamValid c h0 first with
        | mk hist e =>
          rw [hv] at h
          cases e with
          | some err => simp at h
          | none =>
            simp at h
            subst h
            refine ⟨by simpa using hs, ?_, hall⟩
            simp only [dataVolumeTags, heq, ht, List.nil_append]
            congr 1
            cases hpool : first.CephPoolName with
            | null => simp [Tf.IsNull, Tf.ValueString]
            | unknown => simp [Tf.IsNull, Tf.ValueString]
            | known v =>
              by_cases hv2 : v = ""
              · simp [Tf.IsNull, Tf.ValueString, hv2]
              · simp [Tf.IsNull, Tf.ValueString, hv2]
  · rename_i hnull
    simp at h
    subst h
    have : dataDisks.Elements = [] := by
      cases dataDisks with
      | null => rfl
      | unknown => simp [Tf.IsNull] at hnull
      | known l => simp [Tf.IsNull] at hnull
    simp [this, dataVolumeTags]

/-- C17. Unit conversion at the request boundary: whenever Create calls CreateVmInstance,
the RootDiskSize of the request is absent when no root-disk size is planned and otherwise
the planned size times 1024^3; every planned data disk has a size and DataDiskSizes lists
the planned sizes times 1024^3 in the planned order; MemorySize is the planned memory_size
times 1024^2, which is 0 when memory_size is omitted; every product is reduced to the
`int64` range. -/
theorem Create_request_sizes (c : ZSClient) (plan : vmInstanceDataSourceModel)
    (p : CreateVmInstanceParam) (h : Call.CreateVmInstance p ∈ (Create c plan).Calls) :
    p.RootDiskSize = plannedRootDiskSize plan.RootDisk ∧
    (∀ d ∈ plan.DataDisks.Elements, d.Size.IsNull = false) ∧
    p.DataDiskSizes =
      plan.DataDisks.Elements.map (fun d => wrap64 (d.Size.ValueInt64 * 1024 ^ 3)) ∧
    p.MemorySize = wrap64 (plan.MemorySize.ValueInt64 * 1024 ^ 2) ∧
    (plan.MemorySize = Tf.null ∨ plan.MemorySize = Tf.unknown → p.MemorySize = 0) := by
  obtain ⟨root, data, image, hpath, rfl⟩ := Create_path_of_call c plan p h
  obtain ⟨hsizes, _, hall⟩ := setDataDisks_ok_fields c _ _ data hpath.dataOk
  refine ⟨setRootDisk_size c _ root hpath.rootOk, hall, ?_, ?_, ?_⟩
  · simp only [createVmInstanceParam, hsizes]
    apply List.map_congr_left
    intro d _
    exact GBToBytes_eq _
  · simp only [createVmInstanceParam, MBToBytes_eq]
  · intro hnull
    rcases hnull with hm | hm
    · simp [createVmInstanceParam, hm, Tf.ValueInt64, MBToBytes_eq, wrap64]
    · simp [createVmInstanceParam, hm, Tf.ValueInt64, MBToBytes_eq, wrap64]

/-- Witness of C17: a 40 GB root disk, data disks of 10 GB and 20 GB, 1024 MB of memory;
and a plan that omits memory_size. -/
theorem Create_request_sizes_witness :
    ((sizedRequest [dataDisk 10 Tf.null Tf.null, dataDisk 20 Tf.null (Tf.known true)]).RootDiskSize
        = some 42949672960 ∧
      (sizedRequest
        [dataDisk 10 Tf.null Tf.null, dataDisk 20 Tf.null (Tf.known true)]).DataDiskSizes
        = [10737418240, 21474836480] ∧
      (sizedRequest [dataDisk 10 Tf.null Tf.null, dataDisk 20 Tf.null (Tf.known true)]).MemorySize
        = 1073741824) ∧
    (diskless { samplePlan "l3-a" Tf.null with MemorySize := Tf.unknown }).MemorySize = 0 :=
  ⟨⟨(Create_request_sizes (okClient sampleVm)
        (sizedPlan [dataDisk 10 Tf.null Tf.null, dataDisk 20 Tf.null (Tf.known true)])
        (sizedRequest [dataDisk 10 Tf.null Tf.null, dataDisk 20 Tf.null (Tf.known true)])
        (by decide)).1,
     (Create_request_sizes (okClient sampleVm)
        (sizedPlan [dataDisk 10 Tf.null Tf.null, dataDisk 20 Tf.null (Tf.known true)])
        (sizedRequest [dataDisk 10 Tf.null Tf.null, dataDisk 20 Tf.null (Tf.known true)])
        (by decide)).2.2.1,
     (Create_request_sizes (okClient sampleVm)
        (sizedPlan [dataDisk 10 Tf.null Tf.null, dataDisk 20 Tf.null (Tf.known true)])
        (sizedRequest [dataDisk 10 Tf.null Tf.null, dataDisk 20 Tf.null (Tf.known true)])
        (by decide)).2.2.2.1⟩,
   (Create_request_sizes (okClient sampleVm)
      { samplePlan "l3-a" Tf.null with MemorySize := Tf.unknown }
      (diskless { samplePlan "l3-a" Tf.null with MemorySize := Tf.unknown })
      (by decide)).2.2.2.2 (Or.inr rfl)⟩

theorem poolTag_ne_virtioTag (pool : String) :
    "ceph::pool::" ++ pool ≠ "capability::virtio-scsi" := by
  intro h
  have := congrArg String.data h
  simp [String.data_append] at this

theorem virtioTags_eq_of_flags (l1 l2 : List diskModel)
    (hflags : l1.map (fun d => d.VirtioSCSI.ValueBool) =
      l2.map (fun d => d.VirtioSCSI.ValueBool)) :
    (l1.filter fun d => d.VirtioSCSI.ValueBool).map (fun _ => "capability::virtio-scsi") =
      (l2.filter fun d => d.VirtioSCSI.ValueBool).map (fun _ => "capability::virtio-scsi") := by
  induction l1 generalizing l2 with
  | nil =>
    cases l2 with
    | nil => rfl
    | cons b t => simp at hflags
  | cons a t ih =>
    cases l2 with
    | nil => simp at hflags
    | cons b u =>
      simp only [List.map_cons, List.cons.injEq] at hflags
      have htail := ih u hflags.2
      cases ha : a.VirtioSCSI.ValueBool with
      | true =>
        have hb : b.VirtioSCSI.ValueBool = true := by rw [← hflags.1, ha]
        simp [List.filter_cons, ha, hb, htail]
      | false =>
        have hb : b.VirtioSCSI.ValueBool = false := by rw [← hflags.1, ha]
        simp [List.filter_cons, ha, hb, htail]

theorem dataVolumeTags_congr (l1 l2 : List diskModel)
    (hpool : (l1.head?.map fun d => d.CephPoolName.ValueString) =
      (l2.head?.map fun d => d.CephPoolName.ValueString))
    (hflags : l1.map (fun d => d.VirtioSCSI.ValueBool) =
      l2.map (fun d => d.VirtioSCSI.ValueBool)) :
    dataVolumeTags l1 = dataVolumeTags l2 := by
  have hv := virtioTags_eq_of_flags l1 l2 hflags
  cases l1 with
  | nil =>
    cases l2 with
    | nil => rfl
    | cons b u => simp at hflags
  | cons a t =>
    cases l2 with
    | nil => simp at hflags
    | cons b u =>
      simp only [List.head?_cons, Option.map_some', Option.some.injEq] at hpool
      simp only [dataVolumeTags, hpool, hv]

theorem dataVolumeTags_mem (first : diskModel) (rest : List diskModel) :
    (("ceph::pool::" ++ first.CephPoolName.ValueString) ∈ dataVolumeTags (first :: rest) ↔
      first.CephPoolName.ValueString ≠ "") ∧
    ("capability::virtio-scsi" ∈ dataVolumeTags (first :: rest) ↔
      ∃ d ∈ first :: rest, d.VirtioSCSI.ValueBool = true) := by
  have hne := poolTag_ne_virtioTag first.CephPoolName.ValueString
  constructor
  · by_cases hpool : first.CephPoolName.ValueString = ""
    · simp only [dataVolumeTags, hpool, if_true, List.nil_append, List.mem_map,
        List.mem_filter, ne_eq, not_true_eq_false, iff_false, not_exists, not_and]
      intro d _ h
      rw [hpool] at hne
      exact hne h.symm
    · simp [dataVolumeTags, hpool]
  · by_cases hpool : first.CephPoolName.ValueString = ""
    · simp only [dataVolumeTags, hpool, if_true, List.nil_append, List.mem_map,
        List.mem_filter, and_true]
    · simp only [dataVolumeTags, hpool, if_false, List.mem_append, List.mem_singleton,
        List.mem_map, List.mem_filter, and_true]
      constructor
      · rintro (h | h)
        · exact absurd h.symm hne
        · exact h
      · intro h
        exact Or.inr h

/-- C18 as stated fails: two specs with the same first data disk (pool fast, virtio_scsi
false) and all sizes set reach the create call with different DataVolumeSystemTags,
because the second disk of the second spec has virtio_scsi true; its request carries the
virtio tag although the flag of the first entry is false. -/
theorem Create_data_volume_tags_counterexample :
    Call.CreateVmInstance (sizedRequest
        [dataDisk 10 (Tf.known "fast") (Tf.known false), dataDisk 20 Tf.null (Tf.known false)])
      ∈ (Create (okClient sampleVm) (sizedPlan
        [dataDisk 10 (Tf.known "fast") (Tf.known false),
         dataDisk 20 Tf.null (Tf.known false)])).Calls ∧
    Call.CreateVmInstance (sizedRequest
        [dataDisk 10 (Tf.known "fast") (Tf.known false), dataDisk 20 Tf.null (Tf.known true)])
      ∈ (Create (okClient sampleVm) (sizedPlan
        [dataDisk 10 (Tf.known "fast") (Tf.known false),
         dataDisk 20 Tf.null (Tf.known true)])).Calls ∧
    (sizedRequest [dataDisk 10 (Tf.known "fast") (Tf.known false),
        dataDisk 20 Tf.null (Tf.known false)]).DataVolumeSystemTags = ["ceph::pool::fast"] ∧
    (sizedRequest [dataDisk 10 (Tf.known "fast") (Tf.known false),
        dataDisk 20 Tf.null (Tf.known true)]).DataVolumeSystemTags =
      ["ceph::pool::fast", "capability::virtio-scsi"] := by
  decide

/-- C18, amended. Data-volume tags of the create request: the pool tag is derived from
the first data disk only, the virtio tags from every data disk. For two specs that reach
the create call, whose data-disk lists have the same first-entry pool name and the same
virtio_scsi flags entry by entry, the DataVolumeSystemTags are equal, whatever the pool
names of the entries after the first. The list is the pool tag of the first entry when
its pool name is non-empty followed by one capability::virtio-scsi tag per disk whose flag
is true: it contains ceph::pool::<pool> iff the pool name of the first entry is non-empty,
and capability::virtio-scsi iff the flag of some entry is true. -/
theorem Create_data_volume_tags (c1 c2 : ZSClient) (plan1 plan2 : vmInstanceDataSourceModel)
    (p1 p2 : CreateVmInstanceParam)
    (h1 : Call.CreateVmInstance p1 ∈ (Create c1 plan1).Calls)
    (h2 : Call.CreateVmInstance p2 ∈ (Create c2 plan2).Calls)
    (hpool : (plan1.DataDisks.Elements.head?.map fun d => d.CephPoolName.ValueString) =
      (plan2.DataDisks.Elements.head?.map fun d => d.CephPoolName.ValueString))
    (hflags : plan1.DataDisks.Elements.map (fun d => d.VirtioSCSI.ValueBool) =
      plan2.DataDisks.Elements.map (fun d => d.VirtioSCSI.ValueBool)) :
    p1.DataVolumeSystemTags = p2.DataVolumeSystemTags ∧
    p1.DataVolumeSystemTags = dataVolumeTags plan1.DataDisks.Elements ∧
    ∀ first rest, plan1.DataDisks.Elements = first :: rest →
      (("ceph::pool::" ++ first.CephPoolName.ValueString) ∈ p1.DataVolumeSystemTags ↔
        first.CephPoolName.ValueString ≠ "") ∧
      ("capability::virtio-scsi" ∈ p1.DataVolumeSystemTags ↔
        ∃ d ∈ first :: rest, d.VirtioSCSI.ValueBool = true) := by
  obtain ⟨root1, data1, image1, hpath1, rfl⟩ := Create_path_of_call c1 plan1 p1 h1
  obtain ⟨root2, data2, image2, hpath2, rfl⟩ := Create_path_of_call c2 plan2 p2 h2
  obtain ⟨_, htags1, _⟩ := setDataDisks_ok_fields c1 _ _ data1 hpath1.dataOk
  obtain ⟨_, htags2, _⟩ := setDataDisks_ok_fields c2 _ _ data2 hpath2.dataOk
  have e1 : (createVmInstanceParam plan1 root1 data1
      (setNetwork plan1.NetworkInterfaces.Elements)).DataVolumeSystemTags =
      dataVolumeTags plan1.DataDisks.Elements := htags1
  have e2 : (createVmInstanceParam plan2 root2 data2
      (setNetwork plan2.NetworkInterfaces.Elements)).DataVolumeSystemTags =
      dataVolumeTags plan2.DataDisks.Elements := htags2
  refine ⟨?_, e1, ?_⟩
  · rw [e1, e2]
    exact dataVolumeTags_congr _ _ hpool hflags
  · intro first rest hlist
    rw [e1, hlist]
    exact dataVolumeTags_mem first rest

/-- Witness of the amended C18: two specs with the same first pool and the same flags,
and different pool names on the second disk, send the same tags. -/
theorem Create_data_volume_tags_witness :
    (sizedRequest [dataDisk 10 (Tf.known "fast") (Tf.known false),
        dataDisk 20 (Tf.known "slow") (Tf.known true)]).DataVolumeSystemTags =
      (sizedRequest [dataDisk 10 (Tf.known "fast") (Tf.known false),
        dataDisk 20 Tf.null (Tf.known true)]).DataVolumeSystemTags ∧
    (sizedRequest [dataDisk 10 (Tf.known "fast") (Tf.known false),
        dataDisk 20 (Tf.known "slow") (Tf.known true)]).DataVolumeSystemTags =
      ["ceph::pool::fast", "capability::virtio-scsi"] :=
  ⟨(Create_data_volume_tags (okClient sampleVm) (okClient sampleVm)
      (sizedPlan [dataDisk 10 (Tf.known "fast") (Tf.known false),
        dataDisk 20 (Tf.known "slow") (Tf.known true)])
      (sizedPlan [dataDisk 10 (Tf.known "fast") (Tf.known false),
        dataDisk 20 Tf.null (Tf.known true)])
      (sizedRequest [dataDisk 10 (Tf.known "fast") (Tf.known false),
        dataDisk 20 (Tf.known "slow") (Tf.known true)])
      (sizedRequest [dataDisk 10 (Tf.known "fast") (Tf.known false),
        dataDisk 20 Tf.null (Tf.known true)])
      (by decide) (by decide) rfl rfl).1,
   (Create_data_volume_tags (okClient sampleVm) (okClient sampleVm)
      (sizedPlan [dataDisk 10 (Tf.known "fast") (Tf.known false),
        dataDisk 20 (Tf.known "slow") (Tf.known true)])
      (sizedPlan [dataDisk 10 (Tf.known "fast") (Tf.known false),
        dataDisk 20 Tf.null (Tf.known true)])
      (sizedRequest [dataDisk 10 (Tf.known "fast") (Tf.known false),
        dataDisk 20 (Tf.known "slow") (Tf.known true)])
      (sizedRequest [dataDisk 10 (Tf.known "fast") (Tf.known false),
        dataDisk 20 Tf.null (Tf.known true)])
      (by decide) (by decide) rfl rfl).2.1⟩

/-! ## The disk spec validator -/

/-- C19. Outcome of the disk spec validator. isDiskParamValid succeeds if and only if
the disk names no primary storage (null or empty reference), or the query for that uuid
with state=Enabled answers a non-empty list and the pool name is empty or is the PoolName
of a pool of the first storage of the answer. Without a storage reference it makes no
call; with one it makes exactly that query. Every failure is an error naming the storage
uuid (failed or empty query) or the pool name (pool not found). -/
theorem isDiskParamValid_outcome (c : ZSClient) (h : List Call) (model : diskModel) :
    ((isDiskParamValid c h model).2 = none ↔
      (namesStorage model = false ∨
        ∃ first rest,
          c.QueryPrimaryStorage h (storageQuery model.PrimaryStorageUuid.ValueString) =
            .ok (first :: rest) ∧
          (model.CephPoolName.ValueString = "" ∨
            ∃ pool ∈ first.Pools, pool.PoolName = model.CephPoolName.ValueString))) ∧
    (namesStorage model = false → (isDiskParamValid c h model).1 = h) ∧
    (namesStorage model = true → (isDiskParamValid c h model).1 =
      h ++ [Call.QueryPrimaryStorage (storageQuery model.PrimaryStorageUuid.ValueString)]) ∧
    (∀ msg, (isDiskParamValid c h model).2 = some msg →
      (∃ err,
        c.QueryPrimaryStorage h (storageQuery model.PrimaryStorageUuid.ValueString) =
          .error err ∧
        msg = "failed to get primary storage " ++ model.PrimaryStorageUuid.ValueString ++
          ", err: " ++ err) ∨
      (c.QueryPrimaryStorage h (storageQuery model.PrimaryStorageUuid.ValueString) = .ok [] ∧
        msg = "unable to find primary storage " ++ model.PrimaryStorageUuid.ValueString ++
          ", err: <nil>") ∨
      (∃ first rest,
        c.QueryPrimaryStorage h (storageQuery model.PrimaryStorageUuid.ValueString) =
          .ok (first :: rest) ∧
        msg = "unable to find pool name " ++ model.CephPoolName.ValueString)) := by
  refine ⟨?_, fun hn => by rw [isDiskParamValid_noRef c h model hn],
    isDiskParamValid_ref c h model, ?_⟩
  · cases hn : namesStorage model with
    | false => simp [isDiskParamValid_noRef c h model hn]
    | true =>
      have hcond : ¬ (model.PrimaryStorageUuid.IsNull ||
          model.PrimaryStorageUuid.ValueString == "") = true := by
        simp only [namesStorage, Bool.not_eq_true'] at hn
        rw [hn]; exact Bool.false_ne_true
      unfold isDiskParamValid
      rw [if_neg hcond]
      simp only [storageQuery, Bool.true_eq_false, false_or]
      cases hq : c.QueryPrimaryStorage h
          { Conditions := ["uuid=" ++ model.PrimaryStorageUuid.ValueString, "state=Enabled"],
            LimitValue := some 1 } with
      | error e => simp
      | ok l =>
        cases l with
        | nil => simp
        | cons first rest =>
          by_cases hpool : model.CephPoolName.ValueString = ""
          · simp [hpool]
          · by_cases hany : first.Pools.any
                (fun pool => pool.PoolName == model.CephPoolName.ValueString) = true
            · have hex : ∃ pool ∈ first.Pools,
                  pool.PoolName = model.CephPoolName.ValueString := by
                simpa using hany
              simp [hpool, hany, hex]
            · have hex : ¬ ∃ pool ∈ first.Pools,
                  pool.PoolName = model.CephPoolName.ValueString := by
                simpa using hany
              simp only [Bool.not_eq_true] at hany
              simp [hpool, hany, hex]
  · intro msg hmsg
    cases hn : namesStorage model with
    | false =>
      rw [isDiskParamValid_noRef c h model hn] at hmsg
      exact Option.noConfusion hmsg
    | true =>
      have hcond : ¬ (model.PrimaryStorageUuid.IsNull ||
          model.PrimaryStorageUuid.ValueString == "") = true := by
        simp only [namesStorage, Bool.not_eq_true'] at hn
        rw [hn]; exact Bool.false_ne_true
      unfold isDiskParamValid at hmsg
      rw [if_neg hcond] at hmsg
      simp only [] at hmsg
      simp only [storageQuery]
      cases hq : c.QueryPrimaryStorage h
          { Conditions := ["uuid=" ++ model.PrimaryStorageUuid.ValueString, "state=Enabled"],
            LimitValue := some 1 } with
      | error e =>
        rw [hq] at hmsg
        simp only [Option.some.injEq] at hmsg
        exact Or.inl ⟨e, rfl, hmsg.symm⟩
      | ok l =>
        cases l with
        | nil =>
          rw [hq] at hmsg
          simp only [Option.some.injEq] at hmsg
          exact Or.inr (Or.inl ⟨rfl, hmsg.symm⟩)
        | cons first rest =>
          rw [hq] at hmsg
          refine Or.inr (Or.inr ⟨first, rest, rfl, ?_⟩)
          simp only [] at hmsg
          split at hmsg
          · split at hmsg
            · exact Option.noConfusion hmsg
            · simp only [Option.some.injEq] at hmsg
              exact hmsg.symm
          · exact Option.noConfusion hmsg

/-- Witness of C19 on a storage with the single pool fast: the pool fast is accepted
after one query, a disk without storage reference is accepted without query, and the
pool slow is refused with an error naming it. -/
theorem isDiskParamValid_outcome_witness :
    (isDiskParamValid poolClient [] (storageDisk (Tf.known "fast"))).2 = none ∧
    (isDiskParamValid poolClient [] (storageDisk (Tf.known "fast"))).1 =
      [Call.QueryPrimaryStorage (storageQuery "ps-1")] ∧
    (isDiskParamValid poolClient [] sizelessDisk).1 = [] ∧
    ((∃ err, poolClient.QueryPrimaryStorage [] (storageQuery "ps-1") = .error err ∧
        "unable to find pool name slow" =
          "failed to get primary storage " ++ "ps-1" ++ ", err: " ++ err) ∨
      (poolClient.QueryPrimaryStorage [] (storageQuery "ps-1") = .ok [] ∧
        "unable to find pool name slow" =
          "unable to find primary storage " ++ "ps-1" ++ ", err: <nil>") ∨
      (∃ first rest, poolClient.QueryPrimaryStorage [] (storageQuery "ps-1") =
          .ok (first :: rest) ∧
        "unable to find pool name slow" = "unable to find pool name " ++ "slow")) :=
  ⟨(isDiskParamValid_outcome poolClient [] (storageDisk (Tf.known "fast"))).1.mpr
      (Or.inr ⟨⟨[⟨"fast"⟩]⟩, [], rfl, Or.inr ⟨⟨"fast"⟩, by simp, rfl⟩⟩),
   (isDiskParamValid_outcome poolClient [] (storageDisk (Tf.known "fast"))).2.2.1 rfl,
   (isDiskParamValid_outcome poolClient [] sizelessDisk).2.1 rfl,
   (isDiskParamValid_outcome poolClient [] (storageDisk (Tf.known "slow"))).2.2.2
      "unable to find pool name slow" (by decide)⟩

/-! ## Create: several default interfaces -/

theorem keepLastDefault_length (l : List NetworkInterfaceModel) :
    (keepLastDefault l).length = l.length := by
  induction l with
  | nil => rfl
  | cons n rest ih => simp [keepLastDefault, ih]

theorem keepLastDefault_refs (l : List NetworkInterfaceModel) :
    (keepLastDefault l).map (fun n => n.L3NetworkUuid.ValueString) =
      l.map fun n => n.L3NetworkUuid.ValueString := by
  induction l with
  | nil => rfl
  | cons n rest ih =>
    simp only [keepLastDefault, List.map_cons, ih]
    split <;> rfl

theorem keepLastDefault_staticIpTags (l : List NetworkInterfaceModel) :
    staticIpTags (keepLastDefault l) = staticIpTags l := by
  induction l with
  | nil => rfl
  | cons n rest ih =>
    have hhead : ∀ m : NetworkInterfaceModel,
        staticIpTags (m :: keepLastDefault rest) =
          staticIpTags [m] ++ staticIpTags (keepLastDefault rest) := by
      intro m
      simp only [staticIpTags, List.filter_cons]
      split <;> simp
    have hhead2 : staticIpTags (n :: rest) = staticIpTags [n] ++ staticIpTags rest := by
      simp only [staticIpTags, List.filter_cons]
      split <;> simp
    simp only [keepLastDefault]
    rw [hhead, hhead2, ih]
    congr 1
    split
    · simp only [staticIpTags, List.filter_cons, hasStaticIp]
      split <;> rfl
    · rfl

theorem lastFlagged_cons (n : NetworkInterfaceModel) (rest : List NetworkInterfaceModel) :
    (n :: rest).reverse.find? (fun m => m.DefaultL3 == Tf.known true) =
      (rest.reverse.find? (fun m => m.DefaultL3 == Tf.known true)).or
        (if (n.DefaultL3 == Tf.known true) = true then some n else none) := by
  rw [List.reverse_cons, List.find?_append]
  congr 1
  simp only [List.find?_cons, List.find?_nil]
  cases (n.DefaultL3 == Tf.known true) <;> rfl

theorem keepLastDefault_lastFlagged (l : List NetworkInterfaceModel) :
    ((keepLastDefault l).reverse.find? (fun m => m.DefaultL3 == Tf.known true)).map
        (fun n => n.L3NetworkUuid.ValueString) =
      (l.reverse.find? (fun m => m.DefaultL3 == Tf.known true)).map
        (fun n => n.L3NetworkUuid.ValueString) := by
  induction l with
  | nil => rfl
  | cons n rest ih =>
    simp only [keepLastDefault]
    rw [lastFlagged_cons, lastFlagged_cons]
    cases hrest : rest.reverse.find? (fun m => m.DefaultL3 == Tf.known true) with
    | some m =>
      rw [hrest] at ih
      cases hk : (keepLastDefault rest).reverse.find?
          (fun m => m.DefaultL3 == Tf.known true) with
      | none => rw [hk] at ih; simp at ih
      | some k =>
        rw [hk] at ih
        simpa using ih
    | none =>
      rw [hrest] at ih
      have hany : rest.any (fun m => m.DefaultL3 == Tf.known true) = false := by
        rw [List.find?_eq_none] at hrest
        rw [Bool.eq_false_iff]
        intro hcontra
        rw [List.any_eq_true] at hcontra
        obtain ⟨x, hx, hpx⟩ := hcontra
        exact hrest x (by simpa using hx) hpx
      cases hk : (keepLastDefault rest).reverse.find?
          (fun m => m.DefaultL3 == Tf.known true) with
      | some k => rw [hk] at ih; simp at ih
      | none => simp [hany]

theorem keepLastDefault_lastDefaultNetwork (l : List NetworkInterfaceModel) :
    lastDefaultNetwork (keepLastDefault l) = lastDefaultNetwork l := by
  have h := keepLastDefault_lastFlagged l
  unfold lastDefaultNetwork
  cases h1 : (keepLastDefault l).reverse.find? (fun m => m.DefaultL3 == Tf.known true) with
  | none =>
    cases h2 : l.reverse.find? (fun m => m.DefaultL3 == Tf.known true) with
    | none => rfl
    | some b => rw [h1, h2] at h; simp at h
  | some a =>
    cases h2 : l.reverse.find? (fun m => m.DefaultL3 == Tf.known true) with
    | none => rw [h1, h2] at h; simp at h
    | some b => rw [h1, h2] at h; simpa using h

theorem Create_congr (c : ZSClient) (plan plan2 : vmInstanceDataSourceModel)
    (hroot : plan2.RootDisk = plan.RootDisk) (hdata : plan2.DataDisks = plan.DataDisks)
    (himg : plan2.ImageUuid = plan.ImageUuid) (hstrat : plan2.Strategy = plan.Strategy)
    (hcond : (plan2.NetworkInterfaces.IsNull ||
        plan2.NetworkInterfaces.Elements.length == 0) =
      (plan.NetworkInterfaces.IsNull || plan.NetworkInterfaces.Elements.length == 0))
    (hparam : ∀ root data,
      createVmInstanceParam plan2 root data (setNetwork plan2.NetworkInterfaces.Elements) =
        createVmInstanceParam plan root data (setNetwork plan.NetworkInterfaces.Elements)) :
    (Create c plan2).Calls = (Create c plan).Calls ∧
      (Create c plan2).Diagnostics = (Create c plan).Diagnostics := by
  unfold Create
  rw [hroot, hdata, himg, hstrat, hcond]
  cases setRootDisk c plan.RootDisk with
  | error r => exact ⟨rfl, rfl⟩
  | ok root =>
    simp only []
    cases setDataDisks c root.calls plan.DataDisks with
    | error r => exact ⟨rfl, rfl⟩
    | ok data =>
      simp only [hparam]
      cases (plan.NetworkInterfaces.IsNull || plan.NetworkInterfaces.Elements.length == 0) with
      | true => exact ⟨rfl, rfl⟩
      | false =>
        simp only [Bool.false_eq_true, if_false]
        cases c.GetImage data.calls plan.ImageUuid.ValueString with
        | error e => exact ⟨rfl, rfl⟩
        | ok image =>
          simp only []
          cases (image.Status != "Ready") with
          | true => exact ⟨rfl, rfl⟩
          | false =>
            simp only [Bool.false_eq_true, if_false]
            cases (image.State != "Enabled") with
            | true => exact ⟨rfl, rfl⟩
            | false =>
              simp only [Bool.false_eq_true, if_false]
              cases (!plan.Strategy.IsNull && (plan.Strategy.ValueString != "InstantStart" &&
                  plan.Strategy.ValueString != "CreateStopped")) with
              | true => exact ⟨rfl, rfl⟩
              | false =>
                simp only [Bool.false_eq_true, if_false]
                cases c.CreateVmInstance
                    (data.calls ++ [Call.GetImage plan.ImageUuid.ValueString])
                    (createVmInstanceParam plan root data
                      (setNetwork plan.NetworkInterfaces.Elements)) with
                | error e => exact ⟨rfl, rfl⟩
                | ok inst => exact ⟨rfl, rfl⟩

theorem createVmInstanceParam_keepLastDefault (plan : vmInstanceDataSourceModel)
    (nics : List NetworkInterfaceModel) (root : RootDiskSetup) (data : DataDiskSetup) :
    createVmInstanceParam { plan with NetworkInterfaces := Tf.known (keepLastDefault nics) }
        root data (setNetwork (keepLastDefault nics)) =
      createVmInstanceParam plan root data (setNetwork nics) := by
  have h1 : (setNetwork (keepLastDefault nics)).systemTags = (setNetwork nics).systemTags := by
    simp only [setNetwork, foldl_setNetworkStep_systemTags, keepLastDefault_staticIpTags]
  have h2 : (setNetwork (keepLastDefault nics)).l3NetworkUuids =
      (setNetwork nics).l3NetworkUuids := by
    simp only [setNetwork, foldl_setNetworkStep_l3NetworkUuids, keepLastDefault_refs]
  have h3 : (setNetwork (keepLastDefault nics)).defaultL3Uuid =
      (setNetwork nics).defaultL3Uuid := by
    have := keepLastDefault_lastDefaultNetwork nics
    simp only [lastDefaultNetwork] at this
    simp only [setNetwork, foldl_setNetworkStep_defaultL3Uuid, this]
  simp only [createVmInstanceParam, h1, h2, h3]

/-- C16 as stated fails: `twoDefaultPlan` flags two interfaces as default, and Create
reports no error and calls CreateVmInstance. -/
theorem Create_several_defaults_counterexample :
    defaultCount twoDefaultPlan = 2 ∧
    (Create (okClient twoNicVm) twoDefaultPlan).HasError = false ∧
    Call.CreateVmInstance (diskless twoDefaultPlan) ∈
      (Create (okClient twoNicVm) twoDefaultPlan).Calls := by
  decide

/-- C16, amended. More than one default interface is not rejected. For every spec, in
particular one in which two or more network interfaces have default_l3 = true, Create
makes the same client calls and reports the same diagnostics as for the same spec with
only the last flagged interface flagged: it fails exactly when that spec fails. Whenever
it calls CreateVmInstance, the default network of the request is the network of the last
flagged interface. -/
theorem Create_several_defaults (c : ZSClient) (plan : vmInstanceDataSourceModel) :
    (Create c (withLastDefaultOnly plan)).Calls = (Create c plan).Calls ∧
    (Create c (withLastDefaultOnly plan)).Diagnostics = (Create c plan).Diagnostics ∧
    ∀ p, Call.CreateVmInstance p ∈ (Create c plan).Calls →
      p.DefaultL3NetworkUuid = lastDefaultNetwork plan.NetworkInterfaces.Elements := by
  have hlast : ∀ p, Call.CreateVmInstance p ∈ (Create c plan).Calls →
      p.DefaultL3NetworkUuid = lastDefaultNetwork plan.NetworkInterfaces.Elements := by
    intro p hp
    obtain ⟨root, data, image, _, rfl⟩ := Create_path_of_call c plan p hp
    simp only [createVmInstanceParam, setNetwork, foldl_setNetworkStep_defaultL3Uuid,
      lastDefaultNetwork]
  cases hn : plan.NetworkInterfaces with
  | null =>
    have : withLastDefaultOnly plan = plan := by simp [withLastDefaultOnly, hn]
    rw [this]
    exact ⟨rfl, rfl, hn ▸ hlast⟩
  | unknown =>
    have : withLastDefaultOnly plan = plan := by simp [withLastDefaultOnly, hn]
    rw [this]
    exact ⟨rfl, rfl, hn ▸ hlast⟩
  | known nics =>
    have hplan : withLastDefaultOnly plan =
        { plan with NetworkInterfaces := Tf.known (keepLastDefault nics) } := by
      simp [withLastDefaultOnly, hn]
    have hcongr := Create_congr c plan
      { plan with NetworkInterfaces := Tf.known (keepLastDefault nics) } rfl rfl rfl rfl
      (by simp [hn, Tf.IsNull, Tf.Elements, keepLastDefault_length])
      (by
        intro root data
        have := createVmInstanceParam_keepLastDefault plan nics root data
        simpa [hn, Tf.Elements] using this)
    rw [hplan]
    exact ⟨hcongr.1, hcongr.2, hn ▸ hlast⟩

/-- Witness of the amended C16 on `twoDefaultPlan`: the request names l3-b, the last
flagged interface, as default network. -/
theorem Create_several_defaults_witness :
    (diskless twoDefaultPlan).DefaultL3NetworkUuid = "l3-b" :=
  (Create_several_defaults (okClient twoNicVm) twoDefaultPlan).2.2 (diskless twoDefaultPlan)
    (by decide)

/-! ## Delete: an instance that cannot be read -/

/-- C28. Delete when the instance cannot be read: for every stored state whose uuid is
not the empty-string value, when the initial GetVmInstance fails, Delete makes that one
call and nothing else (no DestroyVmInstance, DeleteDataVolume or expunge call), reports
the error diagnostic "Could not read vm instance" and writes no state: an instance that
is already gone remotely makes Delete fail. -/
theorem Delete_unreadable_instance (c : ZSClient) (state : vmInstanceDataSourceModel)
    (err : String) (huuid : state.Uuid ≠ Tf.known "")
    (hget : c.GetVmInstance [] state.Uuid.ValueString = .error err) :
    (Delete c state).Calls = [Call.GetVmInstance state.Uuid.ValueString] ∧
    (Delete c state).Diagnostics = [⟨"Could not read vm instance", "Error: " ++ err⟩] ∧
    (Delete c state).HasError = true ∧
    (Delete c state).State = none ∧
    (∀ uuid mode, Call.DestroyVmInstance uuid mode ∉ (Delete c state).Calls ∧
      Call.DeleteDataVolume uuid mode ∉ (Delete c state).Calls ∧
      Call.ExpungeVmInstance uuid ∉ (Delete c state).Calls ∧
      Call.ExpungeDataVolume uuid ∉ (Delete c state).Calls) := by
  have hrun : Delete c state =
      { Calls := [Call.GetVmInstance state.Uuid.ValueString],
        Diagnostics := [⟨"Could not read vm instance", "Error: " ++ err⟩], State := none } := by
    unfold Delete
    rw [if_neg huuid]
    simp only [hget]
  rw [hrun]
  refine ⟨rfl, rfl, rfl, rfl, ?_⟩
  intro uuid mode
  simp

/-- Witness of C28: the stored instance vm-1 on a remote side where the lookup fails. -/
theorem Delete_unreadable_instance_witness :
    (Delete goneClient (sampleState (Tf.known true))).Calls = [Call.GetVmInstance "vm-1"] ∧
    (Delete goneClient (sampleState (Tf.known true))).Diagnostics =
      [⟨"Could not read vm instance", "Error: not found"⟩] ∧
    (Delete goneClient (sampleState (Tf.known true))).HasError = true :=
  have h := Delete_unreadable_instance goneClient (sampleState (Tf.known true)) "not found"
    (by decide) rfl
  ⟨h.1, by decide, h.2.2.1⟩

/-! ## utils.go: unit conversions -/

/-- Truncating division by a positive constant in terms of floor division. -/
theorem div64_eq (a b : Int) (hb : 0 < b) :
    div64 a b = if 0 ≤ a then a / b else -((-a) / b) := by
  unfold div64
  split
  · rename_i h
    exact Int.tdiv_eq_ediv h (le_of_lt hb)
  · rename_i h
    have h2 : 0 ≤ -a := by omega
    have := Int.tdiv_eq_ediv h2 (le_of_lt hb)
    rw [← this, Int.neg_tdiv, neg_neg]

/-- The values on which the GB round trip is the identity. -/
theorem BytesToGB_GBToBytes_iff (n : Int) :
    BytesToGB (GBToBytes n) = n ↔ -2 ^ 33 ≤ n ∧ n < 2 ^ 33 := by
  rw [GBToBytes_eq]
  unfold BytesToGB
  rw [div64_eq _ _ (by norm_num)]
  unfold wrap64
  split <;> omega

/-- The values on which the MB round trip is the identity. -/
theorem BytesToMB_MBToBytes_iff (m : Int) :
    BytesToMB (MBToBytes m) = m ↔ -2 ^ 43 ≤ m ∧ m < 2 ^ 43 := by
  rw [MBToBytes_eq]
  unfold BytesToMB
  rw [div64_eq _ _ (by norm_num)]
  unfold wrap64
  split <;> omega

/-- Floor of a quotient by a power of 1024 is integer floor division. -/
theorem floor_div_unit (b : Int) (k : Nat) :
    ⌊(b : ℚ) / (1024 : ℚ) ^ k⌋ = b / 1024 ^ k := by
  have := Rat.floor_intCast_div_natCast b (1024 ^ k)
  simpa using this

/-- Counterexample to C24 as stated: 2^33 is a non-negative `int64` value, its byte count
2^63 wraps to -2^63, and the round trip gives -2^33. -/
theorem GB_round_trip_counterexample :
    (0 : Int) ≤ 2 ^ 33 ∧ (2 : Int) ^ 33 < 2 ^ 63 ∧ GBToBytes (2 ^ 33) = -2 ^ 63 ∧
    BytesToGB (GBToBytes (2 ^ 33)) = -2 ^ 33 ∧ BytesToGB (GBToBytes (2 ^ 33)) ≠ 2 ^ 33 := by
  decide

/-- C24 (amended). GB round trip: for every non-negative `int64` value n,
BytesToGB(GBToBytes(n)) = n if and only if n < 2^33, that is if and only if n * 1024^3
fits in `int64`. -/
theorem GB_round_trip (n : Int) (h0 : 0 ≤ n) (h63 : n < 2 ^ 63) :
    BytesToGB (GBToBytes n) = n ↔ n < 2 ^ 33 := by
  rw [BytesToGB_GBToBytes_iff]
  omega

/-- Witness of C24 (amended): 40 GB is recovered, and 2^33 + 40 GB is not. -/
theorem GB_round_trip_witness :
    BytesToGB (GBToBytes 40) = 40 ∧ BytesToGB (GBToBytes (2 ^ 33 + 40)) ≠ 2 ^ 33 + 40 :=
  ⟨(GB_round_trip 40 (by decide) (by decide)).2 (by decide),
   fun h => absurd ((GB_round_trip (2 ^ 33 + 40) (by decide) (by decide)).1 h) (by decide)⟩

/-- C25. Bytes-to-unit conversion truncates: for every non-negative `int64` byte count b,
BytesToMB(b) = floor(b / 1024^2) and BytesToGB(b) = floor(b / 1024^3); converting back
gives the largest multiple of the unit that is at most b, so
MBToBytes(BytesToMB(b)) <= b < MBToBytes(BytesToMB(b)) + 1024^2 and likewise for GB, and
the left inequality is an equality exactly when the unit divides b. -/
theorem bytes_conversion_truncates (b : Int) (h0 : 0 ≤ b) (h63 : b < 2 ^ 63) :
    BytesToMB b = ⌊(b : ℚ) / (1024 : ℚ) ^ 2⌋ ∧ BytesToGB b = ⌊(b : ℚ) / (1024 : ℚ) ^ 3⌋ ∧
    (MBToBytes (BytesToMB b) ≤ b ∧ b < MBToBytes (BytesToMB b) + 1024 ^ 2) ∧
    (GBToBytes (BytesToGB b) ≤ b ∧ b < GBToBytes (BytesToGB b) + 1024 ^ 3) ∧
    (MBToBytes (BytesToMB b) = b ↔ (1024 : Int) ^ 2 ∣ b) ∧
    (GBToBytes (BytesToGB b) = b ↔ (1024 : Int) ^ 3 ∣ b) := by
  have hmb : BytesToMB b = b / 1024 ^ 2 := by
    unfold BytesToMB
    rw [div64_eq _ _ (by norm_num), if_pos h0]
    norm_num
  have hgb : BytesToGB b = b / 1024 ^ 3 := by
    unfold BytesToGB
    rw [div64_eq _ _ (by norm_num), if_pos h0]
    norm_num
  rw [floor_div_unit, floor_div_unit, MBToBytes_eq, GBToBytes_eq, hmb, hgb]
  unfold wrap64
  refine ⟨rfl, rfl, ⟨?_, ?_⟩, ⟨?_, ?_⟩, ?_, ?_⟩
  all_goals omega

/-- Witness of C25 at b = 3 * 1024^3 + 5 bytes: 3072 MB and 3 GB, five bytes lost. -/
theorem bytes_conversion_truncates_witness :
    BytesToMB (3 * 1024 ^ 3 + 5) = 3072 ∧ BytesToGB (3 * 1024 ^ 3 + 5) = 3 ∧
    MBToBytes (BytesToMB (3 * 1024 ^ 3 + 5)) = 3 * 1024 ^ 3 ∧
    (MBToBytes (BytesToMB (3 * 1024 ^ 3 + 5)) ≤ 3 * 1024 ^ 3 + 5 ∧
      (3 * 1024 ^ 3 + 5 : Int) < MBToBytes (BytesToMB (3 * 1024 ^ 3 + 5)) + 1024 ^ 2) :=
  ⟨by decide, by decide, by decide,
   (bytes_conversion_truncates (3 * 1024 ^ 3 + 5) (by decide) (by decide)).2.2.1⟩

/-- C27. Round trip within the `int64` range. For every n with |n| < 2^33,
BytesToGB(GBToBytes(n)) = n; for every m with |m| < 2^43, BytesToMB(MBToBytes(m)) = m
(wrapping multiplication, truncating division). Consequently, when Create stores a state
for a plan whose memory_size is such an m, the request carried MemorySize = MBToBytes(m),
and if the answer of the create call echoes the requested MemorySize, the stored
memory_size is m. -/
theorem round_trip_in_range :
    (∀ n : Int, |n| < 2 ^ 33 → BytesToGB (GBToBytes n) = n) ∧
    (∀ m : Int, |m| < 2 ^ 43 → BytesToMB (MBToBytes m) = m) ∧
    (∀ (c : ZSClient) (plan st : vmInstanceDataSourceModel) (m : Int),
      plan.MemorySize = Tf.known m → |m| < 2 ^ 43 →
      (Create c plan).State = some st →
      (∀ hist p inst, (Create c plan).Calls = hist ++ [Call.CreateVmInstance p] →
        c.CreateVmInstance hist p = .ok inst → inst.MemorySize = p.MemorySize) →
      (∀ p, Call.CreateVmInstance p ∈ (Create c plan).Calls → p.MemorySize = MBToBytes m) ∧
      st.MemorySize = Tf.known m) := by
  have hmb : ∀ m : Int, |m| < 2 ^ 43 → BytesToMB (MBToBytes m) = m := by
    intro m hm
    rw [abs_lt] at hm
    rw [BytesToMB_MBToBytes_iff]
    omega
  refine ⟨?_, hmb, ?_⟩
  · intro n hn
    rw [abs_lt] at hn
    rw [BytesToGB_GBToBytes_iff]
    omega
  · intro c plan st m hplan hm hstate hecho
    have hsent : ∀ p, Call.CreateVmInstance p ∈ (Create c plan).Calls →
        p.MemorySize = MBToBytes m := by
      intro p hp
      obtain ⟨root, data, image, _, hreq⟩ := Create_path_of_call c plan p hp
      rw [hreq]
      simp [createVmInstanceParam, hplan, Tf.ValueInt64]
    refine ⟨hsent, ?_⟩
    obtain ⟨hist, p, inst, hcalls, hanswer, hst⟩ := Create_state_some c plan st hstate
    have hmem : inst.MemorySize = MBToBytes m := by
      rw [hecho hist p inst hcalls hanswer]
      apply hsent
      rw [hcalls]
      simp
    rw [hst]
    simp only [createState, hmem, hmb m hm]

/-- Witness of C27: -5 GB and 1024 MB are recovered, and `samplePlan` with memory_size
1024 created on a remote side that answers an instance of 1073741824 bytes stores 1024. -/
theorem round_trip_in_range_witness :
    BytesToGB (GBToBytes (-5)) = -5 ∧ BytesToMB (MBToBytes 1024) = 1024 ∧
    (createState (samplePlan "l3-a" Tf.null)
      (setNetwork (samplePlan "l3-a" Tf.null).NetworkInterfaces.Elements).createNics
      sampleVm).MemorySize = Tf.known 1024 :=
  ⟨round_trip_in_range.1 (-5) (by decide), round_trip_in_range.2.1 1024 (by decide),
   (round_trip_in_range.2.2 (okClient sampleVm) (samplePlan "l3-a" Tf.null)
      (createState (samplePlan "l3-a" Tf.null)
        (setNetwork (samplePlan "l3-a" Tf.null).NetworkInterfaces.Elements).createNics
        sampleVm) 1024 rfl (by decide) rfl
      (by
        intro hist p inst hcalls hanswer
        have hp : hist ++ [Call.CreateVmInstance p] =
            [Call.GetImage "img-1"] ++
              [Call.CreateVmInstance (diskless (samplePlan "l3-a" Tf.null))] :=
          hcalls.symm.trans (by decide)
        have hpe := (List.append_inj' hp rfl).2
        simp only [List.cons.injEq, Call.CreateVmInstance.injEq, and_true] at hpe
        have hinst : inst = sampleVm := by
          simp only [okClient] at hanswer
          exact (Except.ok.inj hanswer).symm
        rw [hinst, hpe]
        decide)).2⟩

/-! ## Create: placement fields of the request -/

/-- The request that Create sends for a plan with cluster_uuid = "cluster-1" and host_uuid
unset carries the empty string as ClusterUUID (C29 asks for "cluster-1"). -/
theorem Create_request_placement_counterexample :
    (Create (okClient sampleVm) (placedPlan Tf.null (Tf.known "cluster-1") Tf.null)).Calls =
      [Call.GetImage "img-1",
       Call.CreateVmInstance (diskless (placedPlan Tf.null (Tf.known "cluster-1") Tf.null))] ∧
    (diskless (placedPlan Tf.null (Tf.known "cluster-1") Tf.null)).ClusterUUID = "" ∧
    (placedPlan Tf.null (Tf.known "cluster-1") Tf.null).ClusterUuid.ValueString =
      "cluster-1" := by
  decide

/-- C29, the behaviour of the code. For every request that Create sends, HostUuid is the
planned host_uuid and ZoneUuid the planned datacenter_uuid (the empty string when unset),
but ClusterUUID is the planned cluster_uuid only when host_uuid is set and non-empty: with
host_uuid unset or empty the request carries the empty string as ClusterUUID, whatever
cluster_uuid is. -/
theorem Create_request_placement (c : ZSClient) (plan : vmInstanceDataSourceModel)
    (p : CreateVmInstanceParam) (h : Call.CreateVmInstance p ∈ (Create c plan).Calls) :
    p.HostUuid = plan.HostUuid.ValueString ∧
    p.ZoneUuid = plan.ZoneUuid.ValueString ∧
    p.ClusterUUID =
      (if plan.HostUuid.ValueString = "" then "" else plan.ClusterUuid.ValueString) := by
  obtain ⟨root, data, image, _, hreq⟩ := Create_path_of_call c plan p h
  rw [hreq]
  refine ⟨?_, ?_, ?_⟩
  · cases hh : plan.HostUuid <;> simp [createVmInstanceParam, hh, Tf.IsNull, Tf.ValueString]
    intro hv
    exact hv.symm
  · cases hz : plan.ZoneUuid <;> simp [createVmInstanceParam, hz, Tf.IsNull, Tf.ValueString]
    intro hv
    exact hv.symm
  · cases hc : plan.ClusterUuid <;> cases hh : plan.HostUuid <;>
      simp [createVmInstanceParam, hc, hh, Tf.IsNull, Tf.ValueString]

/-- Witness of C29 (behaviour of the code): with host_uuid = "host-1" the cluster passes
through. -/
theorem Create_request_placement_witness :
    (diskless (placedPlan (Tf.known "zone-1") (Tf.known "cluster-1")
      (Tf.known "host-1"))).HostUuid = "host-1" ∧
    (diskless (placedPlan (Tf.known "zone-1") (Tf.known "cluster-1")
      (Tf.known "host-1"))).ZoneUuid = "zone-1" ∧
    (diskless (placedPlan (Tf.known "zone-1") (Tf.known "cluster-1")
      (Tf.known "host-1"))).ClusterUUID = "cluster-1" :=
  Create_request_placement (okClient sampleVm)
    (placedPlan (Tf.known "zone-1") (Tf.known "cluster-1") (Tf.known "host-1"))
    (diskless (placedPlan (Tf.known "zone-1") (Tf.known "cluster-1") (Tf.known "host-1")))
    (by decide)

/-! ## Create: placement read-back of the data disks -/

theorem setPlacement_length (ds : List diskModel) :
    ∀ vols : List VolumeView, (setPlacement ds vols).length = ds.length := by
  induction ds with
  | nil => intro vols; simp [setPlacement]
  | cons d ds ih =>
    intro vols
    cases vols with
    | nil => simp [setPlacement]
    | cons v rest => simp [setPlacement, ih]

theorem setPlacement_getElem? (ds : List diskModel) :
    ∀ (vols : List VolumeView) (i : Nat) (d : diskModel), ds[i]? = some d →
      (setPlacement ds vols)[i]? =
        some { d with
          PrimaryStorageUuid :=
            match vols[i]? with
            | some v => Tf.known v.PrimaryStorageUUID
            | none => d.PrimaryStorageUuid } := by
  induction ds with
  | nil => intro vols i d h; simp at h
  | cons d0 ds ih =>
    intro vols i d h
    cases vols with
    | nil => simp [setPlacement, h]
    | cons v rest =>
      cases i with
      | zero =>
        simp only [List.getElem?_cons_zero, Option.some.injEq] at h
        subst h
        simp [setPlacement]
      | succ j =>
        simp only [List.getElem?_cons_succ] at h
        simp only [setPlacement, List.getElem?_cons_succ]
        exact ih rest j d h

/-- The stored data disk of `splitVm` for a plan with one data disk is placed on the
storage of the Root volume, ps-root, while the first realized Data volume is on ps-data
(C21 asks for ps-data). -/
theorem Create_data_disk_placement_counterexample :
    (Create (okClient splitVm) (sizedPlan [dataDisk 10 Tf.null Tf.null])).State.map
        (fun st => st.DataDisks) =
      some (Tf.known [{ Size := Tf.known 10, VirtioSCSI := Tf.null,
                        PrimaryStorageUuid := Tf.known "ps-root", CephPoolName := Tf.null }]) ∧
    (dataVolumesOf splitVm)[0]? = some ⟨"Data-A", "Data", "ps-data"⟩ ∧
    splitVm.AllVolumes[0]? = some ⟨"Root-0", "Root", "ps-root"⟩ := by
  decide

/-- C21, the behaviour of the code. When Create stored a state for a plan with the data
disks `disks` and the create call answered `inst`, the stored data-disk list is known and
has one entry per planned disk; entry i keeps the planned size, ceph_pool_name and
virtio_scsi, and its primary_storage_uuid is the storage location of the i-th volume of
`inst.AllVolumes`, whatever its type (so the Root volume is counted), and the planned value
when the response has no i-th volume. -/
theorem Create_data_disk_placement (c : ZSClient) (plan st : vmInstanceDataSourceModel)
    (inst : VmInstanceInventoryView) (disks : List diskModel)
    (hdisks : plan.DataDisks = Tf.known disks)
    (hcreate : (Create c plan).State = some st)
    (hresp : ∀ hist p, (Create c plan).Calls = hist ++ [Call.CreateVmInstance p] →
      c.CreateVmInstance hist p = .ok inst) :
    ∃ stored : List diskModel, st.DataDisks = Tf.known stored ∧
      stored.length = disks.length ∧
      ∀ (i : Nat) (d : diskModel), disks[i]? = some d →
        ∃ s : diskModel, stored[i]? = some s ∧ s.Size = d.Size ∧ s.CephPoolName = d.CephPoolName ∧
          s.VirtioSCSI = d.VirtioSCSI ∧
          s.PrimaryStorageUuid =
            (match inst.AllVolumes[i]? with
             | some v => Tf.known v.PrimaryStorageUUID
             | none => d.PrimaryStorageUuid) := by
  obtain ⟨hist, p, inst2, hcalls, hanswer, hst⟩ := Create_state_some c plan st hcreate
  have hinst : inst2 = inst := by
    have := hresp hist p hcalls
    rw [hanswer] at this
    exact Except.ok.inj this
  subst hinst
  refine ⟨setPlacement disks inst2.AllVolumes, ?_, setPlacement_length disks _, ?_⟩
  · rw [hst]
    simp only [createState, storedDataDisks, hdisks]
  · intro i d hd
    exact ⟨_, setPlacement_getElem? disks inst2.AllVolumes i d hd, rfl, rfl, rfl, rfl⟩

/-- Witness of C21 (behaviour of the code) on `splitVm`. -/
theorem Create_data_disk_placement_witness :
    ∃ stored : List diskModel,
      (createState (sizedPlan [dataDisk 10 Tf.null Tf.null])
        (setNetwork (sizedPlan [dataDisk 10 Tf.null Tf.null]).NetworkInterfaces.Elements).createNics
        splitVm).DataDisks = Tf.known stored ∧
      stored.length = 1 ∧
      ∀ (i : Nat) (d : diskModel), [dataDisk 10 Tf.null Tf.null][i]? = some d →
        ∃ s : diskModel, stored[i]? = some s ∧ s.Size = d.Size ∧ s.CephPoolName = d.CephPoolName ∧
          s.VirtioSCSI = d.VirtioSCSI ∧
          s.PrimaryStorageUuid =
            (match splitVm.AllVolumes[i]? with
             | some v => Tf.known v.PrimaryStorageUUID
             | none => d.PrimaryStorageUuid) :=
  Create_data_disk_placement (okClient splitVm) (sizedPlan [dataDisk 10 Tf.null Tf.null])
    (createState (sizedPlan [dataDisk 10 Tf.null Tf.null])
      (setNetwork (sizedPlan [dataDisk 10 Tf.null Tf.null]).NetworkInterfaces.Elements).createNics
      splitVm)
    splitVm [dataDisk 10 Tf.null Tf.null] rfl (by decide) (fun _ _ _ => rfl)

/-! ## Image Create -/

theorem imageResource_addImage_ok (env : Deps) (c : ImageClient) (plan : imageResourceModel)
    (h : List ImageCall) (uuids tags : List String) (ht : bootModeTags env plan = .ok tags) :
    (imageResource.addImage env c plan h uuids).Calls =
      h ++ [ImageCall.AddImage (addImageParam (withImageDefaults plan) tags uuids)] := by
  unfold imageResource.addImage
  rw [ht]
  simp only []
  split <;> rfl

theorem imageResource_addImage_error (env : Deps) (c : ImageClient)
    (plan : imageResourceModel) (h : List ImageCall) (uuids : List String) (d : Diagnostic)
    (ht : bootModeTags env plan = .error d) :
    imageResource.addImage env c plan h uuids =
      { Calls := h, Diagnostics := [d], State := none } := by
  unfold imageResource.addImage
  rw [ht]

/-- The three ways image `Create` ends: after the storage is chosen it returns what the
rest of the method leaves; a failing storage query makes it return with that error; an
empty answer of the storage query stops it at the read of element 0. -/
theorem imageResource_Create_cases (env : Deps) (c : ImageClient)
    (plan : imageResourceModel) :
    (storageChosen c plan = true ∧
      ∃ h uuids, (∀ call ∈ h, call = ImageCall.QueryBackupStorage ⟨[], none⟩) ∧
        (plan.BackupStorageUuids.IsNull = false → h = []) ∧
        h = (if plan.BackupStorageUuids.IsNull then
          [ImageCall.QueryBackupStorage ⟨[], none⟩] else []) ∧
        imageResource.Create env c plan =
          Run.returned (imageResource.addImage env c plan h uuids)) ∨
    (storageChosen c plan = false ∧ plan.BackupStorageUuids.IsNull = true ∧
      ∃ err, c.QueryBackupStorage [] ⟨[], none⟩ = .error err ∧
        imageResource.Create env c plan =
          Run.returned
            { Calls := [ImageCall.QueryBackupStorage ⟨[], none⟩],
              Diagnostics :=
                [⟨"fail to get Image storage", "fail to get backup storage, err: " ++ err⟩],
              State := none }) ∨
    (storageChosen c plan = false ∧ plan.BackupStorageUuids.IsNull = true ∧
      c.QueryBackupStorage [] ⟨[], none⟩ = .ok [] ∧
      imageResource.Create env c plan = Run.indexOutOfRange 0 0) := by
  unfold imageResource.Create storageChosen
  cases hnull : plan.BackupStorageUuids.IsNull with
  | false =>
    refine Or.inl ⟨by simp, [], plan.BackupStorageUuids.Elements, by simp, fun _ => rfl,
      by simp, ?_⟩
    simp
  | true =>
    simp only [if_true]
    cases hq : c.QueryBackupStorage [] ⟨[], none⟩ with
    | error err => exact Or.inr (Or.inl ⟨rfl, trivial, err, rfl, rfl⟩)
    | ok storage =>
      cases storage with
      | nil => exact Or.inr (Or.inr ⟨rfl, trivial, rfl, rfl⟩)
      | cons first rest =>
        refine Or.inl ⟨rfl, [ImageCall.QueryBackupStorage ⟨[], none⟩], [first.UUID], by simp,
          fun hf => Bool.noConfusion hf, rfl, rfl⟩

/-- Every `AddImage` request of image `Create` carries the system tags of the boot-mode
section. -/
theorem imageResource_Create_request_tags (env : Deps) (c : ImageClient)
    (plan : imageResourceModel) (r : ImageResponse) (p : AddImageParam)
    (hr : imageResource.Create env c plan = Run.returned r)
    (hp : ImageCall.AddImage p ∈ r.Calls) :
    bootModeTags env plan = .ok p.SystemTags := by
  rcases imageResource_Create_cases env c plan with
    ⟨_, h, uuids, hq, _, _, hrun⟩ | ⟨_, _, err, _, hrun⟩ | ⟨_, _, _, hrun⟩
  · rw [hrun] at hr
    have hret := Run.returned.inj hr
    subst hret
    cases ht : bootModeTags env plan with
    | error d =>
      rw [imageResource_addImage_error env c plan h uuids d ht] at hp
      exact absurd (hq _ hp) (by simp)
    | ok tags =>
      rw [imageResource_addImage_ok env c plan h uuids tags ht] at hp
      simp only [List.mem_append, List.mem_singleton] at hp
      rcases hp with hp | hp
      · exact absurd (hq _ hp) (by simp)
      · have := ImageCall.AddImage.inj hp
        rw [this]
        rfl
  · rw [hrun] at hr
    have hret := Run.returned.inj hr
    subst hret
    simp at hp
  · rw [hrun] at hr
    exact Run.noConfusion hr

/-- Once the backup storage is chosen, image `Create` returns, and its last call is the
`AddImage` request whenever the boot-mode section yields tags. -/
theorem imageResource_Create_sends (env : Deps) (c : ImageClient)
    (plan : imageResourceModel) (tags : List String) (hs : storageChosen c plan = true)
    (ht : bootModeTags env plan = .ok tags) :
    ∃ r p, imageResource.Create env c plan = Run.returned r ∧
      r.Calls.getLast? = some (ImageCall.AddImage p) ∧ p.SystemTags = tags := by
  rcases imageResource_Create_cases env c plan with
    ⟨_, h, uuids, _, _, _, hrun⟩ | ⟨hno, _⟩ | ⟨hno, _⟩
  · refine ⟨_, addImageParam (withImageDefaults plan) tags uuids, hrun, ?_, rfl⟩
    rw [imageResource_addImage_ok env c plan h uuids tags ht]
    simp
  · rw [hs] at hno
    exact Bool.noConfusion hno
  · rw [hs] at hno
    exact Bool.noConfusion hno

/-- A rejected boot mode: whenever image `Create` returns, it made no call but the
storage query, and once the storage is chosen it returns with the diagnostic of the
boot-mode section. -/
theorem imageResource_Create_rejected (env : Deps) (c : ImageClient)
    (plan : imageResourceModel) (d : Diagnostic) (ht : bootModeTags env plan = .error d) :
    (∀ r, imageResource.Create env c plan = Run.returned r →
      r.HasError = true ∧ r.State = none ∧
      (∀ call ∈ r.Calls, call = ImageCall.QueryBackupStorage ⟨[], none⟩) ∧
      (plan.BackupStorageUuids.IsNull = false → r.Calls = [])) ∧
    (storageChosen c plan = true →
      ∃ r, imageResource.Create env c plan = Run.returned r ∧ r.Diagnostics = [d]) := by
  rcases imageResource_Create_cases env c plan with
    ⟨_, h, uuids, hq, hnil, _, hrun⟩ | ⟨hno, hnull, err, _, hrun⟩ | ⟨hno, _, _, hrun⟩
  · rw [imageResource_addImage_error env c plan h uuids d ht] at hrun
    refine ⟨?_, fun _ => ⟨_, hrun, rfl⟩⟩
    intro r hr
    rw [hrun] at hr
    have hret := Run.returned.inj hr
    subst hret
    exact ⟨rfl, rfl, hq, hnil⟩
  · refine ⟨?_, fun hs => ?_⟩
    · intro r hr
      rw [hrun] at hr
      have hret := Run.returned.inj hr
      subst hret
      refine ⟨rfl, rfl, by simp, ?_⟩
      intro hf
      rw [hnull] at hf
      exact Bool.noConfusion hf
    · rw [hs] at hno
      exact Bool.noConfusion hno
  · refine ⟨?_, fun hs => ?_⟩
    · intro r hr
      rw [hrun] at hr
      exact Run.noConfusion hr
    · rw [hs] at hno
      exact Bool.noConfusion hno

theorem bootModeTags_unset (env : Deps) (plan : imageResourceModel)
    (hunset : bootModeUnset plan = true) :
    bootModeTags env plan = .ok [defaultBootTag env plan.Architecture] := by
  unfold bootModeUnset at hunset
  unfold bootModeTags defaultBootTag
  rw [if_pos hunset]
  by_cases ha : plan.Architecture.ValueString = "aarch64"
  · simp [ha]
  · simp [ha]

theorem bootModeTags_explicit (env : Deps) (plan : imageResourceModel) (b : String)
    (hb : plan.BootMode = Tf.known b) (hne : b ≠ "") :
    bootModeTags env plan =
      if env.ToLower b = "uefi" then .ok [env.SystemTagBootModeUEFI]
      else if env.ToLower b = "legacy" then .ok [env.SystemTagBootModeLegacy]
      else .error ⟨"invalid boot mode", "invalid boot mode: " ++ env.ToLower b⟩ := by
  unfold bootModeTags
  simp [hb, Tf.IsNull, Tf.ValueString, hne]

/-- C22. Boot-mode defaulting. For every image plan with boot_mode unset (null or empty)
the boot-mode section yields exactly one system tag: the UEFI boot tag when architecture
is exactly "aarch64", the legacy boot tag for every other architecture value (unset
included). Every AddImage request that Create sends carries exactly that list, so it
contains the UEFI tag and not the legacy tag for "aarch64" and the legacy tag and not the
UEFI tag otherwise; and once the backup storage is chosen, Create does send the request. -/
theorem imageResource_Create_default_boot_mode (env : Deps) (c : ImageClient)
    (plan : imageResourceModel) (hunset : bootModeUnset plan = true)
    (htags : env.SystemTagBootModeUEFI ≠ env.SystemTagBootModeLegacy) :
    bootModeTags env plan = .ok [defaultBootTag env plan.Architecture] ∧
    (∀ r p, imageResource.Create env c plan = Run.returned r →
      ImageCall.AddImage p ∈ r.Calls →
      p.SystemTags.length = 1 ∧
      (plan.Architecture.ValueString = "aarch64" →
        p.SystemTags = [env.SystemTagBootModeUEFI] ∧
        env.SystemTagBootModeUEFI ∈ p.SystemTags ∧
        env.SystemTagBootModeLegacy ∉ p.SystemTags) ∧
      (plan.Architecture.ValueString ≠ "aarch64" →
        p.SystemTags = [env.SystemTagBootModeLegacy] ∧
        env.SystemTagBootModeLegacy ∈ p.SystemTags ∧
        env.SystemTagBootModeUEFI ∉ p.SystemTags)) ∧
    (storageChosen c plan = true →
      ∃ r p, imageResource.Create env c plan = Run.returned r ∧
        r.Calls.getLast? = some (ImageCall.AddImage p) ∧
        p.SystemTags = [defaultBootTag env plan.Architecture]) := by
  have ht := bootModeTags_unset env plan hunset
  refine ⟨ht, ?_, fun hs => imageResource_Create_sends env c plan _ hs ht⟩
  intro r p hr hp
  have hp2 := imageResource_Create_request_tags env c plan r p hr hp
  rw [ht] at hp2
  have heq : p.SystemTags = [defaultBootTag env plan.Architecture] :=
    (Except.ok.inj hp2).symm
  rw [heq]
  refine ⟨rfl, ?_, ?_⟩
  · intro ha
    simp only [defaultBootTag, ha, if_true, List.mem_singleton, true_and]
    exact fun h => htags h.symm
  · intro ha
    simp only [defaultBootTag, ha, if_false, List.mem_singleton, true_and]
    exact htags

/-- Witness of C22: an aarch64 image and an x86_64 image without boot_mode on a remote
side with one backup storage. -/
theorem imageResource_Create_default_boot_mode_witness :
    bootModeTags sampleDeps (imagePlanOf Tf.null (Tf.known "aarch64") Tf.null) =
      .ok ["bootMode::UEFI"] ∧
    bootModeTags sampleDeps (imagePlanOf Tf.null (Tf.known "x86_64") (Tf.known "")) =
      .ok ["bootMode::Legacy"] ∧
    (∃ r p, imageResource.Create sampleDeps (imageClient [⟨"bs-1"⟩])
        (imagePlanOf Tf.null (Tf.known "aarch64") Tf.null) = Run.returned r ∧
      r.Calls.getLast? = some (ImageCall.AddImage p) ∧ p.SystemTags = ["bootMode::UEFI"]) :=
  ⟨(imageResource_Create_default_boot_mode sampleDeps (imageClient [⟨"bs-1"⟩])
      (imagePlanOf Tf.null (Tf.known "aarch64") Tf.null) (by decide) (by decide)).1,
   (imageResource_Create_default_boot_mode sampleDeps (imageClient [⟨"bs-1"⟩])
      (imagePlanOf Tf.null (Tf.known "x86_64") (Tf.known "")) (by decide) (by decide)).1,
   (imageResource_Create_default_boot_mode sampleDeps (imageClient [⟨"bs-1"⟩])
      (imagePlanOf Tf.null (Tf.known "aarch64") Tf.null) (by decide) (by decide)).2.2
      (by decide)⟩

/-- C23. Explicit boot mode. For every non-empty boot_mode string b: when
lowercase(b) = "uefi" the boot-mode section yields exactly the UEFI boot tag and every
AddImage request that Create sends carries exactly that tag; when lowercase(b) = "legacy"
likewise with the legacy boot tag; both whatever the architecture, and once the backup
storage is chosen Create does send the request. For every other b the boot-mode section
reports the "invalid boot mode" error; whenever Create returns it has reported an error,
stored no state and made no call other than the backup storage query (none at all when
image_storage_uuids is given), so it never calls AddImage; and once the backup storage is
chosen, Create returns with exactly the "invalid boot mode" error. A boot_mode that
passes the validator of the schema is "UEFI" or "Legacy", so with a `strings.ToLower` that
lower-cases these two words it falls under the first two cases. -/
theorem imageResource_Create_explicit_boot_mode (env : Deps) (c : ImageClient)
    (plan : imageResourceModel) (b : String) (hb : plan.BootMode = Tf.known b)
    (hne : b ≠ "") :
    (env.ToLower b = "uefi" →
      bootModeTags env plan = .ok [env.SystemTagBootModeUEFI] ∧
      (∀ r p, imageResource.Create env c plan = Run.returned r →
        ImageCall.AddImage p ∈ r.Calls → p.SystemTags = [env.SystemTagBootModeUEFI]) ∧
      (storageChosen c plan = true →
        ∃ r p, imageResource.Create env c plan = Run.returned r ∧
          r.Calls.getLast? = some (ImageCall.AddImage p) ∧
          p.SystemTags = [env.SystemTagBootModeUEFI])) ∧
    (env.ToLower b = "legacy" →
      bootModeTags env plan = .ok [env.SystemTagBootModeLegacy] ∧
      (∀ r p, imageResource.Create env c plan = Run.returned r →
        ImageCall.AddImage p ∈ r.Calls → p.SystemTags = [env.SystemTagBootModeLegacy]) ∧
      (storageChosen c plan = true →
        ∃ r p, imageResource.Create env c plan = Run.returned r ∧
          r.Calls.getLast? = some (ImageCall.AddImage p) ∧
          p.SystemTags = [env.SystemTagBootModeLegacy])) ∧
    (env.ToLower b ≠ "uefi" → env.ToLower b ≠ "legacy" →
      bootModeTags env plan =
        .error ⟨"invalid boot mode", "invalid boot mode: " ++ env.ToLower b⟩ ∧
      (∀ r, imageResource.Create env c plan = Run.returned r →
        r.HasError = true ∧ r.State = none ∧
        (∀ p, ImageCall.AddImage p ∉ r.Calls) ∧
        (∀ call ∈ r.Calls, call = ImageCall.QueryBackupStorage ⟨[], none⟩) ∧
        (plan.BackupStorageUuids.IsNull = false → r.Calls = [])) ∧
      (storageChosen c plan = true →
        ∃ r, imageResource.Create env c plan = Run.returned r ∧
          r.Calls = (if plan.BackupStorageUuids.IsNull then
            [ImageCall.QueryBackupStorage ⟨[], none⟩] else []) ∧
          r.Diagnostics =
            [⟨"invalid boot mode", "invalid boot mode: " ++ env.ToLower b⟩] ∧
          r.State = none)) ∧
    (bootModeValidator plan.BootMode = true →
      env.ToLower "UEFI" = "uefi" → env.ToLower "Legacy" = "legacy" →
      (b = "UEFI" ∧ bootModeTags env plan = .ok [env.SystemTagBootModeUEFI]) ∨
      (b = "Legacy" ∧ bootModeTags env plan = .ok [env.SystemTagBootModeLegacy])) := by
  have ht := bootModeTags_explicit env plan b hb hne
  have huefi : env.ToLower b = "uefi" →
      bootModeTags env plan = .ok [env.SystemTagBootModeUEFI] := by
    intro hu
    rw [ht, if_pos hu]
  have hlegacy : env.ToLower b = "legacy" →
      bootModeTags env plan = .ok [env.SystemTagBootModeLegacy] := by
    intro hl
    have hu : env.ToLower b ≠ "uefi" := by
      rw [hl]
      decide
    rw [ht, if_neg hu, if_pos hl]
  have hsent : ∀ tags, bootModeTags env plan = .ok tags →
      (∀ r p, imageResource.Create env c plan = Run.returned r →
        ImageCall.AddImage p ∈ r.Calls → p.SystemTags = tags) ∧
      (storageChosen c plan = true →
        ∃ r p, imageResource.Create env c plan = Run.returned r ∧
          r.Calls.getLast? = some (ImageCall.AddImage p) ∧ p.SystemTags = tags) := by
    intro tags htags
    refine ⟨?_, fun hs => imageResource_Create_sends env c plan _ hs htags⟩
    intro r p hr hp
    have hp2 := imageResource_Create_request_tags env c plan r p hr hp
    rw [htags] at hp2
    exact (Except.ok.inj hp2).symm
  refine ⟨?_, ?_, ?_, ?_⟩
  · intro hu
    exact ⟨huefi hu, hsent _ (huefi hu)⟩
  · intro hl
    exact ⟨hlegacy hl, hsent _ (hlegacy hl)⟩
  · intro hu hl
    rw [if_neg hu, if_neg hl] at ht
    have hrej := imageResource_Create_rejected env c plan _ ht
    refine ⟨ht, ?_, ?_⟩
    · intro r hr
      obtain ⟨herr, hstate, hcalls, hnil⟩ := hrej.1 r hr
      refine ⟨herr, hstate, ?_, hcalls, hnil⟩
      intro p hp
      exact ImageCall.noConfusion (hcalls _ hp)
    · intro hs
      rcases imageResource_Create_cases env c plan with
        ⟨_, h, uuids, _, _, hh, hrun⟩ | ⟨hno, _⟩ | ⟨hno, _⟩
      · rw [imageResource_addImage_error env c plan h uuids _ ht] at hrun
        exact ⟨_, hrun, hh, rfl, rfl⟩
      · rw [hs] at hno
        exact Bool.noConfusion hno
      · rw [hs] at hno
        exact Bool.noConfusion hno
  · intro hvalid hU hL
    have hmem : b = "Legacy" ∨ b = "UEFI" := by
      simpa [bootModeValidator, OneOf, hb] using hvalid
    rcases hmem with hbl | hbu
    · refine Or.inr ⟨hbl, hlegacy ?_⟩
      rw [hbl]
      exact hL
    · refine Or.inl ⟨hbu, huefi ?_⟩
      rw [hbu]
      exact hU

/-- Witness of C23: "UEFI" on an x86_64 image passes the validator and is sent as the
UEFI tag, "Legacy" yields the legacy tag, and "bios" (which the validator of the schema
does not let through) with a given storage list is rejected without any call. -/
theorem imageResource_Create_explicit_boot_mode_witness :
    (∃ r p, imageResource.Create sampleDeps (imageClient [⟨"bs-1"⟩])
        (imagePlanOf Tf.null (Tf.known "x86_64") (Tf.known "UEFI")) = Run.returned r ∧
      r.Calls.getLast? = some (ImageCall.AddImage p) ∧ p.SystemTags = ["bootMode::UEFI"]) ∧
    bootModeTags sampleDeps (imagePlanOf Tf.null (Tf.known "aarch64") (Tf.known "Legacy")) =
      .ok ["bootMode::Legacy"] ∧
    (∃ r, imageResource.Create sampleDeps (imageClient [])
        (imagePlanOf (Tf.known ["bs-1"]) (Tf.known "x86_64") (Tf.known "bios")) =
          Run.returned r ∧
      r.Calls = [] ∧
      r.Diagnostics = [⟨"invalid boot mode", "invalid boot mode: bios"⟩] ∧
      r.State = none) :=
  ⟨((imageResource_Create_explicit_boot_mode sampleDeps (imageClient [⟨"bs-1"⟩])
      (imagePlanOf Tf.null (Tf.known "x86_64") (Tf.known "UEFI")) "UEFI" rfl
      (by decide)).1 (by decide)).2.2 (by decide),
   ((imageResource_Create_explicit_boot_mode sampleDeps (imageClient [⟨"bs-1"⟩])
      (imagePlanOf Tf.null (Tf.known "aarch64") (Tf.known "Legacy")) "Legacy" rfl
      (by decide)).2.1 (by decide)).1,
   ((imageResource_Create_explicit_boot_mode sampleDeps (imageClient [])
      (imagePlanOf (Tf.known ["bs-1"]) (Tf.known "x86_64") (Tf.known "bios")) "bios" rfl
      (by decide)).2.2.1 (by decide) (by decide)).2.2 (by decide)⟩

/-- The run of image `Create` with image_storage_uuids unset on a remote side whose
backup storage query succeeds with an empty list: the read of element 0 of the empty
answer stops the method (C30 asks for a normal return with an error diagnostic). -/
theorem imageResource_Create_empty_storage_counterexample :
    (imagePlanOf Tf.null (Tf.known "x86_64") Tf.null).BackupStorageUuids.IsNull = true ∧
    (imageClient []).QueryBackupStorage [] ⟨[], none⟩ = .ok [] ∧
    imageResource.Create sampleDeps (imageClient [])
        (imagePlanOf Tf.null (Tf.known "x86_64") Tf.null) = Run.indexOutOfRange 0 0 :=
  ⟨rfl, rfl, by decide⟩

/-- C30, the behaviour of the code. With image_storage_uuids unset, image `Create`
returns with the error diagnostic "fail to get Image storage" when the backup storage
query fails, goes on with the uuid of the first storage as the only backup storage when
the query answers a non-empty list, and is stopped by the read of element 0 of an empty
list when the query succeeds with no storage; so it returns if and only if the query
does not answer the empty list. -/
theorem imageResource_Create_storage_unset (env : Deps) (c : ImageClient)
    (plan : imageResourceModel) (hnull : plan.BackupStorageUuids.IsNull = true) :
    (∀ err, c.QueryBackupStorage [] ⟨[], none⟩ = .error err →
      imageResource.Create env c plan =
        Run.returned
          { Calls := [ImageCall.QueryBackupStorage ⟨[], none⟩],
            Diagnostics :=
              [⟨"fail to get Image storage", "fail to get backup storage, err: " ++ err⟩],
            State := none }) ∧
    (∀ first rest, c.QueryBackupStorage [] ⟨[], none⟩ = .ok (first :: rest) →
      imageResource.Create env c plan =
        Run.returned
          (imageResource.addImage env c plan [ImageCall.QueryBackupStorage ⟨[], none⟩]
            [first.UUID]) ∧
      ∀ r p, imageResource.Create env c plan = Run.returned r →
        ImageCall.AddImage p ∈ r.Calls → p.BackupStorageUuids = [first.UUID]) ∧
    (c.QueryBackupStorage [] ⟨[], none⟩ = .ok [] →
      imageResource.Create env c plan = Run.indexOutOfRange 0 0) ∧
    ((∃ r, imageResource.Create env c plan = Run.returned r) ↔
      c.QueryBackupStorage [] ⟨[], none⟩ ≠ .ok []) := by
  have herr : ∀ err, c.QueryBackupStorage [] ⟨[], none⟩ = .error err →
      imageResource.Create env c plan =
        Run.returned
          { Calls := [ImageCall.QueryBackupStorage ⟨[], none⟩],
            Diagnostics :=
              [⟨"fail to get Image storage", "fail to get backup storage, err: " ++ err⟩],
            State := none } := by
    intro err hq
    unfold imageResource.Create
    simp only [hnull, if_true, hq]
  have hcons : ∀ first rest, c.QueryBackupStorage [] ⟨[], none⟩ = .ok (first :: rest) →
      imageResource.Create env c plan =
        Run.returned
          (imageResource.addImage env c plan [ImageCall.QueryBackupStorage ⟨[], none⟩]
            [first.UUID]) := by
    intro first rest hq
    unfold imageResource.Create
    simp only [hnull, if_true, hq]
  have hnil : c.QueryBackupStorage [] ⟨[], none⟩ = .ok [] →
      imageResource.Create env c plan = Run.indexOutOfRange 0 0 := by
    intro hq
    unfold imageResource.Create
    simp only [hnull, if_true, hq]
  refine ⟨herr, ?_, hnil, ?_⟩
  · intro first rest hq
    refine ⟨hcons first rest hq, ?_⟩
    intro r p hr hp
    rw [hcons first rest hq] at hr
    have hret := Run.returned.inj hr
    subst hret
    cases ht : bootModeTags env plan with
    | error d =>
      rw [imageResource_addImage_error env c plan _ _ d ht] at hp
      simp at hp
    | ok tags =>
      rw [imageResource_addImage_ok env c plan _ _ tags ht] at hp
      simp only [List.mem_append, List.mem_singleton, List.mem_cons, List.mem_nil_iff,
        or_false] at hp
      rcases hp with hp | hp
      · exact ImageCall.noConfusion hp
      · rw [ImageCall.AddImage.inj hp]
        rfl
  · constructor
    · rintro ⟨r, hr⟩ hq
      rw [hnil hq] at hr
      exact Run.noConfusion hr
    · intro hq
      cases hres : c.QueryBackupStorage [] ⟨[], none⟩ with
      | error err => exact ⟨_, herr err hres⟩
      | ok storage =>
        cases storage with
        | nil => exact absurd hres hq
        | cons first rest => exact ⟨_, hcons first rest hres⟩

/-- Witness of C30 (behaviour of the code): with one backup storage bs-1 the request
names bs-1; with a failing query Create returns with the error. -/
theorem imageResource_Create_storage_unset_witness :
    imageResource.Create sampleDeps (imageClient [⟨"bs-1"⟩, ⟨"bs-2"⟩])
        (imagePlanOf Tf.null (Tf.known "x86_64") Tf.null) =
      Run.returned
        (imageResource.addImage sampleDeps (imageClient [⟨"bs-1"⟩, ⟨"bs-2"⟩])
          (imagePlanOf Tf.null (Tf.known "x86_64") Tf.null)
          [ImageCall.QueryBackupStorage ⟨[], none⟩] ["bs-1"]) ∧
    (∃ r, imageResource.Create sampleDeps noStorageClient
        (imagePlanOf Tf.null (Tf.known "x86_64") Tf.null) = Run.returned r) :=
  ⟨((imageResource_Create_storage_unset sampleDeps (imageClient [⟨"bs-1"⟩, ⟨"bs-2"⟩])
      (imagePlanOf Tf.null (Tf.known "x86_64") Tf.null) rfl).2.1 ⟨"bs-1"⟩ [⟨"bs-2"⟩] rfl).1,
   (imageResource_Create_storage_unset sampleDeps noStorageClient
      (imagePlanOf Tf.null (Tf.known "x86_64") Tf.null) rfl).2.2.2.2
      (by simp [noStorageClient])⟩

/-! ## FilterResource -/

/-- The loop `for _, value := range values` setting `valueMatch`. -/
theorem any_eq_contains (values : List String) (fieldValue : String) :
    values.any (fun value => fieldValue == value) = values.contains fieldValue := by
  induction values with
  | nil => rfl
  | cons v vs ih => simp only [List.any_cons, List.contains_cons, ih]

/-- On supported keys the loop over the filter map computes the conjunction of the
filters, whatever the visiting order. -/
theorem matchFilters_supported (Title : String → String) (dataSourceName : String)
    (resourceValue : ResourceValue) :
    ∀ entries : List (String × List String),
      (∀ e ∈ entries, supportedKey Title dataSourceName resourceValue e.1 = true) →
      matchFilters Title (GetFieldMapping dataSourceName) resourceValue entries =
        .ok (passesAll Title dataSourceName entries resourceValue) := by
  intro entries
  induction entries with
  | nil => intro _; rfl
  | cons e rest ih =>
    intro hs
    obtain ⟨key, values⟩ := e
    have hkey := hs (key, values) (List.mem_cons_self _ _)
    have hrest := ih fun e he => hs e (List.mem_cons_of_mem _ he)
    unfold matchFilters
    simp only [supportedKey] at hkey
    cases hf : fieldValueOf Title (GetFieldMapping dataSourceName) resourceValue key with
    | error d =>
      rw [hf] at hkey
      exact Bool.noConfusion hkey
    | ok fieldValue =>
      have hany := any_eq_contains values fieldValue
      simp only [hany, hrest, passesAll, List.all_cons, passesFilter, hf]
      cases values.contains fieldValue <;> simp

theorem passesAll_perm (Title : String → String) (dataSourceName : String)
    (resourceValue : ResourceValue) {l1 l2 : List (String × List String)}
    (hp : l1.Perm l2) :
    passesAll Title dataSourceName l1 resourceValue =
      passesAll Title dataSourceName l2 resourceValue := by
  unfold passesAll
  rw [Bool.eq_iff_iff]
  simp only [List.all_eq_true]
  exact ⟨fun h e he => h e (hp.mem_iff.2 he), fun h e he => h e (hp.mem_iff.1 he)⟩

theorem filterLoop_supported {T : Type} (Title : String → String) (dataSourceName : String)
    (ValueOf : T → ResourceValue) (filters : List (String × List String))
    (range : Nat → List (String × List String)) (hrange : ∀ i, (range i).Perm filters) :
    ∀ (resources : List T) (i : Nat) (kept : List T),
      (∀ r ∈ resources, ∀ e ∈ filters,
        supportedKey Title dataSourceName (ValueOf r) e.1 = true) →
      filterLoop Title (GetFieldMapping dataSourceName) ValueOf range i resources kept =
        (kept ++ resources.filter
          (fun r => passesAll Title dataSourceName filters (ValueOf r)), []) := by
  intro resources
  induction resources with
  | nil => intro i kept _; simp [filterLoop]
  | cons r rest ih =>
    intro i kept hs
    have hr : ∀ e ∈ range i, supportedKey Title dataSourceName (ValueOf r) e.1 = true :=
      fun e he => hs r (List.mem_cons_self _ _) e ((hrange i).mem_iff.1 he)
    have hrest := fun (j : Nat) (k : List T) =>
      ih j k fun r2 hr2 => hs r2 (List.mem_cons_of_mem _ hr2)
    unfold filterLoop
    rw [matchFilters_supported Title dataSourceName (ValueOf r) (range i) hr,
      passesAll_perm Title dataSourceName (ValueOf r) (hrange i)]
    cases hpass : passesAll Title dataSourceName filters (ValueOf r) with
    | true => simp [hrest, List.filter_cons, hpass]
    | false => simp [hrest, List.filter_cons, hpass]

/-- C26. List filter semantics. For every resource list and filter map in which every
filter key resolves to a supported field of every resource, and every order in which the
loop visits the entries of the map, FilterResource reports no error and returns exactly
the resources, in input order, that pass every filter, a resource passing a filter when
the string rendering of the field equals at least one of the listed values: a resource is
returned iff it is a resource of the input and, for every filter, the rendering of its
field is among the values. With an empty filter map every resource is returned, and with
a key whose value list is empty none. -/
theorem FilterResource_semantics {T : Type} (Title : String → String)
    (ValueOf : T → ResourceValue) (resources : List T)
    (filters : List (String × List String)) (range : Nat → List (String × List String))
    (dataSourceName : String)
    (hrange : ∀ i, (range i).Perm filters)
    (hsupported : ∀ r ∈ resources, ∀ e ∈ filters,
      supportedKey Title dataSourceName (ValueOf r) e.1 = true) :
    FilterResource Title ValueOf resources range dataSourceName =
      (resources.filter (fun r => passesAll Title dataSourceName filters (ValueOf r)), []) ∧
    (∀ r, r ∈ (FilterResource Title ValueOf resources range dataSourceName).1 ↔
      r ∈ resources ∧ ∀ e ∈ filters, ∃ rendering,
        fieldValueOf Title (GetFieldMapping dataSourceName) (ValueOf r) e.1 = .ok rendering ∧
        rendering ∈ e.2) ∧
    (FilterResource Title ValueOf resources range dataSourceName).1.Sublist resources ∧
    (filters = [] →
      (FilterResource Title ValueOf resources range dataSourceName).1 = resources) ∧
    (∀ key, (key, []) ∈ filters →
      (FilterResource Title ValueOf resources range dataSourceName).1 = []) := by
  have hrun : FilterResource Title ValueOf resources range dataSourceName =
      (resources.filter (fun r => passesAll Title dataSourceName filters (ValueOf r)), []) := by
    unfold FilterResource
    rw [filterLoop_supported Title dataSourceName ValueOf filters range hrange resources 0 []
      hsupported]
    simp
  have hpass : ∀ (r : T) (e : String × List String),
      passesFilter Title dataSourceName (ValueOf r) e = true ↔
        ∃ rendering,
          fieldValueOf Title (GetFieldMapping dataSourceName) (ValueOf r) e.1 = .ok rendering ∧
          rendering ∈ e.2 := by
    intro r e
    unfold passesFilter
    cases hf : fieldValueOf Title (GetFieldMapping dataSourceName) (ValueOf r) e.1 with
    | error d => simp
    | ok s => simp
  rw [hrun]
  refine ⟨rfl, ?_, List.filter_sublist _, ?_, ?_⟩
  · intro r
    simp only [List.mem_filter, passesAll, List.all_eq_true, hpass]
  · intro hnil
    subst hnil
    simp [passesAll]
  · intro key hkey
    simp only [List.filter_eq_nil_iff, passesAll, List.all_eq_true, Bool.not_eq_true,
      not_forall]
    intro r _
    refine ⟨(key, []), hkey, ?_⟩
    unfold passesFilter
    split <;> simp

/-- Witness of C26 on three instances filtered on memory_size 1024 MB and name web or
cache, the map being visited in one order for even and in the other for odd resources:
only web is returned. -/
theorem FilterResource_semantics_witness :
    FilterResource titleFirst id sampleInstances
        (fun i => if i % 2 = 0 then sampleFilters else sampleFilters.reverse) "instance" =
      ([instanceValue "web" "Running" 1073741824 true], []) ∧
    sampleInstances.filter (fun r => passesAll titleFirst "instance" sampleFilters r) =
      [instanceValue "web" "Running" 1073741824 true] :=
  ⟨((FilterResource_semantics titleFirst id sampleInstances sampleFilters
      (fun i => if i % 2 = 0 then sampleFilters else sampleFilters.reverse) "instance"
      (by
        intro i
        show (if i % 2 = 0 then sampleFilters else sampleFilters.reverse).Perm sampleFilters
        split
        · exact List.Perm.refl _
        · exact List.reverse_perm _)
      (by decide)).1).trans (by decide),
   by decide⟩

end ZSphere
